import Mathlib

/-!
# GraphAPI — shallow embedding and verification of the spec claims

This file embeds the core of the GraphAPI repository (the versioned bundle
stores, the canonical-JSON/SHA-256 checksum layer, the icon-set resolution
algorithm, the graph-type composer, and the layout-set legacy-schema
migration) as executable Lean definitions, translated from
`src/graphapi/profile_contract.py`, `src/graphapi/graph_type_contract.py`,
`src/graphapi/iconset_store.py`, `src/graphapi/layoutset_store.py`,
`src/graphapi/linkset_store.py` and `src/graphapi/graphtype_store.py`,
and proves or refutes the frozen claims about them.

Modelling conventions:
* Python dicts are insertion-ordered association lists `List (String × α)`;
  `dictGet`/`dictInsert`/`dictRemove` mirror `d[k]`, `d[k] = v`, `d.pop(k)`.
* Python exceptions become `Except` values: store errors carry the
  `status_code`/`code` pair of the corresponding `*StoreError`; a raw
  `ValueError` escaping a normalizer is a separate `PyErr.valueError`.
* `datetime.now()` timestamps are an opaque `String` parameter threaded into
  each mutating operation (the store never branches on its content).
* JSON values are the inductive `Jsn`; `json.dumps(v, sort_keys=True,
  separators=(",", ":"), ensure_ascii=False)` is `canonicalJson`;
  `hashlib.sha256(...).hexdigest()` is `sha256Hex` (a full executable
  SHA-256 over the UTF-8 bytes).
-/

set_option maxRecDepth 200000

namespace GraphAPI

/-! ## Strings: code-point lexicographic order (Python `sorted` on `str`) -/

/-- Lexicographic `≤` on char lists by code point, the order Python uses to
compare strings. -/
def charListLe : List Char → List Char → Bool
  | [], _ => true
  | _ :: _, [] => false
  | a :: as, b :: bs =>
      if a.toNat < b.toNat then true
      else if b.toNat < a.toNat then false
      else charListLe as bs

/-- Python `a <= b` on strings. -/
def strLe (a b : String) : Bool := charListLe a.data b.data

/-- Sort relation used for `sorted(d.items(), key=lambda item: item[0])`. -/
def pairKeyLe {α : Type} (a b : String × α) : Prop := strLe a.1 b.1 = true

instance {α : Type} : DecidableRel (pairKeyLe (α := α)) :=
  fun a b => inferInstanceAs (Decidable (strLe a.1 b.1 = true))

/-- Python `dict(sorted(d.items(), key=lambda item: item[0]))`: a stable sort
of the entry list by key. -/
def sortByKey {α : Type} (l : List (String × α)) : List (String × α) :=
  l.insertionSort pairKeyLe

/-- Sort relation for `sorted(list_of_strings)`. -/
def strLeRel (a b : String) : Prop := strLe a b = true

instance : DecidableRel strLeRel :=
  fun a b => inferInstanceAs (Decidable (strLe a b = true))

/-- Python `sorted(xs)` for a list of strings. -/
def sortStrings (l : List String) : List String :=
  l.insertionSort strLeRel

/-! ## Python dicts as insertion-ordered association lists -/

/-- `d.get(k)` / `d[k]`: first binding of `k` (the only one, for the nodup-key
dicts the stores manipulate). -/
def dictGet {α : Type} : List (String × α) → String → Option α
  | [], _ => none
  | (k', v) :: t, k => if k' = k then some v else dictGet t k

/-- `k in d`. -/
def dictContains {α : Type} (l : List (String × α)) (k : String) : Bool :=
  (dictGet l k).isSome

/-- `d[k] = v`: replace in place if the key exists, else append at the end —
Python dicts keep insertion order. -/
def dictInsert {α : Type} : List (String × α) → String → α → List (String × α)
  | [], k, v => [(k, v)]
  | (k', v') :: t, k, v =>
      if k' = k then (k', v) :: t else (k', v') :: dictInsert t k v

/-- `d.pop(k, None)`: drop the binding of `k` if present. -/
def dictRemove {α : Type} : List (String × α) → String → List (String × α)
  | [], _ => []
  | (k', v') :: t, k => if k' = k then t else (k', v') :: dictRemove t k

/-- `list(d.keys())`. -/
def dictKeys {α : Type} (l : List (String × α)) : List String :=
  l.map Prod.fst

/-! ## JSON values

`Jsn` is the value universe the repository serializes: JSON null, booleans,
integers, strings, arrays and (insertion-ordered) objects.  The repository
never hashes floats, so numbers are `Int`.  Arrays and objects carry their
own list types so that all recursion below is structural (and hence reduces
inside the kernel). -/

mutual
inductive Jsn where
  | null
  | bool (b : Bool)
  | num (n : Int)
  | str (s : String)
  | arr (items : JsnList)
  | obj (fields : JsnFields)

inductive JsnList where
  | nil
  | cons (head : Jsn) (tail : JsnList)

inductive JsnFields where
  | nil
  | cons (key : String) (value : Jsn) (tail : JsnFields)
end

def JsnList.ofList : List Jsn → JsnList
  | [] => .nil
  | j :: t => .cons j (JsnList.ofList t)

def JsnFields.ofList : List (String × Jsn) → JsnFields
  | [] => .nil
  | (k, v) :: t => .cons k v (JsnFields.ofList t)

def JsnList.toList : JsnList → List Jsn
  | .nil => []
  | .cons j t => j :: JsnList.toList t

def JsnFields.toList : JsnFields → List (String × Jsn)
  | .nil => []
  | .cons k v t => (k, v) :: JsnFields.toList t

/-- JSON array literal from a Lean list. -/
def Jsn.arrL (l : List Jsn) : Jsn := .arr (.ofList l)

/-- JSON object literal from a Lean association list. -/
def Jsn.objL (l : List (String × Jsn)) : Jsn := .obj (.ofList l)

/-- The keys of a JSON object entry list. -/
def JsnFields.keys (f : JsnFields) : List String :=
  f.toList.map Prod.fst

/-! ## Canonical JSON (`_canonical_json` in both contract modules)

`json.dumps(value, sort_keys=True, separators=(",", ":"),
ensure_ascii=False)`: keys sorted recursively, no insignificant whitespace,
non-ASCII characters kept verbatim, the standard JSON string escapes. -/

/-- The escapes `json.dumps` applies inside string literals: `"`, `\`, the
named control escapes, `\u00XX` for the remaining control characters; with
`ensure_ascii=False` everything else is emitted unchanged. -/
def jsonEscapeChar (c : Char) : List Char :=
  if c = '"' then ['\\', '"']
  else if c = '\\' then ['\\', '\\']
  else if c = '\n' then ['\\', 'n']
  else if c = '\r' then ['\\', 'r']
  else if c = '\t' then ['\\', 't']
  else if c.toNat = 8 then ['\\', 'b']
  else if c.toNat = 12 then ['\\', 'f']
  else if c.toNat < 32 then
    ['\\', 'u', '0', '0',
     (if c.toNat / 16 < 10 then Char.ofNat (48 + c.toNat / 16)
      else Char.ofNat (87 + c.toNat / 16)),
     (if c.toNat % 16 < 10 then Char.ofNat (48 + c.toNat % 16)
      else Char.ofNat (87 + c.toNat % 16))]
  else [c]

def jsonEscape (s : String) : String :=
  String.mk (s.data.flatMap jsonEscapeChar)

mutual

/-- `json.dumps(j, sort_keys=True, separators=(",", ":"), ensure_ascii=False)`.
An object serializes each entry's value and joins the entries in key-sorted
order; serializing the values before sorting is observationally identical to
Python's `sorted(d.items())`-then-serialize because the (stable) sort
compares keys only and leaves each value attached to its key. -/
def canonicalJson : Jsn → String
  | .null => "null"
  | .bool b => if b then "true" else "false"
  | .num n => toString n
  | .str s => "\"" ++ jsonEscape s ++ "\""
  | .arr items => "[" ++ String.intercalate "," (canonicalJsonList items) ++ "]"
  | .obj fields =>
      "\x7b" ++
        String.intercalate ","
          ((sortByKey (canonicalJsonFields fields)).map fun kv =>
            "\"" ++ jsonEscape kv.1 ++ "\":" ++ kv.2) ++
        "\x7d"
termination_by structural j => j

def canonicalJsonList : JsnList → List String
  | .nil => []
  | .cons j t => canonicalJson j :: canonicalJsonList t
termination_by structural l => l

def canonicalJsonFields : JsnFields → List (String × String)
  | .nil => []
  | .cons k v t => (k, canonicalJson v) :: canonicalJsonFields t
termination_by structural l => l

end

/-! ## SHA-256 (`hashlib.sha256(...).hexdigest()`)

A complete executable SHA-256 over UTF-8 bytes, with 32-bit words as `Nat`
reduced mod `2^32`.  The message schedule is kept as a 16-word sliding
window so every step is constant-size and the kernel can evaluate digests
of concrete inputs. -/

def M32 : Nat := 4294967296

def add32 (a b : Nat) : Nat := (a + b) % M32

def rotr32 (n w : Nat) : Nat := ((w >>> n) ||| (w <<< (32 - n))) % M32

def bigSigma0 (w : Nat) : Nat := (rotr32 2 w) ^^^ (rotr32 13 w) ^^^ (rotr32 22 w)
def bigSigma1 (w : Nat) : Nat := (rotr32 6 w) ^^^ (rotr32 11 w) ^^^ (rotr32 25 w)
def smallSigma0 (w : Nat) : Nat := (rotr32 7 w) ^^^ (rotr32 18 w) ^^^ (w >>> 3)
def smallSigma1 (w : Nat) : Nat := (rotr32 17 w) ^^^ (rotr32 19 w) ^^^ (w >>> 10)

def chFn (x y z : Nat) : Nat := (x &&& y) ^^^ ((x ^^^ 4294967295) &&& z)
def majFn (x y z : Nat) : Nat := (x &&& y) ^^^ (x &&& z) ^^^ (y &&& z)

/-- Round constants for rounds 0–15. -/
def shaK0 : List Nat :=
  [1116352408, 1899447441, 3049323471, 3921009573, 961987163, 1508970993, 2453635748, 2870763221,
   3624381080, 310598401, 607225278, 1426881987, 1925078388, 2162078206, 2614888103, 3248222580]

/-- Round constants for rounds 16–63. -/
def shaK1 : List Nat :=
  [3835390401, 4022224774, 264347078, 604807628, 770255983, 1249150122, 1555081692, 1996064986,
   2554220882, 2821834349, 2952996808, 3210313671, 3336571891, 3584528711, 113926993, 338241895,
   666307205, 773529912, 1294757372, 1396182291, 1695183700, 1986661051, 2177026350, 2456956037,
   2730485921, 2820302411, 3259730800, 3345764771, 3516065817, 3600352804, 4094571909, 275423344,
   430227734, 506948616, 659060556, 883997877, 958139571, 1322822218, 1537002063, 1747873779,
   1955562222, 2024104815, 2227730452, 2361852424, 2428436474, 2756734187, 3204031479, 3329325298]

structure Sha256State where
  h0 : Nat
  h1 : Nat
  h2 : Nat
  h3 : Nat
  h4 : Nat
  h5 : Nat
  h6 : Nat
  h7 : Nat
deriving Repr, DecidableEq

def shaInit : Sha256State :=
  ⟨1779033703, 3144134277, 1013904242, 2773480762, 1359893119, 2600822924, 528734635, 1541459225⟩

def bytesToWordBE (b0 b1 b2 b3 : Nat) : Nat :=
  b0 * 16777216 + b1 * 65536 + b2 * 256 + b3

def blockWords : List Nat → List Nat
  | b0 :: b1 :: b2 :: b3 :: rest => bytesToWordBE b0 b1 b2 b3 :: blockWords rest
  | _ => []

structure Regs where
  a : Nat
  b : Nat
  c : Nat
  d : Nat
  e : Nat
  f : Nat
  g : Nat
  h : Nat

def roundStep (r : Regs) (kw : Nat × Nat) : Regs :=
  let t1 := add32 (add32 (add32 r.h (bigSigma1 r.e)) (add32 (chFn r.e r.f r.g) kw.1)) kw.2
  let t2 := add32 (bigSigma0 r.a) (majFn r.a r.b r.c)
  ⟨add32 t1 t2, r.a, r.b, r.c, add32 r.d t1, r.e, r.f, r.g⟩

/-- Sliding window of the last 16 schedule words. -/
structure W16 where
  w0 : Nat
  w1 : Nat
  w2 : Nat
  w3 : Nat
  w4 : Nat
  w5 : Nat
  w6 : Nat
  w7 : Nat
  w8 : Nat
  w9 : Nat
  w10 : Nat
  w11 : Nat
  w12 : Nat
  w13 : Nat
  w14 : Nat
  w15 : Nat

def w16Shift (w : W16) (x : Nat) : W16 :=
  ⟨w.w1, w.w2, w.w3, w.w4, w.w5, w.w6, w.w7, w.w8, w.w9, w.w10, w.w11, w.w12, w.w13, w.w14, w.w15, x⟩

/-- `W[i] = σ1(W[i-2]) + W[i-7] + σ0(W[i-15]) + W[i-16]` read off the window. -/
def nextScheduleWord (w : W16) : Nat :=
  add32 (add32 (smallSigma1 w.w14) w.w9) (add32 (smallSigma0 w.w1) w.w0)

def w16OfWords : List Nat → W16
  | [a0, a1, a2, a3, a4, a5, a6, a7, a8, a9, a10, a11, a12, a13, a14, a15] =>
      ⟨a0, a1, a2, a3, a4, a5, a6, a7, a8, a9, a10, a11, a12, a13, a14, a15⟩
  | _ => ⟨0, 0, 0, 0, 0, 0, 0, 0, 0, 0, 0, 0, 0, 0, 0, 0⟩

def round64 : Regs × W16 → Nat → Regs × W16
  | (r, w), k =>
      let wi := nextScheduleWord w
      (roundStep r (k, wi), w16Shift w wi)

def compressBlock (st : Sha256State) (block : List Nat) : Sha256State :=
  let ws := blockWords block
  let r0 : Regs := ⟨st.h0, st.h1, st.h2, st.h3, st.h4, st.h5, st.h6, st.h7⟩
  let r16 := (shaK0.zip ws).foldl roundStep r0
  let rw := shaK1.foldl round64 (r16, w16OfWords ws)
  let r := rw.1
  ⟨add32 st.h0 r.a, add32 st.h1 r.b, add32 st.h2 r.c, add32 st.h3 r.d,
   add32 st.h4 r.e, add32 st.h5 r.f, add32 st.h6 r.g, add32 st.h7 r.h⟩

/-- Append `128`, zero padding to 56 mod 64, and the 64-bit big-endian bit
length. -/
def padMessage (msg : List Nat) : List Nat :=
  let bitLen := 8 * msg.length
  let z := (119 - msg.length % 64) % 64
  msg ++ [128] ++ List.replicate z 0 ++
    [(bitLen >>> 56) % 256, (bitLen >>> 48) % 256, (bitLen >>> 40) % 256, (bitLen >>> 32) % 256,
     (bitLen >>> 24) % 256, (bitLen >>> 16) % 256, (bitLen >>> 8) % 256, bitLen % 256]

def toBlocksAux : Nat → List Nat → List (List Nat)
  | 0, _ => []
  | n + 1, l => l.take 64 :: toBlocksAux n (l.drop 64)

def toBlocks (l : List Nat) : List (List Nat) :=
  toBlocksAux ((l.length + 63) / 64) l

def sha256 (msg : List Nat) : Sha256State :=
  (toBlocks (padMessage msg)).foldl compressBlock shaInit

def wordBytesBE (w : Nat) : List Nat :=
  [(w >>> 24) % 256, (w >>> 16) % 256, (w >>> 8) % 256, w % 256]

def digestBytes (st : Sha256State) : List Nat :=
  [st.h0, st.h1, st.h2, st.h3, st.h4, st.h5, st.h6, st.h7].flatMap wordBytesBE

def hexDigitChar (n : Nat) : Char :=
  if n < 10 then Char.ofNat (48 + n) else if n < 16 then Char.ofNat (87 + n) else '0'

def bytesToHex (bs : List Nat) : String :=
  String.mk (bs.flatMap fun b => [hexDigitChar (b / 16 % 16), hexDigitChar (b % 16)])

/-- UTF-8 encoding of one scalar value. -/
def utf8Char (c : Char) : List Nat :=
  let n := c.toNat
  if n < 128 then [n]
  else if n < 2048 then [192 + n / 64, 128 + n % 64]
  else if n < 65536 then [224 + n / 4096, 128 + (n / 64) % 64, 128 + n % 64]
  else [240 + n / 262144, 128 + (n / 4096) % 64, 128 + (n / 64) % 64, 128 + n % 64]

def utf8Bytes (s : String) : List Nat :=
  s.data.flatMap utf8Char

/-- `hashlib.sha256(s.encode("utf-8")).hexdigest()` — the `_sha256_hex`
helper of both contract modules composed with `_canonical_json` happens at
each call site below. -/
def sha256Hex (s : String) : String :=
  bytesToHex (digestBytes (sha256 (utf8Bytes s)))

/-- `_sha256_hex(value)` from `profile_contract.py` / `graph_type_contract.py`:
hash of the canonical JSON serialization. -/
def _sha256_hex (value : Jsn) : String :=
  sha256Hex (canonicalJson value)

/-! ## Errors

Python exceptions as values.  A `*StoreError` is `store statusCode code`
(the human-readable `message`/`details` payloads carry no control flow and
are omitted); a `ValueError` escaping a normalizer is `valueError`; a
pydantic `ValidationError` from `model_validate` is `validationError`. -/

inductive PyErr where
  | store (statusCode : Nat) (code : String)
  | valueError (msg : String)
  | validationError (msg : String)
deriving Repr, DecidableEq

/-- A Python `if cond: raise err` guard statement. -/
def pyCheck (c : Prop) [Decidable c] (e : PyErr) : Except PyErr Unit :=
  if c then .error e else .ok ()

/-! ## Python string helpers -/

/-- Python `str.strip()` (the whitespace the repository's identifiers can
contain is ASCII). -/
def pyWhitespace (c : Char) : Bool :=
  c = ' ' ∨ c = '\t' ∨ c = '\n' ∨ c = '\r' ∨ c.toNat = 11 ∨ c.toNat = 12

def pyStrip (s : String) : String :=
  String.mk ((s.data.dropWhile pyWhitespace).reverse.dropWhile pyWhitespace |>.reverse)

/-- Python `str.lower()` on the ASCII identifiers the stores handle. -/
def pyLower (s : String) : String :=
  String.mk (s.data.map Char.toLower)

/-- Python `str.upper()`. -/
def pyUpper (s : String) : String :=
  String.mk (s.data.map Char.toUpper)

def isLowerAlpha (c : Char) : Bool := 97 ≤ c.toNat ∧ c.toNat ≤ 122
def isUpperAlpha (c : Char) : Bool := 65 ≤ c.toNat ∧ c.toNat ≤ 90
def isDigitChar (c : Char) : Bool := 48 ≤ c.toNat ∧ c.toNat ≤ 57
def isLowerAlnum (c : Char) : Bool := isLowerAlpha c ∨ isDigitChar c

/-- Split a char list on a separator character (Python `str.split(sep)`). -/
def splitOnChar (sep : Char) : List Char → List (List Char)
  | [] => [[]]
  | c :: t =>
      let rest := splitOnChar sep t
      if c = sep then [] :: rest
      else
        match rest with
        | [] => [[c]]
        | seg :: segs => (c :: seg) :: segs

/-- Split on either of two separator characters. -/
def splitOnChars (sep1 sep2 : Char) : List Char → List (List Char)
  | [] => [[]]
  | c :: t =>
      let rest := splitOnChars sep1 sep2 t
      if c = sep1 ∨ c = sep2 then [] :: rest
      else
        match rest with
        | [] => [[c]]
        | seg :: segs => (c :: seg) :: segs

/-! ## Regex patterns from `profile_contract.py` / `graph_type_contract.py`,
as executable full-match checkers. -/

/-- `PROFILE_ID_PATTERN = ^[a-z0-9][a-z0-9_-]{1,63}$` (also the icon-set,
theme, layout-set, link-set and graph-type id pattern). -/
def matchesProfileIdPattern (s : String) : Bool :=
  match s.data with
  | [] => false
  | c :: rest =>
      isLowerAlnum c ∧ 1 ≤ rest.length ∧ rest.length ≤ 63 ∧
        rest.all fun d => isLowerAlnum d ∨ d = '_' ∨ d = '-'

/-- `TYPE_KEY_PATTERN = ^[a-z][a-z0-9_-]*$` (also `LINK_TYPE_PATTERN`). -/
def matchesTypeKeyPattern (s : String) : Bool :=
  match s.data with
  | [] => false
  | c :: rest =>
      isLowerAlpha c ∧ rest.all fun d => isLowerAlnum d ∨ d = '_' ∨ d = '-'

/-- `ICONIFY_NAME_PATTERN = ^[a-z0-9]+(?:-[a-z0-9]+)*:[a-z0-9]+(?:[-_][a-z0-9]+)*$`:
exactly one `:`; the pack is dash-separated non-empty lower-alnum segments,
the icon dash-or-underscore-separated non-empty lower-alnum segments. -/
def matchesIconifyPattern (s : String) : Bool :=
  match splitOnChar ':' s.data with
  | [pack, icon] =>
      (splitOnChar '-' pack).all (fun seg => ¬seg.isEmpty ∧ seg.all isLowerAlnum) ∧
        (splitOnChars '-' '_' icon).all fun seg => ¬seg.isEmpty ∧ seg.all isLowerAlnum
  | _ => false

/-- `CHECKSUM_PATTERN = ^[a-f0-9]{64}$`. -/
def matchesChecksumPattern (s : String) : Bool :=
  (s.data.length == 64) &&
    s.data.all fun c => isDigitChar c || (decide (97 ≤ c.toNat) && decide (c.toNat ≤ 102))

/-- `LAYOUT_SETTING_KEY_PATTERN = ^[A-Za-z0-9][A-Za-z0-9._:-]{0,127}$`. -/
def matchesLayoutSettingKeyPattern (s : String) : Bool :=
  match s.data with
  | [] => false
  | c :: rest =>
      (isLowerAlpha c ∨ isUpperAlpha c ∨ isDigitChar c) ∧ rest.length ≤ 127 ∧
        rest.all fun d =>
          isLowerAlpha d ∨ isUpperAlpha d ∨ isDigitChar d ∨ d = '.' ∨ d = '_' ∨ d = ':' ∨ d = '-'

/-- `ELK_EDGE_TYPE_PATTERN = ^[A-Z_][A-Z0-9_]*$`. -/
def matchesElkEdgeTypePattern (s : String) : Bool :=
  match s.data with
  | [] => false
  | c :: rest =>
      (isUpperAlpha c ∨ c = '_') ∧ rest.all fun d => isUpperAlpha d ∨ isDigitChar d ∨ d = '_'

/-! ## Size limits (`profile_contract.py` 23–28, `graph_type_contract.py` 38–44) -/

def MIN_TYPE_KEY_LENGTH : Nat := 2
def MAX_TYPE_KEY_LENGTH : Nat := 64
def MAX_ICONSET_ENTRIES : Nat := 2000
def MAX_RESOLVED_TYPE_KEYS : Nat := 5000
def MAX_ICONSET_REFS : Nat := 8
def MAX_LINK_TYPES : Nat := 256
def MAX_LINK_SET_ENTRIES : Nat := MAX_LINK_TYPES
def MAX_LAYOUT_SET_BYTES : Nat := 512000
def MAX_LAYOUT_SET_ENTRIES : Nat := 1024
def MAX_ELK_PROPERTIES : Nat := 256

def RESERVED_LAYOUT_SETTING_KEYS : List String := ["type_icon_map", "edge_type_overrides"]

/-! ## Normalizers -/

/-- `normalize_icon_set_id` (`profile_contract.py` 69): strip, lower, match
the id pattern. -/
def normalize_icon_set_id (value : String) : Except PyErr String :=
  let iconSetId := pyLower (pyStrip value)
  if matchesProfileIdPattern iconSetId then .ok iconSetId
  else .error (.valueError "iconSetId must match pattern")

/-- `normalize_type_key` (`profile_contract.py` 76): strip, lower, reject
inner spaces, bound the length, match `TYPE_KEY_PATTERN`. -/
def normalize_type_key (value : String) : Except PyErr String :=
  let key := pyLower (pyStrip value)
  if key.data.contains ' ' then .error (.valueError "spaces are not allowed")
  else if ¬(MIN_TYPE_KEY_LENGTH ≤ key.data.length ∧ key.data.length ≤ MAX_TYPE_KEY_LENGTH) then
    .error (.valueError "length must be 2-64")
  else if matchesTypeKeyPattern key then .ok key
  else .error (.valueError "use the type key pattern")

/-- `normalize_link_type` (`profile_contract.py` 89). -/
def normalize_link_type (value : String) : Except PyErr String :=
  let item := pyLower (pyStrip value)
  if item.isEmpty then .error (.valueError "linkTypes entries must not be empty")
  else if matchesTypeKeyPattern item then .ok item
  else .error (.valueError "use the link type pattern")

/-- `normalize_iconify_name` (`profile_contract.py` 98). -/
def normalize_iconify_name (value : String) : Except PyErr String :=
  let iconName := pyLower (pyStrip value)
  if matchesIconifyPattern iconName then .ok iconName
  else .error (.valueError "use pack:icon")

/-- `normalize_checksum` (`profile_contract.py` 107). -/
def normalize_checksum (value : String) : Except PyErr String :=
  let checksum := pyLower (pyStrip value)
  if matchesChecksumPattern checksum then .ok checksum
  else .error (.valueError "checksum must match pattern")

/-- `normalize_layout_set_id` (`graph_type_contract.py` 55); the link-set and
graph-type id normalizers are identical modulo the message. -/
def normalize_layout_set_id (value : String) : Except PyErr String :=
  let normalized := pyLower (pyStrip value)
  if matchesProfileIdPattern normalized then .ok normalized
  else .error (.valueError "layoutSetId must match pattern")

def normalize_link_set_id (value : String) : Except PyErr String :=
  let normalized := pyLower (pyStrip value)
  if matchesProfileIdPattern normalized then .ok normalized
  else .error (.valueError "linkSetId must match pattern")

def normalize_graph_type_id (value : String) : Except PyErr String :=
  let normalized := pyLower (pyStrip value)
  if matchesProfileIdPattern normalized then .ok normalized
  else .error (.valueError "graphTypeId must match pattern")

/-- `normalize_layout_setting_key` (`graph_type_contract.py` 62): strip (no
lowering), match the setting-key pattern, refuse the two reserved keys the
graph-type composer injects. -/
def normalize_layout_setting_key (value : String) : Except PyErr String :=
  let normalized := pyStrip value
  if ¬matchesLayoutSettingKeyPattern normalized then
    .error (.valueError "layout setting key must match pattern")
  else if RESERVED_LAYOUT_SETTING_KEYS.contains normalized then
    .error (.valueError "layout setting key is reserved and cannot be set directly")
  else .ok normalized

/-! ## Icon-set contract (`profile_contract.py`) -/

/-- Validated `name` field: pydantic checks `1 ≤ len ≤ 120` on the raw value,
the field validator then strips and rejects blank names. -/
def validateNameField (value : String) : Except PyErr String :=
  if value.data.length < 1 ∨ 120 < value.data.length then
    .error (.validationError "name length")
  else
    let text := pyStrip value
    if text.isEmpty then .error (.validationError "name must not be empty")
    else .ok text

/-- The entries loop of `IconsetEditableFieldsV1.validate_entries`:
normalize each key/icon pair in order, rejecting duplicates after
normalization. -/
def normalizeIconsetEntries :
    List (String × String) → List (String × String) → Except PyErr (List (String × String))
  | [], acc => .ok acc
  | (rawKey, rawValue) :: t, acc => do
      let key ← normalize_type_key rawKey
      let icon ← normalize_iconify_name rawValue
      if dictContains acc key then
        .error (.validationError "duplicate node type key")
      else
        normalizeIconsetEntries t (acc ++ [(key, icon)])

/-- `IconsetEditableFieldsV1.validate_entries` (`profile_contract.py` 139):
non-empty, each entry normalized, no duplicates, bounded, sorted by key.
(The `Field(min_length=1, max_length=2000)` bound runs first.) -/
def validate_entries (values : List (String × String)) : Except PyErr (List (String × String)) := do
  let _ ← pyCheck (values.length < 1 ∨ MAX_ICONSET_ENTRIES < values.length) (.validationError "entries size")
  let _ ← pyCheck (values.isEmpty) (.validationError "entries must not be empty")
  let normalized ← normalizeIconsetEntries values []
  let _ ← pyCheck (MAX_ICONSET_ENTRIES < normalized.length) (.validationError "entries exceeds max size")
  pure (sortByKey normalized)

/-- `IconsetEditableFieldsV1`: the editable fields of an icon set, already
through pydantic validation. -/
structure IconsetEditableFieldsV1 where
  name : String
  entries : List (String × String)
deriving Repr, DecidableEq

/-- `IconsetEditableFieldsV1.model_validate` over raw fields. -/
def validateIconsetEditableFields (name : String) (entries : List (String × String)) :
    Except PyErr IconsetEditableFieldsV1 := do
  let name ← validateNameField name
  let entries ← validate_entries entries
  pure ⟨name, entries⟩

/-- `IconsetCreateRequestV1`: editable fields plus the normalized id. -/
structure IconsetCreateRequestV1 where
  iconSetId : String
  name : String
  entries : List (String × String)
deriving Repr, DecidableEq

/-- `IconsetBundleV1`: a fully-derived icon-set snapshot. -/
structure IconsetBundleV1 where
  iconSetId : String
  iconSetVersion : Nat
  name : String
  entries : List (String × String)
  updatedAt : String
  checksum : String
deriving Repr, DecidableEq

/-- `IconsetBundleV1.model_validate`: the editable-field validators plus
`iconSetVersion ≥ 1` and the 64-character checksum bound. -/
def validateIconsetBundle (b : IconsetBundleV1) : Except PyErr IconsetBundleV1 := do
  let name ← validateNameField b.name
  let entries ← validate_entries b.entries
  let _ ← pyCheck (b.iconSetVersion < 1) (.validationError "iconSetVersion ge 1")
  let _ ← pyCheck (b.checksum.data.length ≠ 64) (.validationError "checksum length")
  pure { b with name := name, entries := entries }

/-- `canonical_iconset_bundle_payload` (`profile_contract.py` 548): the
checksum input — schema version, id, version, name, entries sorted by key;
`updatedAt` and `checksum` excluded. -/
def canonical_iconset_bundle_payload (iconSetId : String) (iconSetVersion : Nat)
    (name : String) (entries : List (String × String)) : Jsn :=
  .objL
    [("schemaVersion", .str "v1"),
     ("iconSetId", .str iconSetId),
     ("iconSetVersion", .num iconSetVersion),
     ("name", .str name),
     ("entries", .objL ((sortByKey entries).map fun kv => (kv.1, .str kv.2)))]

/-- `compute_iconset_checksum` (`profile_contract.py` 558). -/
def compute_iconset_checksum (iconSetId : String) (iconSetVersion : Nat)
    (name : String) (entries : List (String × String)) : String :=
  _sha256_hex (canonical_iconset_bundle_payload iconSetId iconSetVersion name entries)

/-- `IconsetSourceRefV1`: provenance of one resolved icon-set source. -/
structure IconsetSourceRefV1 where
  iconSetId : String
  iconSetVersion : Nat
  checksum : String
deriving Repr, DecidableEq

/-- `NodeTypeSourceV1`: per-key provenance in a resolution result. -/
structure NodeTypeSourceV1 where
  key : String
  icon : String
  selectedFrom : IconsetSourceRefV1
  candidates : List IconsetSourceRefV1
deriving Repr, DecidableEq

/-- `ProfileIconsetRefV1` (also the graph-type icon-set ref): id, pinned
version, optional pinned checksum. -/
structure ProfileIconsetRefV1 where
  iconSetId : String
  iconSetVersion : Nat
  checksum : Option String
deriving Repr, DecidableEq

/-- `IconConflictPolicy = Literal["reject", "first-wins", "last-wins"]`. -/
inductive IconConflictPolicy where
  | reject
  | firstWins
  | lastWins
deriving Repr, DecidableEq

/-- The JSON string a policy serializes as. -/
def IconConflictPolicy.toJson : IconConflictPolicy → String
  | .reject => "reject"
  | .firstWins => "first-wins"
  | .lastWins => "last-wins"

/-- `canonical_iconset_resolution_payload` (`profile_contract.py` 562): the
resolution checksum input — policy, the sources **in list order** projected
to id/version/checksum, and the resolved entries sorted by key. -/
def canonical_iconset_resolution_payload (conflictPolicy : IconConflictPolicy)
    (sources : List IconsetSourceRefV1) (resolvedEntries : List (String × String)) : Jsn :=
  .objL
    [("schemaVersion", .str "v1"),
     ("conflictPolicy", .str conflictPolicy.toJson),
     ("sources", .arrL (sources.map fun item =>
        .objL
          [("iconSetId", .str item.iconSetId),
           ("iconSetVersion", .num item.iconSetVersion),
           ("checksum", .str item.checksum)])),
     ("resolvedEntries", .objL ((sortByKey resolvedEntries).map fun kv => (kv.1, .str kv.2)))]

/-- `compute_icon_set_resolution_checksum` (`profile_contract.py` 583). -/
def compute_icon_set_resolution_checksum (conflictPolicy : IconConflictPolicy)
    (sources : List IconsetSourceRefV1) (resolvedEntries : List (String × String)) : String :=
  _sha256_hex (canonical_iconset_resolution_payload conflictPolicy sources resolvedEntries)

/-! ## Layout-set contract (`graph_type_contract.py`) -/

/-- The normalization loop of
`LayoutSetEditableFieldsV1.validate_elk_settings_size`. -/
def normalizeLayoutSettings :
    List (String × Jsn) → List (String × Jsn) → Except PyErr (List (String × Jsn))
  | [], acc => .ok acc
  | (rawKey, rawValue) :: t, acc => do
      let key ← normalize_layout_setting_key rawKey
      if dictContains acc key then
        .error (.validationError "duplicate layout setting key")
      else
        normalizeLayoutSettings t (acc ++ [(key, rawValue)])

/-- `LayoutSetEditableFieldsV1.validate_elk_settings_size`
(`graph_type_contract.py` 99): non-empty, bounded entry count, each key
normalized (which rejects the reserved composer keys), no duplicates, the
canonical-JSON encoding within the byte budget, sorted by key. -/
def validate_elk_settings_size (value : List (String × Jsn)) :
    Except PyErr (List (String × Jsn)) := do
  let _ ← pyCheck (value.isEmpty) (.validationError "elkSettings must not be empty")
  let _ ← pyCheck (MAX_LAYOUT_SET_ENTRIES < value.length) (.validationError "elkSettings exceeds max size")
  let normalized ← normalizeLayoutSettings value []
  let _ ← pyCheck (MAX_LAYOUT_SET_BYTES < (utf8Bytes (canonicalJson (.objL normalized))).length) (.validationError "elkSettings exceeds max payload size")
  pure (sortByKey normalized)

/-- `LayoutSetEditableFieldsV1`. -/
structure LayoutSetEditableFieldsV1 where
  name : String
  elkSettings : List (String × Jsn)

/-- `LayoutSetEditableFieldsV1.model_validate` over raw fields. -/
def validateLayoutSetEditableFields (name : String) (elkSettings : List (String × Jsn)) :
    Except PyErr LayoutSetEditableFieldsV1 := do
  let name ← validateNameField name
  let elkSettings ← validate_elk_settings_size elkSettings
  pure ⟨name, elkSettings⟩

/-- `LayoutSetBundleV1`. -/
structure LayoutSetBundleV1 where
  layoutSetId : String
  layoutSetVersion : Nat
  name : String
  elkSettings : List (String × Jsn)
  updatedAt : String
  checksum : String

/-- `LayoutSetBundleV1.model_validate`. -/
def validateLayoutSetBundle (b : LayoutSetBundleV1) : Except PyErr LayoutSetBundleV1 := do
  let name ← validateNameField b.name
  let elkSettings ← validate_elk_settings_size b.elkSettings
  let _ ← pyCheck (b.layoutSetVersion < 1) (.validationError "layoutSetVersion ge 1")
  let _ ← pyCheck (b.checksum.data.length ≠ 64) (.validationError "checksum length")
  pure { b with name := name, elkSettings := elkSettings }

/-- `canonical_layout_set_bundle_payload` (`graph_type_contract.py` 566). -/
def canonical_layout_set_bundle_payload (layoutSetId : String) (layoutSetVersion : Nat)
    (name : String) (elkSettings : List (String × Jsn)) : Jsn :=
  .objL
    [("schemaVersion", .str "v1"),
     ("layoutSetId", .str layoutSetId),
     ("layoutSetVersion", .num layoutSetVersion),
     ("name", .str name),
     ("elkSettings", .objL elkSettings)]

/-- `compute_layout_set_checksum` (`graph_type_contract.py` 576). -/
def compute_layout_set_checksum (layoutSetId : String) (layoutSetVersion : Nat)
    (name : String) (elkSettings : List (String × Jsn)) : String :=
  _sha256_hex (canonical_layout_set_bundle_payload layoutSetId layoutSetVersion name elkSettings)

/-! ## Link-set contract (`graph_type_contract.py`) -/

/-- `LinkTypeDefinitionV1`: one link-type entry. -/
structure LinkTypeDefinitionV1 where
  label : String
  elkEdgeType : Option String
  elkProperties : List (String × Jsn)

/-- `LinkTypeDefinitionV1.validate_label`. -/
def validateLinkLabel (value : String) : Except PyErr String :=
  if value.data.length < 1 ∨ 120 < value.data.length then
    .error (.validationError "label length")
  else
    let text := pyStrip value
    if text.isEmpty then .error (.validationError "label must not be empty")
    else .ok text

/-- `LinkTypeDefinitionV1.validate_elk_edge_type`: strip, upper, match
`ELK_EDGE_TYPE_PATTERN`. -/
def validate_elk_edge_type (value : Option String) : Except PyErr (Option String) :=
  match value with
  | none => .ok none
  | some v =>
      let normalized := pyUpper (pyStrip v)
      if matchesElkEdgeTypePattern normalized then .ok (some normalized)
      else .error (.validationError "elkEdgeType pattern")

/-- The key loop of `LinkTypeDefinitionV1.validate_elk_properties`. -/
def normalizeElkProperties :
    List (String × Jsn) → List (String × Jsn) → Except PyErr (List (String × Jsn))
  | [], acc => .ok acc
  | (rawKey, rawValue) :: t, acc =>
      let key := pyStrip rawKey
      if key.isEmpty then .error (.validationError "elkProperties keys must not be empty")
      else normalizeElkProperties t (dictInsert acc key rawValue)

/-- `LinkTypeDefinitionV1.validate_elk_properties`. -/
def validate_elk_properties (value : List (String × Jsn)) : Except PyErr (List (String × Jsn)) := do
  let _ ← pyCheck (MAX_ELK_PROPERTIES < value.length) (.validationError "elkProperties exceeds max size")
  normalizeElkProperties value []

/-- `LinkTypeDefinitionV1.model_validate`. -/
def validateLinkTypeDefinition (d : LinkTypeDefinitionV1) : Except PyErr LinkTypeDefinitionV1 := do
  let label ← validateLinkLabel d.label
  let elkEdgeType ← validate_elk_edge_type d.elkEdgeType
  let elkProperties ← validate_elk_properties d.elkProperties
  pure ⟨label, elkEdgeType, elkProperties⟩

/-- The entries loop of `LinkSetEditableFieldsV1.validate_entries`. -/
def normalizeLinkSetEntries :
    List (String × LinkTypeDefinitionV1) → List (String × LinkTypeDefinitionV1) →
      Except PyErr (List (String × LinkTypeDefinitionV1))
  | [], acc => .ok acc
  | (rawKey, definition) :: t, acc => do
      let key ← normalize_type_key rawKey
      if dictContains acc key then
        .error (.validationError "duplicate link type key")
      else do
        let d ← validateLinkTypeDefinition definition
        normalizeLinkSetEntries t (acc ++ [(key, d)])

/-- `LinkSetEditableFieldsV1.validate_entries` (`graph_type_contract.py` 258). -/
def validateLinkSetEntries (value : List (String × LinkTypeDefinitionV1)) :
    Except PyErr (List (String × LinkTypeDefinitionV1)) := do
  let _ ← pyCheck (value.length < 1 ∨ MAX_LINK_SET_ENTRIES < value.length) (.validationError "entries size")
  let _ ← pyCheck (value.isEmpty) (.validationError "entries must not be empty")
  let normalized ← normalizeLinkSetEntries value []
  let _ ← pyCheck (MAX_LINK_SET_ENTRIES < normalized.length) (.validationError "entries exceeds max size")
  pure (sortByKey normalized)

/-- `LinkSetEditableFieldsV1`. -/
structure LinkSetEditableFieldsV1 where
  name : String
  entries : List (String × LinkTypeDefinitionV1)

/-- `LinkSetEditableFieldsV1.model_validate` over raw fields. -/
def validateLinkSetEditableFields (name : String)
    (entries : List (String × LinkTypeDefinitionV1)) : Except PyErr LinkSetEditableFieldsV1 := do
  let name ← validateNameField name
  let entries ← validateLinkSetEntries entries
  pure ⟨name, entries⟩

/-- `LinkSetBundleV1`. -/
structure LinkSetBundleV1 where
  linkSetId : String
  linkSetVersion : Nat
  name : String
  entries : List (String × LinkTypeDefinitionV1)
  updatedAt : String
  checksum : String

/-- `LinkSetBundleV1.model_validate`. -/
def validateLinkSetBundle (b : LinkSetBundleV1) : Except PyErr LinkSetBundleV1 := do
  let name ← validateNameField b.name
  let entries ← validateLinkSetEntries b.entries
  let _ ← pyCheck (b.linkSetVersion < 1) (.validationError "linkSetVersion ge 1")
  let _ ← pyCheck (b.checksum.data.length ≠ 64) (.validationError "checksum length")
  pure { b with name := name, entries := entries }

/-- JSON form of one link entry inside `canonical_link_set_bundle_payload`. -/
def linkEntryJson (d : LinkTypeDefinitionV1) : Jsn :=
  .objL
    [("label", .str d.label),
     ("elkEdgeType", match d.elkEdgeType with | none => .null | some s => .str s),
     ("elkProperties", .objL d.elkProperties)]

/-- `canonical_link_set_bundle_payload` (`graph_type_contract.py` 580):
entries sorted by key, each normalized to its label/edge-type/properties
projection. -/
def canonical_link_set_bundle_payload (linkSetId : String) (linkSetVersion : Nat)
    (name : String) (entries : List (String × LinkTypeDefinitionV1)) : Jsn :=
  .objL
    [("schemaVersion", .str "v1"),
     ("linkSetId", .str linkSetId),
     ("linkSetVersion", .num linkSetVersion),
     ("name", .str name),
     ("entries", .objL ((sortByKey entries).map fun kv => (kv.1, linkEntryJson kv.2)))]

/-- `compute_link_set_checksum` (`graph_type_contract.py` 607). -/
def compute_link_set_checksum (linkSetId : String) (linkSetVersion : Nat)
    (name : String) (entries : List (String × LinkTypeDefinitionV1)) : String :=
  _sha256_hex (canonical_link_set_bundle_payload linkSetId linkSetVersion name entries)

/-! ## Graph-type contract (`graph_type_contract.py`) -/

/-- `LayoutSetRefV1`. -/
structure LayoutSetRefV1 where
  layoutSetId : String
  layoutSetVersion : Nat
  checksum : Option String
deriving Repr, DecidableEq

/-- `LinkSetRefV1`. -/
structure LinkSetRefV1 where
  linkSetId : String
  linkSetVersion : Nat
  checksum : Option String
deriving Repr, DecidableEq

/-- `GraphTypeEditableFieldsV1`: name, layout/icon/link refs and the
conflict policy. -/
structure GraphTypeEditableFieldsV1 where
  name : String
  layoutSetRef : LayoutSetRefV1
  iconSetRefs : List ProfileIconsetRefV1
  linkSetRef : LinkSetRefV1
  iconConflictPolicy : IconConflictPolicy
deriving Repr, DecidableEq

/-- The duplicate scan of
`GraphTypeEditableFieldsV1.validate_iconset_refs`. -/
def iconSetRefsNodup : List ProfileIconsetRefV1 → List (String × Nat) → Bool
  | [], _ => true
  | item :: t, seen =>
      if seen.contains (item.iconSetId, item.iconSetVersion) then false
      else iconSetRefsNodup t ((item.iconSetId, item.iconSetVersion) :: seen)

/-- `GraphTypeEditableFieldsV1.validate_iconset_refs`
(`graph_type_contract.py` 397): non-empty, no duplicate `(id, version)`
pairs, at most `MAX_ICONSET_REFS`.  (`Field(min_length=1, max_length=8)`
imposes the same bounds first.) -/
def validate_iconset_refs (values : List ProfileIconsetRefV1) :
    Except PyErr (List ProfileIconsetRefV1) := do
  let _ ← pyCheck (values.length < 1 ∨ MAX_ICONSET_REFS < values.length) (.validationError "iconSetRefs size")
  let _ ← pyCheck (values.isEmpty) (.validationError "iconSetRefs must not be empty")
  let _ ← pyCheck (¬iconSetRefsNodup values []) (.validationError "duplicate iconset reference")
  let _ ← pyCheck (MAX_ICONSET_REFS < values.length) (.validationError "iconSetRefs exceeds max size")
  pure values

/-- `ProfileIconsetRefV1` field validators: normalized id, version ≥ 1,
optional checksum normalized. -/
def validateProfileIconsetRef (r : ProfileIconsetRefV1) : Except PyErr ProfileIconsetRefV1 := do
  let iconSetId ← normalize_icon_set_id r.iconSetId
  let _ ← pyCheck (r.iconSetVersion < 1) (.validationError "iconSetVersion ge 1")
  let checksum ←
    match r.checksum with
    | none => pure none
    | some c => do
        let _ ← pyCheck (c.data.length < 64 ∨ 64 < c.data.length) (.validationError "checksum length")
        let c ← normalize_checksum c
        pure (some c)
  pure ⟨iconSetId, r.iconSetVersion, checksum⟩

/-- `LayoutSetRefV1` field validators. -/
def validateLayoutSetRef (r : LayoutSetRefV1) : Except PyErr LayoutSetRefV1 := do
  let layoutSetId ← normalize_layout_set_id r.layoutSetId
  let _ ← pyCheck (r.layoutSetVersion < 1) (.validationError "layoutSetVersion ge 1")
  let checksum ←
    match r.checksum with
    | none => pure none
    | some c => do
        let _ ← pyCheck (c.data.length < 64 ∨ 64 < c.data.length) (.validationError "checksum length")
        let c ← normalize_checksum c
        pure (some c)
  pure ⟨layoutSetId, r.layoutSetVersion, checksum⟩

/-- `LinkSetRefV1` field validators. -/
def validateLinkSetRef (r : LinkSetRefV1) : Except PyErr LinkSetRefV1 := do
  let linkSetId ← normalize_link_set_id r.linkSetId
  let _ ← pyCheck (r.linkSetVersion < 1) (.validationError "linkSetVersion ge 1")
  let checksum ←
    match r.checksum with
    | none => pure none
    | some c => do
        let _ ← pyCheck (c.data.length < 64 ∨ 64 < c.data.length) (.validationError "checksum length")
        let c ← normalize_checksum c
        pure (some c)
  pure ⟨linkSetId, r.linkSetVersion, checksum⟩

/-- `GraphTypeEditableFieldsV1.model_validate`. -/
def validateGraphTypeEditableFields (e : GraphTypeEditableFieldsV1) :
    Except PyErr GraphTypeEditableFieldsV1 := do
  let name ← validateNameField e.name
  let layoutSetRef ← validateLayoutSetRef e.layoutSetRef
  let iconSetRefs ← (e.iconSetRefs.mapM validateProfileIconsetRef : Except PyErr _)
  let iconSetRefs ← validate_iconset_refs iconSetRefs
  let linkSetRef ← validateLinkSetRef e.linkSetRef
  pure ⟨name, layoutSetRef, iconSetRefs, linkSetRef, e.iconConflictPolicy⟩

/-- `GraphTypeBundleV1`: the composed graph-type snapshot. -/
structure GraphTypeBundleV1 where
  graphTypeId : String
  graphTypeVersion : Nat
  name : String
  layoutSetRef : LayoutSetRefV1
  iconSetRefs : List ProfileIconsetRefV1
  linkSetRef : LinkSetRefV1
  iconConflictPolicy : IconConflictPolicy
  nodeTypes : List String
  linkTypes : List String
  typeIconMap : List (String × String)
  edgeTypeOverrides : List (String × Jsn)
  iconSetResolutionChecksum : String
  runtimeChecksum : String
  elkSettings : List (String × Jsn)
  updatedAt : String
  checksum : String

/-- The key loop of `GraphTypeBundleV1.validate_node_types` (also used for
the bundle's `linkTypes` validator, which normalizes with
`normalize_type_key` too). -/
def normalizeTypeKeyList : List String → List String → Except PyErr (List String)
  | [], acc => .ok acc
  | raw :: t, acc => do
      let key ← normalize_type_key raw
      if acc.contains key then .error (.validationError "duplicate type")
      else normalizeTypeKeyList t (acc ++ [key])

/-- `GraphTypeBundleV1.validate_node_types` (`graph_type_contract.py` 449):
normalize, reject duplicates, bound, and return sorted. -/
def validate_node_types (values : List String) : Except PyErr (List String) := do
  let _ ← pyCheck (values.length < 1 ∨ MAX_RESOLVED_TYPE_KEYS < values.length) (.validationError "nodeTypes size")
  let normalized ← normalizeTypeKeyList values []
  let _ ← pyCheck (MAX_RESOLVED_TYPE_KEYS < normalized.length) (.validationError "nodeTypes exceeds max size")
  pure (sortStrings normalized)

/-- `GraphTypeBundleV1.validate_link_types` (`graph_type_contract.py` 466). -/
def validate_link_types (values : List String) : Except PyErr (List String) := do
  let _ ← pyCheck (values.length < 1 ∨ MAX_LINK_TYPES < values.length) (.validationError "linkTypes size")
  let normalized ← normalizeTypeKeyList values []
  let _ ← pyCheck (MAX_LINK_TYPES < normalized.length) (.validationError "linkTypes exceeds max size")
  pure (sortStrings normalized)

/-- The entry loop of `GraphTypeBundleV1.validate_type_icon_map` — note the
icon side is only stripped and lowered here, not iconify-validated. -/
def normalizeTypeIconMap :
    List (String × String) → List (String × String) → Except PyErr (List (String × String))
  | [], acc => .ok acc
  | (rawKey, rawValue) :: t, acc => do
      let key ← normalize_type_key rawKey
      let icon := pyLower (pyStrip rawValue)
      if dictContains acc key then .error (.validationError "duplicate node type key")
      else normalizeTypeIconMap t (acc ++ [(key, icon)])

/-- `GraphTypeBundleV1.validate_type_icon_map` (`graph_type_contract.py` 483). -/
def validate_type_icon_map (values : List (String × String)) :
    Except PyErr (List (String × String)) := do
  let _ ← pyCheck (values.length < 1 ∨ MAX_RESOLVED_TYPE_KEYS < values.length) (.validationError "typeIconMap size")
  let normalized ← normalizeTypeIconMap values []
  let _ ← pyCheck (MAX_RESOLVED_TYPE_KEYS < normalized.length) (.validationError "typeIconMap exceeds max size")
  pure (sortByKey normalized)

/-- `GraphTypeBundleV1.model_validate`: field validators for every field,
then the `validate_maps` model validator —
`sorted(nodeTypes) == sorted(typeIconMap.keys())`. -/
def validateGraphTypeBundle (b : GraphTypeBundleV1) : Except PyErr GraphTypeBundleV1 := do
  let name ← validateNameField b.name
  let layoutSetRef ← validateLayoutSetRef b.layoutSetRef
  let iconSetRefs ← (b.iconSetRefs.mapM validateProfileIconsetRef : Except PyErr _)
  let iconSetRefs ← validate_iconset_refs iconSetRefs
  let linkSetRef ← validateLinkSetRef b.linkSetRef
  let _ ← pyCheck (b.graphTypeVersion < 1) (.validationError "graphTypeVersion ge 1")
  let nodeTypes ← validate_node_types b.nodeTypes
  let linkTypes ← validate_link_types b.linkTypes
  let typeIconMap ← validate_type_icon_map b.typeIconMap
  let _ ← pyCheck (b.iconSetResolutionChecksum.data.length ≠ 64) (.validationError "iconSetResolutionChecksum length")
  let _ ← pyCheck (b.runtimeChecksum.data.length ≠ 64) (.validationError "runtimeChecksum length")
  let _ ← pyCheck (b.checksum.data.length ≠ 64) (.validationError "checksum length")
  let b' := { b with
    name := name, layoutSetRef := layoutSetRef, iconSetRefs := iconSetRefs,
    linkSetRef := linkSetRef, nodeTypes := nodeTypes, linkTypes := linkTypes,
    typeIconMap := typeIconMap }
  let _ ← pyCheck (sortStrings b'.nodeTypes ≠ sortStrings (dictKeys b'.typeIconMap))
    (.validationError "nodeTypes must exactly match typeIconMap keys")
  pure b'

/-- JSON form of a layout-set ref (checksum always present in composed
payloads). -/
def layoutSetRefJson (r : LayoutSetRefV1) : Jsn :=
  .objL
    [("layoutSetId", .str r.layoutSetId),
     ("layoutSetVersion", .num r.layoutSetVersion),
     ("checksum", match r.checksum with | none => .null | some c => .str c)]

def linkSetRefJson (r : LinkSetRefV1) : Jsn :=
  .objL
    [("linkSetId", .str r.linkSetId),
     ("linkSetVersion", .num r.linkSetVersion),
     ("checksum", match r.checksum with | none => .null | some c => .str c)]

def iconSetRefJson (r : ProfileIconsetRefV1) : Jsn :=
  .objL
    [("iconSetId", .str r.iconSetId),
     ("iconSetVersion", .num r.iconSetVersion),
     ("checksum", match r.checksum with | none => .null | some c => .str c)]

/-- `canonical_graph_type_runtime_payload` (`graph_type_contract.py` 611). -/
def canonical_graph_type_runtime_payload (b : GraphTypeBundleV1) : Jsn :=
  .objL
    [("schemaVersion", .str "v1"),
     ("graphTypeId", .str b.graphTypeId),
     ("graphTypeVersion", .num b.graphTypeVersion),
     ("layoutSetRef", layoutSetRefJson b.layoutSetRef),
     ("iconSetRefs", .arrL (b.iconSetRefs.map iconSetRefJson)),
     ("linkSetRef", linkSetRefJson b.linkSetRef),
     ("iconConflictPolicy", .str b.iconConflictPolicy.toJson),
     ("nodeTypes", .arrL ((sortStrings b.nodeTypes).map .str)),
     ("linkTypes", .arrL ((sortStrings b.linkTypes).map .str)),
     ("typeIconMap", .objL ((sortByKey b.typeIconMap).map fun kv => (kv.1, .str kv.2))),
     ("edgeTypeOverrides", .objL (sortByKey b.edgeTypeOverrides)),
     ("iconSetResolutionChecksum", .str b.iconSetResolutionChecksum)]

/-- `compute_graph_type_runtime_checksum` (`graph_type_contract.py` 628). -/
def compute_graph_type_runtime_checksum (b : GraphTypeBundleV1) : String :=
  _sha256_hex (canonical_graph_type_runtime_payload b)

/-- `canonical_graph_type_bundle_payload` (`graph_type_contract.py` 632):
runtime payload plus `name`, `elkSettings` and the runtime checksum. -/
def canonical_graph_type_bundle_payload (b : GraphTypeBundleV1) : Jsn :=
  .objL
    [("schemaVersion", .str "v1"),
     ("graphTypeId", .str b.graphTypeId),
     ("graphTypeVersion", .num b.graphTypeVersion),
     ("layoutSetRef", layoutSetRefJson b.layoutSetRef),
     ("iconSetRefs", .arrL (b.iconSetRefs.map iconSetRefJson)),
     ("linkSetRef", linkSetRefJson b.linkSetRef),
     ("iconConflictPolicy", .str b.iconConflictPolicy.toJson),
     ("nodeTypes", .arrL ((sortStrings b.nodeTypes).map .str)),
     ("linkTypes", .arrL ((sortStrings b.linkTypes).map .str)),
     ("typeIconMap", .objL ((sortByKey b.typeIconMap).map fun kv => (kv.1, .str kv.2))),
     ("edgeTypeOverrides", .objL (sortByKey b.edgeTypeOverrides)),
     ("iconSetResolutionChecksum", .str b.iconSetResolutionChecksum),
     ("name", .str b.name),
     ("elkSettings", .objL b.elkSettings),
     ("runtimeChecksum", .str b.runtimeChecksum)]

/-- `compute_graph_type_checksum` (`graph_type_contract.py` 645). -/
def compute_graph_type_checksum (b : GraphTypeBundleV1) : String :=
  _sha256_hex (canonical_graph_type_bundle_payload b)

/-- `build_edge_type_overrides` (`graph_type_contract.py` 663): for every
link entry in key order, deep-copy the layout's edge defaults, set the ELK
edge type from `elkEdgeType` when present, then overlay `elkProperties`. -/
def build_edge_type_overrides (base_edge_defaults : List (String × Jsn))
    (link_entries : List (String × LinkTypeDefinitionV1)) : List (String × Jsn) :=
  (sortByKey link_entries).map fun kv =>
    let payload := base_edge_defaults
    let properties :=
      match dictGet payload "properties" with
      | some (.obj f) => f.toList
      | _ => []
    let properties :=
      match kv.2.elkEdgeType with
      | some t => dictInsert properties "org.eclipse.elk.edge.type" (.str t)
      | none => properties
    let properties := kv.2.elkProperties.foldl (fun acc p => dictInsert acc p.1 p.2) properties
    (kv.1, Jsn.obj (.ofList (dictInsert payload "properties" (.objL properties))))

/-! ## Icon-set store (`iconset_store.py`)

The sqlite tables become in-memory association lists: `icon_sets` together
with its `icon_set_draft_entries` rows is `sets`; `icon_set_published_versions`
together with `icon_set_published_entries` is `published` (keyed by id, the
version inside the row).  Every operation runs under the store lock inside
one connection, so it either returns the committed successor state or an
error leaving the state untouched. -/

namespace IconsetStore

/-- One `icon_sets` row joined with its `icon_set_draft_entries` rows. -/
structure DraftRow where
  name : String
  draftVersion : Nat
  draftUpdatedAt : String
  draftChecksum : String
  entries : List (String × String)
deriving Repr, DecidableEq

/-- One `icon_set_published_versions` row joined with its
`icon_set_published_entries` rows. -/
structure PublishedRow where
  iconSetVersion : Nat
  name : String
  updatedAt : String
  checksum : String
  entries : List (String × String)
deriving Repr, DecidableEq

structure State where
  sets : List (String × DraftRow)
  published : List (String × PublishedRow)
deriving Repr, DecidableEq

/-- `ORDER BY icon_set_version ASC` on the published rows of one id. -/
def rowVersionLe (a b : PublishedRow) : Prop := a.iconSetVersion ≤ b.iconSetVersion

instance : DecidableRel rowVersionLe :=
  fun a b => inferInstanceAs (Decidable (a.iconSetVersion ≤ b.iconSetVersion))

def publishedRowsFor (s : State) (icon_set_id : String) : List PublishedRow :=
  ((s.published.filter fun kv => kv.1 = icon_set_id).map Prod.snd).insertionSort rowVersionLe

/-- `SELECT 1 FROM icon_set_published_versions WHERE icon_set_id = ? AND
icon_set_version = ?`. -/
def publishedVersionExists (s : State) (icon_set_id : String) (v : Nat) : Bool :=
  s.published.any fun kv => kv.1 = icon_set_id ∧ kv.2.iconSetVersion = v

/-- `_load_entries`: draft entries of one id, `ORDER BY type_key ASC`. -/
def _load_entries (row : DraftRow) : List (String × String) :=
  sortByKey row.entries

/-- `IconsetStore._build_bundle` (`iconset_store.py` 488): assemble the
payload, derive the checksum, validate. -/
def _build_bundle (icon_set_id : String) (icon_set_version : Nat)
    (editable : IconsetEditableFieldsV1) (now : String) : Except PyErr IconsetBundleV1 :=
  let checksum := compute_iconset_checksum icon_set_id icon_set_version editable.name editable.entries
  validateIconsetBundle
    ⟨icon_set_id, icon_set_version, editable.name, editable.entries, now, checksum⟩

def _insert_published_bundle (s : State) (b : IconsetBundleV1) : State :=
  { s with published :=
      s.published ++ [(b.iconSetId, ⟨b.iconSetVersion, b.name, b.updatedAt, b.checksum, b.entries⟩)] }

def _insert_iconset (s : State) (b : IconsetBundleV1) (publish : Bool) : State :=
  let s' : State :=
    { s with sets := s.sets ++ [(b.iconSetId, ⟨b.name, b.iconSetVersion, b.updatedAt, b.checksum, b.entries⟩)] }
  if publish then _insert_published_bundle s' b else s'

def _replace_draft (s : State) (b : IconsetBundleV1) : State :=
  { s with sets := s.sets.map fun kv =>
      if kv.1 = b.iconSetId then
        (kv.1, ⟨b.name, b.iconSetVersion, b.updatedAt, b.checksum, b.entries⟩)
      else kv }

/-- `_load_draft_bundle` (`iconset_store.py` 630). -/
def _load_draft_bundle (s : State) (icon_set_id : String) : Except PyErr IconsetBundleV1 :=
  match dictGet s.sets icon_set_id with
  | none => .error (.store 404 "ICONSET_NOT_FOUND")
  | some row =>
      validateIconsetBundle
        ⟨icon_set_id, row.draftVersion, row.name, _load_entries row,
         row.draftUpdatedAt, row.draftChecksum⟩

/-- `ensure_default_iconset` (`iconset_store.py` 56): no-op when the id is
present, else insert version 1 as draft **and** published. -/
def ensure_default_iconset (req : IconsetCreateRequestV1) (now : String) (s : State) :
    Except PyErr State := do
  if dictContains s.sets req.iconSetId then pure s
  else do
    let bundle ← _build_bundle req.iconSetId 1 ⟨req.name, req.entries⟩ now
    pure (_insert_iconset s bundle true)

/-- `create_iconset` (`iconset_store.py` 124): duplicate id is a 409, else
insert version 1 as draft only. -/
def create_iconset (req : IconsetCreateRequestV1) (now : String) (s : State) :
    Except PyErr State := do
  let _ ← pyCheck (dictContains s.sets req.iconSetId) (.store 409 "ICONSET_ALREADY_EXISTS")
  let bundle ← _build_bundle req.iconSetId 1 ⟨req.name, req.entries⟩ now
  pure (_insert_iconset s bundle false)

/-- `update_iconset` (`iconset_store.py` 148): absent id is a 404, else the
new draft carries `draft_version + 1`. -/
def update_iconset (icon_set_id : String) (req : IconsetEditableFieldsV1) (now : String)
    (s : State) : Except PyErr State := do
  match dictGet s.sets icon_set_id with
  | none => throw (.store 404 "ICONSET_NOT_FOUND")
  | some row => do
      let bundle ← _build_bundle icon_set_id (row.draftVersion + 1) ⟨req.name, req.entries⟩ now
      pure (_replace_draft s bundle)

/-- `upsert_iconset_entry` (`iconset_store.py` 177). -/
def upsert_iconset_entry (icon_set_id type_key icon : String) (now : String) (s : State) :
    Except PyErr State := do
  match dictGet s.sets icon_set_id with
  | none => throw (.store 404 "ICONSET_NOT_FOUND")
  | some base => do
      let key ← normalize_type_key type_key
      let entries := dictInsert (_load_entries base) key icon
      let editable ← validateIconsetEditableFields base.name entries
      let bundle ← _build_bundle icon_set_id (base.draftVersion + 1) editable now
      pure (_replace_draft s bundle)

/-- `delete_iconset_entry` (`iconset_store.py` 215): missing key is a 404;
deleting the last entry is the 400 `ICONSET_ENTRIES_EMPTY`; otherwise the
entry is dropped and the draft rebuilt at `draft_version + 1`. -/
def delete_iconset_entry (icon_set_id type_key : String) (now : String) (s : State) :
    Except PyErr State := do
  match dictGet s.sets icon_set_id with
  | none => throw (.store 404 "ICONSET_NOT_FOUND")
  | some base => do
      let key ← normalize_type_key type_key
      let entries := _load_entries base
      let _ ← pyCheck (¬dictContains entries key) (.store 404 "ICONSET_ENTRY_NOT_FOUND")
      let _ ← pyCheck (entries.length ≤ 1) (.store 400 "ICONSET_ENTRIES_EMPTY")
      let entries := dictRemove entries key
      let editable ← validateIconsetEditableFields base.name entries
      let bundle ← _build_bundle icon_set_id (base.draftVersion + 1) editable now
      pure (_replace_draft s bundle)

/-- `publish_iconset` (`iconset_store.py` 268): load the draft (404 when the
id is unknown); a published row at the draft's version is the 409
`ICONSET_VERSION_ALREADY_PUBLISHED`; else copy the draft into the published
set and return it. -/
def publish_iconset (icon_set_id : String) (s : State) :
    Except PyErr (IconsetBundleV1 × State) := do
  let draft ← _load_draft_bundle s icon_set_id
  let _ ← pyCheck (publishedVersionExists s icon_set_id draft.iconSetVersion) (.store 409 "ICONSET_VERSION_ALREADY_PUBLISHED")
  pure (draft, _insert_published_bundle s draft)

inductive Stage where
  | draft
  | published
deriving Repr, DecidableEq

/-- `get_bundle` (`iconset_store.py` 294). -/
def get_bundle (icon_set_id : String) (stage : Stage) (icon_set_version : Option Nat)
    (s : State) : Except PyErr IconsetBundleV1 := do
  match stage with
  | .draft => do
      let draft ← _load_draft_bundle s icon_set_id
      match icon_set_version with
      | some v =>
          if draft.iconSetVersion ≠ v then
            throw (.store 404 "ICONSET_VERSION_NOT_FOUND")
          else pure draft
      | none => pure draft
  | .published =>
      match publishedRowsFor s icon_set_id with
      | [] =>
          if dictContains s.sets icon_set_id then
            throw (.store 404 "ICONSET_NOT_PUBLISHED")
          else throw (.store 404 "ICONSET_NOT_FOUND")
      | rows@(_ :: _) =>
          match icon_set_version with
          | none =>
              let selected := rows.getLast (by simp_all)
              validateIconsetBundle
                ⟨icon_set_id, selected.iconSetVersion, selected.name,
                 sortByKey selected.entries, selected.updatedAt, selected.checksum⟩
          | some v =>
              match rows.find? fun row => row.iconSetVersion = v with
              | some selected =>
                  validateIconsetBundle
                    ⟨icon_set_id, selected.iconSetVersion, selected.name,
                     sortByKey selected.entries, selected.updatedAt, selected.checksum⟩
              | none => .error (.store 404 "ICONSET_VERSION_NOT_FOUND")

/-- The mutating operations of the icon-set store, for whole-alphabet
statements such as version monotonicity. -/
inductive Op where
  | ensureDefault (req : IconsetCreateRequestV1) (now : String)
  | create (req : IconsetCreateRequestV1) (now : String)
  | update (id : String) (req : IconsetEditableFieldsV1) (now : String)
  | upsertEntry (id typeKey icon now : String)
  | deleteEntry (id typeKey now : String)
  | publish (id : String)

def applyOp (op : Op) (s : State) : Except PyErr State :=
  match op with
  | .ensureDefault req now => ensure_default_iconset req now s
  | .create req now => create_iconset req now s
  | .update id req now => update_iconset id req now s
  | .upsertEntry id typeKey icon now => upsert_iconset_entry id typeKey icon now s
  | .deleteEntry id typeKey now => delete_iconset_entry id typeKey now s
  | .publish id => (publish_iconset id s).map Prod.snd

/-- A raised store error rolls the transaction back: the committed state
after an operation. -/
def stateAfter (op : Op) (s : State) : State :=
  match applyOp op s with
  | .ok s' => s'
  | .error _ => s

/-- The draft version column of one id, when the resource exists. -/
def draftVersionOf (s : State) (icon_set_id : String) : Option Nat :=
  (dictGet s.sets icon_set_id).map DraftRow.draftVersion

end IconsetStore

/-! ## Layout-set store (`layoutset_store.py`)

Same table shape as the icon-set store, with per-key entry rows holding
JSON-encoded values (`setting_value_json`; the canonical-JSON encode/decode
round trip is the identity on the `Jsn` values we store, so rows carry the
values directly).  The external GraphLoom `ElkSettings` schema is the
pluggable parameter `ev`: `ElkSettings.model_validate` followed by
`model_dump(by_alias=True, exclude_none=True, mode="json")`, failing on a
`ValidationError`. -/

/-- The external Layout Engine's settings validation+dump, a black box to
this core (spec §6, §9). -/
def ElkValidator : Type := List (String × Jsn) → Except Unit (List (String × Jsn))

namespace LayoutSetStore

structure DraftRow where
  name : String
  draftVersion : Nat
  draftUpdatedAt : String
  draftChecksum : String
  entries : List (String × Jsn)

structure PublishedRow where
  layoutSetVersion : Nat
  name : String
  updatedAt : String
  checksum : String
  entries : List (String × Jsn)

structure State where
  sets : List (String × DraftRow)
  published : List (String × PublishedRow)

def rowVersionLe (a b : PublishedRow) : Prop := a.layoutSetVersion ≤ b.layoutSetVersion

instance : DecidableRel rowVersionLe :=
  fun a b => inferInstanceAs (Decidable (a.layoutSetVersion ≤ b.layoutSetVersion))

def publishedRowsFor (s : State) (layout_set_id : String) : List PublishedRow :=
  ((s.published.filter fun kv => kv.1 = layout_set_id).map Prod.snd).insertionSort rowVersionLe

def publishedVersionExists (s : State) (layout_set_id : String) (v : Nat) : Bool :=
  s.published.any fun kv => kv.1 = layout_set_id ∧ kv.2.layoutSetVersion = v

/-- `_load_draft_entries`: `ORDER BY setting_key ASC`. -/
def _load_draft_entries (row : DraftRow) : List (String × Jsn) :=
  sortByKey row.entries

/-- `LayoutSetStore._validate_elk_settings` (`layoutset_store.py` 656):
inject empty reserved keys, run the external schema, drop the reserved keys
from the dump; a `ValidationError` becomes the 400 `INVALID_ELK_SETTINGS`. -/
def _validate_elk_settings (ev : ElkValidator) (elk_settings : List (String × Jsn)) :
    Except PyErr (List (String × Jsn)) :=
  let canonical := dictInsert (dictInsert elk_settings "type_icon_map" (.objL []))
    "edge_type_overrides" (.objL [])
  match ev canonical with
  | .error _ => .error (.store 400 "INVALID_ELK_SETTINGS")
  | .ok dumped => .ok (dictRemove (dictRemove dumped "type_icon_map") "edge_type_overrides")

/-- `LayoutSetStore._build_bundle` (`layoutset_store.py` 675). -/
def _build_bundle (ev : ElkValidator) (layout_set_id : String) (layout_set_version : Nat)
    (editable : LayoutSetEditableFieldsV1) (now : String) : Except PyErr LayoutSetBundleV1 := do
  let settings ← _validate_elk_settings ev editable.elkSettings
  let checksum := compute_layout_set_checksum layout_set_id layout_set_version editable.name settings
  validateLayoutSetBundle ⟨layout_set_id, layout_set_version, editable.name, settings, now, checksum⟩

/-- `LayoutSetStore._bundle_from_parts` (`layoutset_store.py` 694): re-run
the external validation on the stored entries, recompute the checksum, and
fail `LAYOUT_SET_STORAGE_CORRUPTED` when it does not match the stored one. -/
def _bundle_from_parts (ev : ElkValidator) (layout_set_id : String) (layout_set_version : Nat)
    (name : String) (updated_at : String) (checksum : String) (entries : List (String × Jsn)) :
    Except PyErr LayoutSetBundleV1 := do
  let settings ← _validate_elk_settings ev entries
  let expected := compute_layout_set_checksum layout_set_id layout_set_version name settings
  let _ ← pyCheck (checksum ≠ expected) (.store 500 "LAYOUT_SET_STORAGE_CORRUPTED")
  validateLayoutSetBundle ⟨layout_set_id, layout_set_version, name, settings, updated_at, checksum⟩

def _insert_published_bundle (s : State) (b : LayoutSetBundleV1) : State :=
  { s with published :=
      s.published ++ [(b.layoutSetId, ⟨b.layoutSetVersion, b.name, b.updatedAt, b.checksum, b.elkSettings⟩)] }

def _insert_layout_set (s : State) (b : LayoutSetBundleV1) (publish : Bool) : State :=
  let s' : State :=
    { s with sets := s.sets ++ [(b.layoutSetId, ⟨b.name, b.layoutSetVersion, b.updatedAt, b.checksum, b.elkSettings⟩)] }
  if publish then _insert_published_bundle s' b else s'

def _replace_draft (s : State) (b : LayoutSetBundleV1) : State :=
  { s with sets := s.sets.map fun kv =>
      if kv.1 = b.layoutSetId then
        (kv.1, ⟨b.name, b.layoutSetVersion, b.updatedAt, b.checksum, b.elkSettings⟩)
      else kv }

/-- `_load_draft_bundle` (`layoutset_store.py` 823). -/
def _load_draft_bundle (ev : ElkValidator) (s : State) (layout_set_id : String) :
    Except PyErr LayoutSetBundleV1 :=
  match dictGet s.sets layout_set_id with
  | none => .error (.store 404 "LAYOUT_SET_NOT_FOUND")
  | some row =>
      _bundle_from_parts ev layout_set_id row.draftVersion row.name row.draftUpdatedAt
        row.draftChecksum (_load_draft_entries row)

/-- `ensure_default_layout_set` (`layoutset_store.py` 60). -/
def ensure_default_layout_set (ev : ElkValidator) (layoutSetId : String)
    (req : LayoutSetEditableFieldsV1) (now : String) (s : State) : Except PyErr State := do
  if dictContains s.sets layoutSetId then pure s
  else do
    let bundle ← _build_bundle ev layoutSetId 1 req now
    pure (_insert_layout_set s bundle true)

/-- `create_layout_set` (`layoutset_store.py` 153). -/
def create_layout_set (ev : ElkValidator) (layoutSetId : String)
    (req : LayoutSetEditableFieldsV1) (now : String) (s : State) : Except PyErr State := do
  let _ ← pyCheck (dictContains s.sets layoutSetId) (.store 409 "LAYOUT_SET_ALREADY_EXISTS")
  let bundle ← _build_bundle ev layoutSetId 1 req now
  pure (_insert_layout_set s bundle false)

/-- `update_layout_set` (`layoutset_store.py` 177). -/
def update_layout_set (ev : ElkValidator) (layout_set_id : String)
    (req : LayoutSetEditableFieldsV1) (now : String) (s : State) : Except PyErr State := do
  match dictGet s.sets layout_set_id with
  | none => throw (.store 404 "LAYOUT_SET_NOT_FOUND")
  | some row => do
      let bundle ← _build_bundle ev layout_set_id (row.draftVersion + 1) req now
      pure (_replace_draft s bundle)

/-- `delete_layout_set` (`layoutset_store.py` 202): `DELETE FROM layout_sets`
with `ON DELETE CASCADE` dropping the draft entries and published rows. -/
def delete_layout_set (layout_set_id : String) (s : State) : Except PyErr State :=
  if dictContains s.sets layout_set_id then
    .ok
      { sets := s.sets.filter fun kv => kv.1 ≠ layout_set_id,
        published := s.published.filter fun kv => kv.1 ≠ layout_set_id }
  else .error (.store 404 "LAYOUT_SET_NOT_FOUND")

/-- `upsert_layout_set_entry` (`layoutset_store.py` 217): the raw key goes
through `normalize_layout_setting_key` (so the reserved composer keys are
refused before any write), then the merged map is re-validated and the
draft rebuilt at `draft_version + 1`. -/
def upsert_layout_set_entry (ev : ElkValidator) (layout_set_id setting_key : String)
    (value : Jsn) (now : String) (s : State) : Except PyErr State := do
  match dictGet s.sets layout_set_id with
  | none => throw (.store 404 "LAYOUT_SET_NOT_FOUND")
  | some base => do
      let key ← normalize_layout_setting_key setting_key
      let entries := dictInsert (_load_draft_entries base) key value
      let editable ← validateLayoutSetEditableFields base.name entries
      let bundle ← _build_bundle ev layout_set_id (base.draftVersion + 1) editable now
      pure (_replace_draft s bundle)

/-- `delete_layout_set_entry` (`layoutset_store.py` 255). -/
def delete_layout_set_entry (ev : ElkValidator) (layout_set_id setting_key : String)
    (now : String) (s : State) : Except PyErr State := do
  match dictGet s.sets layout_set_id with
  | none => throw (.store 404 "LAYOUT_SET_NOT_FOUND")
  | some base => do
      let entries := _load_draft_entries base
      let key ← normalize_layout_setting_key setting_key
      let _ ← pyCheck (¬dictContains entries key) (.store 404 "LAYOUT_SET_ENTRY_NOT_FOUND")
      let _ ← pyCheck (entries.length ≤ 1) (.store 400 "LAYOUT_SET_ENTRIES_EMPTY")
      let entries := dictRemove entries key
      let editable ← validateLayoutSetEditableFields base.name entries
      let bundle ← _build_bundle ev layout_set_id (base.draftVersion + 1) editable now
      pure (_replace_draft s bundle)

/-- `publish_layout_set` (`layoutset_store.py` 304). -/
def publish_layout_set (ev : ElkValidator) (layout_set_id : String) (s : State) :
    Except PyErr (LayoutSetBundleV1 × State) := do
  let draft ← _load_draft_bundle ev s layout_set_id
  let _ ← pyCheck (publishedVersionExists s layout_set_id draft.layoutSetVersion) (.store 409 "LAYOUT_SET_VERSION_ALREADY_PUBLISHED")
  pure (draft, _insert_published_bundle s draft)

inductive Stage where
  | draft
  | published
deriving Repr, DecidableEq

/-- `get_bundle` (`layoutset_store.py` 330). -/
def get_bundle (ev : ElkValidator) (layout_set_id : String) (stage : Stage)
    (layout_set_version : Option Nat) (s : State) : Except PyErr LayoutSetBundleV1 := do
  match stage with
  | .draft => do
      let draft ← _load_draft_bundle ev s layout_set_id
      match layout_set_version with
      | some v =>
          if draft.layoutSetVersion ≠ v then
            throw (.store 404 "LAYOUT_SET_VERSION_NOT_FOUND")
          else pure draft
      | none => pure draft
  | .published =>
      match publishedRowsFor s layout_set_id with
      | [] =>
          if dictContains s.sets layout_set_id then
            throw (.store 404 "LAYOUT_SET_NOT_PUBLISHED")
          else throw (.store 404 "LAYOUT_SET_NOT_FOUND")
      | rows@(_ :: _) =>
          match layout_set_version with
          | none =>
              let selected := rows.getLast (by simp_all)
              _bundle_from_parts ev layout_set_id selected.layoutSetVersion selected.name
                selected.updatedAt selected.checksum (sortByKey selected.entries)
          | some v =>
              match rows.find? fun row => row.layoutSetVersion = v with
              | some selected =>
                  _bundle_from_parts ev layout_set_id selected.layoutSetVersion selected.name
                    selected.updatedAt selected.checksum (sortByKey selected.entries)
              | none => .error (.store 404 "LAYOUT_SET_VERSION_NOT_FOUND")

/-- The mutating operations of the layout-set store. -/
inductive Op where
  | ensureDefault (id : String) (req : LayoutSetEditableFieldsV1) (now : String)
  | create (id : String) (req : LayoutSetEditableFieldsV1) (now : String)
  | update (id : String) (req : LayoutSetEditableFieldsV1) (now : String)
  | deleteSet (id : String)
  | upsertEntry (id key : String) (value : Jsn) (now : String)
  | deleteEntry (id key now : String)
  | publish (id : String)

def applyOp (ev : ElkValidator) (op : Op) (s : State) : Except PyErr State :=
  match op with
  | .ensureDefault id req now => ensure_default_layout_set ev id req now s
  | .create id req now => create_layout_set ev id req now s
  | .update id req now => update_layout_set ev id req now s
  | .deleteSet id => delete_layout_set id s
  | .upsertEntry id key value now => upsert_layout_set_entry ev id key value now s
  | .deleteEntry id key now => delete_layout_set_entry ev id key now s
  | .publish id => (publish_layout_set ev id s).map Prod.snd

def stateAfter (ev : ElkValidator) (op : Op) (s : State) : State :=
  match applyOp ev op s with
  | .ok s' => s'
  | .error _ => s

def draftVersionOf (s : State) (layout_set_id : String) : Option Nat :=
  (dictGet s.sets layout_set_id).map DraftRow.draftVersion

end LayoutSetStore

/-! ## Link-set store (`linkset_store.py`)

The link-set store keeps whole-bundle JSON payload blobs (`draft_payload` /
`payload` columns); serializing and re-parsing a valid bundle is the
identity, so rows hold the bundle value and `_bundle_from_json` is
re-validation. -/

namespace LinkSetStore

structure DraftRow where
  name : String
  draftVersion : Nat
  draftUpdatedAt : String
  draftChecksum : String
  draftPayload : LinkSetBundleV1

structure PublishedRow where
  linkSetVersion : Nat
  updatedAt : String
  checksum : String
  payload : LinkSetBundleV1

structure State where
  sets : List (String × DraftRow)
  published : List (String × PublishedRow)

def rowVersionLe (a b : PublishedRow) : Prop := a.linkSetVersion ≤ b.linkSetVersion

instance : DecidableRel rowVersionLe :=
  fun a b => inferInstanceAs (Decidable (a.linkSetVersion ≤ b.linkSetVersion))

def publishedRowsFor (s : State) (link_set_id : String) : List PublishedRow :=
  ((s.published.filter fun kv => kv.1 = link_set_id).map Prod.snd).insertionSort rowVersionLe

def publishedVersionExists (s : State) (link_set_id : String) (v : Nat) : Bool :=
  s.published.any fun kv => kv.1 = link_set_id ∧ kv.2.linkSetVersion = v

/-- `_bundle_from_json` (`linkset_store.py` 507): parse+validate, a failure
is the 500 `LINK_SET_STORAGE_CORRUPTED`. -/
def _bundle_from_json (b : LinkSetBundleV1) : Except PyErr LinkSetBundleV1 :=
  match validateLinkSetBundle b with
  | .ok b' => .ok b'
  | .error _ => .error (.store 500 "LINK_SET_STORAGE_CORRUPTED")

/-- `LinkSetStore._build_bundle` (`linkset_store.py` 414). -/
def _build_bundle (link_set_id : String) (link_set_version : Nat)
    (editable : LinkSetEditableFieldsV1) (now : String) : Except PyErr LinkSetBundleV1 :=
  let checksum := compute_link_set_checksum link_set_id link_set_version editable.name editable.entries
  validateLinkSetBundle ⟨link_set_id, link_set_version, editable.name, editable.entries, now, checksum⟩

def _insert_published_row (s : State) (b : LinkSetBundleV1) : State :=
  { s with published := s.published ++ [(b.linkSetId, ⟨b.linkSetVersion, b.updatedAt, b.checksum, b⟩)] }

def _insert_link_set (s : State) (b : LinkSetBundleV1) (publish : Bool) : State :=
  let s' : State :=
    { s with sets := s.sets ++ [(b.linkSetId, ⟨b.name, b.linkSetVersion, b.updatedAt, b.checksum, b⟩)] }
  if publish then _insert_published_row s' b else s'

def _replace_draft (s : State) (b : LinkSetBundleV1) : State :=
  { s with sets := s.sets.map fun kv =>
      if kv.1 = b.linkSetId then (kv.1, ⟨b.name, b.linkSetVersion, b.updatedAt, b.checksum, b⟩)
      else kv }

/-- `_load_draft_bundle` (`linkset_store.py` 489). -/
def _load_draft_bundle (s : State) (link_set_id : String) : Except PyErr LinkSetBundleV1 :=
  match dictGet s.sets link_set_id with
  | none => .error (.store 404 "LINK_SET_NOT_FOUND")
  | some row => _bundle_from_json row.draftPayload

/-- `ensure_default_link_set` (`linkset_store.py` 59). -/
def ensure_default_link_set (linkSetId : String) (req : LinkSetEditableFieldsV1) (now : String)
    (s : State) : Except PyErr State := do
  if dictContains s.sets linkSetId then pure s
  else do
    let bundle ← _build_bundle linkSetId 1 req now
    pure (_insert_link_set s bundle true)

/-- `create_link_set` (`linkset_store.py` 136). -/
def create_link_set (linkSetId : String) (req : LinkSetEditableFieldsV1) (now : String)
    (s : State) : Except PyErr State := do
  let _ ← pyCheck (dictContains s.sets linkSetId) (.store 409 "LINK_SET_ALREADY_EXISTS")
  let bundle ← _build_bundle linkSetId 1 req now
  pure (_insert_link_set s bundle false)

/-- `update_link_set` (`linkset_store.py` 160). -/
def update_link_set (link_set_id : String) (req : LinkSetEditableFieldsV1) (now : String)
    (s : State) : Except PyErr State := do
  match dictGet s.sets link_set_id with
  | none => throw (.store 404 "LINK_SET_NOT_FOUND")
  | some row => do
      let bundle ← _build_bundle link_set_id (row.draftVersion + 1) req now
      pure (_replace_draft s bundle)

/-- `delete_link_set` (`linkset_store.py` 185), cascading to the published
rows. -/
def delete_link_set (link_set_id : String) (s : State) : Except PyErr State :=
  if dictContains s.sets link_set_id then
    .ok
      { sets := s.sets.filter fun kv => kv.1 ≠ link_set_id,
        published := s.published.filter fun kv => kv.1 ≠ link_set_id }
  else .error (.store 404 "LINK_SET_NOT_FOUND")

/-- `upsert_link_entry` (`linkset_store.py` 200). -/
def upsert_link_entry (link_set_id key : String) (request : LinkTypeDefinitionV1)
    (now : String) (s : State) : Except PyErr State := do
  let draft ← _load_draft_bundle s link_set_id
  let k ← normalize_type_key key
  let entries := dictInsert draft.entries k request
  let editable ← validateLinkSetEditableFields draft.name entries
  let bundle ← _build_bundle link_set_id (draft.linkSetVersion + 1) editable now
  pure (_replace_draft s bundle)

/-- `delete_link_entry` (`linkset_store.py` 228): note the key normalizes
before the draft loads. -/
def delete_link_entry (link_set_id key : String) (now : String) (s : State) :
    Except PyErr State := do
  let normalized_key ← normalize_type_key key
  let draft ← _load_draft_bundle s link_set_id
  let entries := draft.entries
  let _ ← pyCheck (¬dictContains entries normalized_key) (.store 404 "LINK_TYPE_NOT_FOUND")
  let _ ← pyCheck (entries.length ≤ 1) (.store 400 "LINK_SET_ENTRIES_EMPTY")
  let entries := dictRemove entries normalized_key
  let editable ← validateLinkSetEditableFields draft.name entries
  let bundle ← _build_bundle link_set_id (draft.linkSetVersion + 1) editable now
  pure (_replace_draft s bundle)

/-- `publish_link_set` (`linkset_store.py` 266). -/
def publish_link_set (link_set_id : String) (s : State) :
    Except PyErr (LinkSetBundleV1 × State) := do
  let draft ← _load_draft_bundle s link_set_id
  let _ ← pyCheck (publishedVersionExists s link_set_id draft.linkSetVersion) (.store 409 "LINK_SET_VERSION_ALREADY_PUBLISHED")
  pure (draft, _insert_published_row s draft)

inductive Stage where
  | draft
  | published
deriving Repr, DecidableEq

/-- `get_bundle` (`linkset_store.py` 309). -/
def get_bundle (link_set_id : String) (stage : Stage) (link_set_version : Option Nat)
    (s : State) : Except PyErr LinkSetBundleV1 := do
  match stage with
  | .draft => do
      let draft ← _load_draft_bundle s link_set_id
      match link_set_version with
      | some v =>
          if draft.linkSetVersion ≠ v then
            throw (.store 404 "LINK_SET_VERSION_NOT_FOUND")
          else pure draft
      | none => pure draft
  | .published =>
      match publishedRowsFor s link_set_id with
      | [] =>
          if dictContains s.sets link_set_id then
            throw (.store 404 "LINK_SET_NOT_PUBLISHED")
          else throw (.store 404 "LINK_SET_NOT_FOUND")
      | rows@(_ :: _) =>
          match link_set_version with
          | none => _bundle_from_json (rows.getLast (by simp_all)).payload
          | some v =>
              match rows.find? fun row => row.linkSetVersion = v with
              | some selected => _bundle_from_json selected.payload
              | none => .error (.store 404 "LINK_SET_VERSION_NOT_FOUND")

/-- The mutating operations of the link-set store. -/
inductive Op where
  | ensureDefault (id : String) (req : LinkSetEditableFieldsV1) (now : String)
  | create (id : String) (req : LinkSetEditableFieldsV1) (now : String)
  | update (id : String) (req : LinkSetEditableFieldsV1) (now : String)
  | deleteSet (id : String)
  | upsertEntry (id key : String) (request : LinkTypeDefinitionV1) (now : String)
  | deleteEntry (id key now : String)
  | publish (id : String)

def applyOp (op : Op) (s : State) : Except PyErr State :=
  match op with
  | .ensureDefault id req now => ensure_default_link_set id req now s
  | .create id req now => create_link_set id req now s
  | .update id req now => update_link_set id req now s
  | .deleteSet id => delete_link_set id s
  | .upsertEntry id key request now => upsert_link_entry id key request now s
  | .deleteEntry id key now => delete_link_entry id key now s
  | .publish id => (publish_link_set id s).map Prod.snd

def stateAfter (op : Op) (s : State) : State :=
  match applyOp op s with
  | .ok s' => s'
  | .error _ => s

def draftVersionOf (s : State) (link_set_id : String) : Option Nat :=
  (dictGet s.sets link_set_id).map DraftRow.draftVersion

end LinkSetStore

/-! ## Graph-type store (`graphtype_store.py`)

Holds whole-bundle payload blobs like the link-set store, plus the
denormalized checksum columns.  The composer (`_build_bundle`) reads the
three other stores. -/

namespace GraphTypeStore

structure DraftRow where
  name : String
  draftVersion : Nat
  draftUpdatedAt : String
  draftChecksum : String
  draftRuntimeChecksum : String
  draftIconSetResolutionChecksum : String
  draftPayload : GraphTypeBundleV1

structure PublishedRow where
  graphTypeVersion : Nat
  updatedAt : String
  checksum : String
  runtimeChecksum : String
  iconSetResolutionChecksum : String
  payload : GraphTypeBundleV1

structure State where
  graphs : List (String × DraftRow)
  published : List (String × PublishedRow)

def rowVersionLe (a b : PublishedRow) : Prop := a.graphTypeVersion ≤ b.graphTypeVersion

instance : DecidableRel rowVersionLe :=
  fun a b => inferInstanceAs (Decidable (a.graphTypeVersion ≤ b.graphTypeVersion))

def publishedRowsFor (s : State) (graph_type_id : String) : List PublishedRow :=
  ((s.published.filter fun kv => kv.1 = graph_type_id).map Prod.snd).insertionSort rowVersionLe

def publishedVersionExists (s : State) (graph_type_id : String) (v : Nat) : Bool :=
  s.published.any fun kv => kv.1 = graph_type_id ∧ kv.2.graphTypeVersion = v

/-- `_bundle_from_json` (`graphtype_store.py` 982). -/
def _bundle_from_json (b : GraphTypeBundleV1) : Except PyErr GraphTypeBundleV1 :=
  match validateGraphTypeBundle b with
  | .ok b' => .ok b'
  | .error _ => .error (.store 500 "GRAPH_TYPE_STORAGE_CORRUPTED")

/-- `_load_draft_bundle` (`graphtype_store.py` 965). -/
def _load_draft_bundle (s : State) (graph_type_id : String) : Except PyErr GraphTypeBundleV1 :=
  match dictGet s.graphs graph_type_id with
  | none => .error (.store 404 "GRAPH_TYPE_NOT_FOUND")
  | some row => _bundle_from_json row.draftPayload

/-- The running state of `_resolve_icon_sets`: the merged entry map, the
sources in ref order, and the per-key provenance. -/
structure ResolveState where
  resolvedEntries : List (String × String)
  sourceRefs : List IconsetSourceRefV1
  keySources : List (String × NodeTypeSourceV1)
deriving Repr, DecidableEq

/-- Python truthiness check `ref.checksum and ref.checksum != actual`: an
optional checksum pin present, non-empty and disagreeing with the fetched
bundle's checksum. -/
def checksumPinMismatch (pin : Option String) (actual : String) : Prop :=
  match pin with
  | some c => c ≠ "" ∧ c ≠ actual
  | none => False

instance (pin : Option String) (actual : String) : Decidable (checksumPinMismatch pin actual) :=
  match pin with
  | some c => inferInstanceAs (Decidable (c ≠ "" ∧ c ≠ actual))
  | none => inferInstanceAs (Decidable False)

/-- One `(key, icon)` pair of one source bundle inside the
`_resolve_icon_sets` loop (`graphtype_store.py` 442–482): record provenance,
insert a new key, ignore an equal icon, and settle a differing icon by the
conflict policy — `reject` fails 409 immediately, `first-wins` keeps the
existing value, `last-wins` overwrites the value and the `selectedFrom`
provenance. -/
def resolveEntryStep (conflict_policy : IconConflictPolicy) (source : IconsetSourceRefV1)
    (st : ResolveState) (kv : String × String) : Except PyErr ResolveState := do
  let normalized_key ← normalize_type_key kv.1
  let icon := kv.2
  let existing_icon := dictGet st.resolvedEntries normalized_key
  let keySources :=
    match dictGet st.keySources normalized_key with
    | none =>
        dictInsert st.keySources normalized_key ⟨normalized_key, icon, source, [source]⟩
    | some ks =>
        dictInsert st.keySources normalized_key { ks with candidates := ks.candidates ++ [source] }
  match existing_icon with
  | none =>
      pure { st with
        resolvedEntries := dictInsert st.resolvedEntries normalized_key icon,
        keySources := keySources }
  | some existing =>
      if existing = icon then
        pure { st with keySources := keySources }
      else
        match conflict_policy with
        | .reject => throw (.store 409 "ICONSET_KEY_CONFLICT")
        | .firstWins => pure { st with keySources := keySources }
        | .lastWins =>
            let keySources :=
              match dictGet keySources normalized_key with
              | some ks =>
                  dictInsert keySources normalized_key
                    { ks with icon := icon, selectedFrom := source }
              | none => keySources
            pure { st with
              resolvedEntries := dictInsert st.resolvedEntries normalized_key icon,
              keySources := keySources }

/-- One ref of the `_resolve_icon_sets` loop (`graphtype_store.py` 389–441):
fetch the pinned published bundle (the three not-found codes re-label to the
404 `GRAPH_TYPE_ICONSET_REF_INVALID`, anything else to the 500
`ICONSET_RESOLUTION_FAILED`), enforce the optional checksum pin (409), then
merge every entry. -/
def fetchResolvedIconset (icons : IconsetStore.State) (ref : ProfileIconsetRefV1) :
    Except PyErr IconsetBundleV1 :=
  match IconsetStore.get_bundle ref.iconSetId .published (some ref.iconSetVersion) icons with
  | .ok b => .ok b
  | .error (.store _sc code) =>
      if code = "ICONSET_NOT_FOUND" ∨ code = "ICONSET_NOT_PUBLISHED" ∨
          code = "ICONSET_VERSION_NOT_FOUND" then
        .error (.store 404 "GRAPH_TYPE_ICONSET_REF_INVALID")
      else .error (.store 500 "ICONSET_RESOLUTION_FAILED")
  | .error e => .error e

def resolveRefStep (icons : IconsetStore.State) (conflict_policy : IconConflictPolicy)
    (st : ResolveState) (ref : ProfileIconsetRefV1) : Except PyErr ResolveState := do
  let bundle ← fetchResolvedIconset icons ref
  let _ ← pyCheck (checksumPinMismatch ref.checksum bundle.checksum)
    (.store 409 "GRAPH_TYPE_ICONSET_REF_INVALID")
  let source : IconsetSourceRefV1 := ⟨bundle.iconSetId, bundle.iconSetVersion, bundle.checksum⟩
  let st := { st with sourceRefs := st.sourceRefs ++ [source] }
  bundle.entries.foldlM (resolveEntryStep conflict_policy source) st

/-- `GraphTypeStore._resolve_icon_sets` (`graphtype_store.py` 380): iterate
the refs in caller order, sort the resolved entries and per-key sources by
key, fail 400 `GRAPH_TYPE_ICONSET_REF_INVALID` on an empty resolved map,
and derive the resolution checksum over the policy, the sources in ref
order, and the sorted entries. -/
def _resolve_icon_sets (icons : IconsetStore.State) (refs : List ProfileIconsetRefV1)
    (conflict_policy : IconConflictPolicy) :
    Except PyErr
      (List (String × String) × List IconsetSourceRefV1 ×
        List (String × NodeTypeSourceV1) × String) := do
  let st ← refs.foldlM (resolveRefStep icons conflict_policy) ⟨[], [], []⟩
  let resolved_entries := sortByKey st.resolvedEntries
  let _ ← pyCheck (resolved_entries.isEmpty) (.store 400 "GRAPH_TYPE_ICONSET_REF_INVALID")
  let key_sources := sortByKey st.keySources
  let checksum :=
    compute_icon_set_resolution_checksum conflict_policy st.sourceRefs resolved_entries
  pure (resolved_entries, st.sourceRefs, key_sources, checksum)

def fetchResolvedLayoutSet (ev : ElkValidator) (layouts : LayoutSetStore.State)
    (ref : LayoutSetRefV1) : Except PyErr LayoutSetBundleV1 :=
  match LayoutSetStore.get_bundle ev ref.layoutSetId .published (some ref.layoutSetVersion)
      layouts with
  | .ok b => .ok b
  | .error (.store _sc code) =>
      if code = "LAYOUT_SET_NOT_FOUND" ∨ code = "LAYOUT_SET_NOT_PUBLISHED" ∨
          code = "LAYOUT_SET_VERSION_NOT_FOUND" then
        .error (.store 404 "GRAPH_TYPE_LAYOUT_SET_REF_INVALID")
      else .error (.store 500 "GRAPH_TYPE_LAYOUT_SET_RESOLUTION_FAILED")
  | .error e => .error e

def fetchResolvedLinkSet (links : LinkSetStore.State) (ref : LinkSetRefV1) :
    Except PyErr LinkSetBundleV1 :=
  match LinkSetStore.get_bundle ref.linkSetId .published (some ref.linkSetVersion) links with
  | .ok b => .ok b
  | .error (.store _sc code) =>
      if code = "LINK_SET_NOT_FOUND" ∨ code = "LINK_SET_NOT_PUBLISHED" ∨
          code = "LINK_SET_VERSION_NOT_FOUND" then
        .error (.store 404 "GRAPH_TYPE_LINK_SET_REF_INVALID")
      else .error (.store 500 "GRAPH_TYPE_LINK_SET_RESOLUTION_FAILED")
  | .error e => .error e

def runtimeValidateElk (ev : ElkValidator) (settings : List (String × Jsn)) :
    Except PyErr (List (String × Jsn)) :=
  match ev settings with
  | .ok dumped => .ok dumped
  | .error _ => .error (.store 500 "GRAPH_TYPE_RUNTIME_INVALID")

/-- `GraphTypeStore._build_bundle` (`graphtype_store.py` 505): resolve the
layout ref, the link ref and the icon-set refs, build the edge-type
overrides, merge and externally validate the settings (injecting the two
reserved keys), and derive the runtime and outer checksums. -/
def _build_bundle (ev : ElkValidator) (layouts : LayoutSetStore.State)
    (links : LinkSetStore.State) (icons : IconsetStore.State)
    (graph_type_id : String) (graph_type_version : Nat)
    (editable : GraphTypeEditableFieldsV1) (now : String) : Except PyErr GraphTypeBundleV1 := do
  let layout_bundle ← fetchResolvedLayoutSet ev layouts editable.layoutSetRef
  let _ ← pyCheck (checksumPinMismatch editable.layoutSetRef.checksum layout_bundle.checksum)
    (.store 409 "GRAPH_TYPE_LAYOUT_SET_REF_INVALID")
  let link_bundle ← fetchResolvedLinkSet links editable.linkSetRef
  let _ ← pyCheck (checksumPinMismatch editable.linkSetRef.checksum link_bundle.checksum)
    (.store 409 "GRAPH_TYPE_LINK_SET_REF_INVALID")
  let r ← _resolve_icon_sets icons editable.iconSetRefs editable.iconConflictPolicy
  let resolved_entries := r.1
  let source_refs := r.2.1
  let resolution_checksum := r.2.2.2
  let edge_defaults :=
    match dictGet layout_bundle.elkSettings "edge_defaults" with
    | some (.obj f) => f.toList
    | _ => []
  let edge_type_overrides := build_edge_type_overrides edge_defaults link_bundle.entries
  let resolved_elk_settings :=
    dictInsert layout_bundle.elkSettings "type_icon_map"
      (.objL ((sortByKey resolved_entries).map fun kv => (kv.1, .str kv.2)))
  let resolved_elk_settings :=
    dictInsert resolved_elk_settings "edge_type_overrides" (.objL edge_type_overrides)
  let validated_elk ← runtimeValidateElk ev resolved_elk_settings
  let link_types := sortStrings (dictKeys link_bundle.entries)
  let b0 : GraphTypeBundleV1 :=
    { graphTypeId := graph_type_id
      graphTypeVersion := graph_type_version
      name := editable.name
      layoutSetRef :=
        ⟨layout_bundle.layoutSetId, layout_bundle.layoutSetVersion, some layout_bundle.checksum⟩
      iconSetRefs := source_refs.map fun src => ⟨src.iconSetId, src.iconSetVersion, some src.checksum⟩
      linkSetRef := ⟨link_bundle.linkSetId, link_bundle.linkSetVersion, some link_bundle.checksum⟩
      iconConflictPolicy := editable.iconConflictPolicy
      nodeTypes := sortStrings (dictKeys resolved_entries)
      linkTypes := link_types
      typeIconMap := resolved_entries
      edgeTypeOverrides := edge_type_overrides
      iconSetResolutionChecksum := resolution_checksum
      runtimeChecksum := ""
      elkSettings := validated_elk
      updatedAt := now
      checksum := "" }
  let b1 := { b0 with runtimeChecksum := compute_graph_type_runtime_checksum b0 }
  validateGraphTypeBundle { b1 with checksum := compute_graph_type_checksum b1 }

def rowOfBundle (b : GraphTypeBundleV1) : DraftRow :=
  ⟨b.name, b.graphTypeVersion, b.updatedAt, b.checksum, b.runtimeChecksum,
   b.iconSetResolutionChecksum, b⟩

def _insert_published_row (s : State) (b : GraphTypeBundleV1) : State :=
  { s with published :=
      s.published ++
        [(b.graphTypeId,
          ⟨b.graphTypeVersion, b.updatedAt, b.checksum, b.runtimeChecksum,
           b.iconSetResolutionChecksum, b⟩)] }

/-- `_insert_graph_type` (`graphtype_store.py` 890). -/
def _insert_graph_type (s : State) (b : GraphTypeBundleV1) (publish : Bool) : State :=
  let s' : State := { s with graphs := s.graphs ++ [(b.graphTypeId, rowOfBundle b)] }
  if publish then _insert_published_row s' b else s'

/-- `_replace_draft` (`graphtype_store.py` 939). -/
def _replace_draft (s : State) (b : GraphTypeBundleV1) : State :=
  { s with graphs := s.graphs.map fun kv =>
      if kv.1 = b.graphTypeId then (kv.1, rowOfBundle b) else kv }

/-- `ensure_default_graph_type` (`graphtype_store.py` 88). -/
def ensure_default_graph_type (ev : ElkValidator) (layouts : LayoutSetStore.State)
    (links : LinkSetStore.State) (icons : IconsetStore.State)
    (graphTypeId : String) (req : GraphTypeEditableFieldsV1) (now : String) (s : State) :
    Except PyErr State := do
  if dictContains s.graphs graphTypeId then pure s
  else do
    let bundle ← _build_bundle ev layouts links icons graphTypeId 1 req now
    pure (_insert_graph_type s bundle true)

/-- `create_graph_type` (`graphtype_store.py` 169). -/
def create_graph_type (ev : ElkValidator) (layouts : LayoutSetStore.State)
    (links : LinkSetStore.State) (icons : IconsetStore.State)
    (graphTypeId : String) (req : GraphTypeEditableFieldsV1) (now : String) (s : State) :
    Except PyErr State := do
  let _ ← pyCheck (dictContains s.graphs graphTypeId) (.store 409 "GRAPH_TYPE_ALREADY_EXISTS")
  let bundle ← _build_bundle ev layouts links icons graphTypeId 1 req now
  pure (_insert_graph_type s bundle false)

/-- `update_graph_type` (`graphtype_store.py` 193). -/
def update_graph_type (ev : ElkValidator) (layouts : LayoutSetStore.State)
    (links : LinkSetStore.State) (icons : IconsetStore.State)
    (graph_type_id : String) (req : GraphTypeEditableFieldsV1) (now : String) (s : State) :
    Except PyErr State := do
  match dictGet s.graphs graph_type_id with
  | none => throw (.store 404 "GRAPH_TYPE_NOT_FOUND")
  | some row => do
      let bundle ← _build_bundle ev layouts links icons graph_type_id (row.draftVersion + 1) req now
      pure (_replace_draft s bundle)

/-- `publish_graph_type` (`graphtype_store.py` 218). -/
def publish_graph_type (graph_type_id : String) (s : State) :
    Except PyErr (GraphTypeBundleV1 × State) := do
  let draft ← _load_draft_bundle s graph_type_id
  let _ ← pyCheck (publishedVersionExists s graph_type_id draft.graphTypeVersion) (.store 409 "GRAPH_TYPE_VERSION_ALREADY_PUBLISHED")
  pure (draft, _insert_published_row s draft)

inductive Stage where
  | draft
  | published
deriving Repr, DecidableEq

/-- `get_bundle` (`graphtype_store.py` 265). -/
def get_bundle (graph_type_id : String) (stage : Stage) (graph_type_version : Option Nat)
    (s : State) : Except PyErr GraphTypeBundleV1 := do
  match stage with
  | .draft => do
      let draft ← _load_draft_bundle s graph_type_id
      match graph_type_version with
      | some v =>
          if draft.graphTypeVersion ≠ v then
            throw (.store 404 "GRAPH_TYPE_VERSION_NOT_FOUND")
          else pure draft
      | none => pure draft
  | .published =>
      match publishedRowsFor s graph_type_id with
      | [] =>
          if dictContains s.graphs graph_type_id then
            throw (.store 404 "GRAPH_TYPE_NOT_PUBLISHED")
          else throw (.store 404 "GRAPH_TYPE_NOT_FOUND")
      | rows@(_ :: _) =>
          match graph_type_version with
          | none => _bundle_from_json (rows.getLast (by simp_all)).payload
          | some v =>
              match rows.find? fun row => row.graphTypeVersion = v with
              | some selected => _bundle_from_json selected.payload
              | none => .error (.store 404 "GRAPH_TYPE_VERSION_NOT_FOUND")

/-- `GraphTypeRuntimeResponseV1` as returned by `get_runtime`. -/
structure RuntimeResponse where
  graphTypeId : String
  graphTypeVersion : Nat
  graphTypeChecksum : String
  runtimeChecksum : String
  conflictPolicy : IconConflictPolicy
  resolvedEntries : List (String × String)
  sources : List IconsetSourceRefV1
  keySources : List (String × NodeTypeSourceV1)
  linkTypes : List String
  edgeTypeOverrides : List (String × Jsn)
  checksum : String

/-- `get_runtime` (`graphtype_store.py` 325): fetch the bundle, re-resolve
its stored icon-set refs live, and answer with the bundle's runtime
checksum as the response checksum. -/
def get_runtime (icons : IconsetStore.State) (graph_type_id : String) (stage : Stage)
    (graph_type_version : Option Nat) (s : State) : Except PyErr RuntimeResponse := do
  let bundle ← get_bundle graph_type_id stage graph_type_version s
  let r ← _resolve_icon_sets icons bundle.iconSetRefs bundle.iconConflictPolicy
  pure
    { graphTypeId := bundle.graphTypeId
      graphTypeVersion := bundle.graphTypeVersion
      graphTypeChecksum := bundle.checksum
      runtimeChecksum := bundle.runtimeChecksum
      conflictPolicy := bundle.iconConflictPolicy
      resolvedEntries := r.1
      sources := r.2.1
      keySources := r.2.2.1
      linkTypes := bundle.linkTypes
      edgeTypeOverrides := bundle.edgeTypeOverrides
      checksum := bundle.runtimeChecksum }

/-- The mutating operations of the graph-type store. -/
inductive Op where
  | ensureDefault (id : String) (req : GraphTypeEditableFieldsV1) (now : String)
  | create (id : String) (req : GraphTypeEditableFieldsV1) (now : String)
  | update (id : String) (req : GraphTypeEditableFieldsV1) (now : String)
  | publish (id : String)

def applyOp (ev : ElkValidator) (layouts : LayoutSetStore.State) (links : LinkSetStore.State)
    (icons : IconsetStore.State) (op : Op) (s : State) : Except PyErr State :=
  match op with
  | .ensureDefault id req now => ensure_default_graph_type ev layouts links icons id req now s
  | .create id req now => create_graph_type ev layouts links icons id req now s
  | .update id req now => update_graph_type ev layouts links icons id req now s
  | .publish id => (publish_graph_type id s).map Prod.snd

def stateAfter (ev : ElkValidator) (layouts : LayoutSetStore.State) (links : LinkSetStore.State)
    (icons : IconsetStore.State) (op : Op) (s : State) : State :=
  match applyOp ev layouts links icons op s with
  | .ok s' => s'
  | .error _ => s

def draftVersionOf (s : State) (graph_type_id : String) : Option Nat :=
  (dictGet s.graphs graph_type_id).map DraftRow.draftVersion

end GraphTypeStore

/-! ## Layout-set legacy schema migration (`layoutset_store.py` 405-583)

The legacy shape stores every draft and published snapshot as one JSON
payload blob; the migration renames those tables aside, creates the
normalized tables, replays every legacy row through the bundle constructor
and drops the legacy tables. -/

namespace LayoutSetStore

/-- One row of the legacy `layout_sets` table: the id column and the
`draft_payload` blob (already decoded from its JSON text). -/
structure LegacyDraftRow where
  layout_set_id : String
  draft_payload : Jsn

/-- One row of the legacy `layout_set_published_versions` table. -/
structure LegacyPublishedRow where
  layout_set_id : String
  layout_set_version : Nat
  payload : Jsn

/-- The legacy payload-blob tables. -/
structure LegacyDb where
  layout_sets : List LegacyDraftRow
  published : List LegacyPublishedRow

/-- The layout-set database as `_ensure_schema` sees it: the normalized
tables, plus the legacy tables while they still exist. -/
structure Db where
  store : State
  legacy : Option LegacyDb

/-- `ORDER BY layout_set_id ASC` on the legacy draft table. -/
def legacyDraftLe (a b : LegacyDraftRow) : Prop :=
  strLe a.layout_set_id b.layout_set_id = true

instance : DecidableRel legacyDraftLe :=
  fun a b => inferInstanceAs (Decidable (strLe a.layout_set_id b.layout_set_id = true))

/-- `ORDER BY layout_set_id ASC, layout_set_version ASC` on the legacy
published table. -/
def legacyPubLe (a b : LegacyPublishedRow) : Prop :=
  if a.layout_set_id = b.layout_set_id then a.layout_set_version ≤ b.layout_set_version
  else strLe a.layout_set_id b.layout_set_id = true

instance : DecidableRel legacyPubLe := fun a b => by
  unfold legacyPubLe
  infer_instance

/-- The field names `LayoutSetBundleV1` accepts (`extra="forbid"`). -/
def layoutBundleFieldNames : List String :=
  ["schemaVersion", "layoutSetId", "layoutSetVersion", "name", "elkSettings", "updatedAt",
   "checksum"]

/-- A present `schemaVersion` field that is not the literal string `"v1"`. -/
def schemaVersionBad (o : Option Jsn) : Bool :=
  match o with
  | some (.str s) => s ≠ "v1"
  | some _ => true
  | none => false

/-- A required string field of a parsed JSON object. -/
def reqStr (f : List (String × Jsn)) (k : String) : Except PyErr String :=
  match dictGet f k with
  | some (.str s) => .ok s
  | _ => .error (.validationError "expected a string field")

/-- A required non-negative integer field of a parsed JSON object. -/
def reqNat (f : List (String × Jsn)) (k : String) : Except PyErr Nat :=
  match dictGet f k with
  | some (.num n) => if n < 0 then .error (.validationError "expected a version") else .ok n.toNat
  | _ => .error (.validationError "expected an integer field")

/-- A required object field of a parsed JSON object. -/
def reqObj (f : List (String × Jsn)) (k : String) : Except PyErr (List (String × Jsn)) :=
  match dictGet f k with
  | some (.obj g) => .ok g.toList
  | _ => .error (.validationError "expected an object field")

/-- `LayoutSetBundleV1.model_validate` on a parsed JSON payload
(`extra="forbid"`; `schemaVersion` defaults to `"v1"` and must equal it;
`updatedAt` is the ISO timestamp string): extract the typed fields, then
run the field and model validators. -/
def parseLayoutSetBundle (j : Jsn) : Except PyErr LayoutSetBundleV1 := do
  match j with
  | .obj fields => do
      let f := fields.toList
      let _ ← pyCheck (¬ ∀ k ∈ dictKeys f, k ∈ layoutBundleFieldNames)
        (.validationError "extra fields forbidden")
      let _ ← pyCheck (schemaVersionBad (dictGet f "schemaVersion") = true)
        (.validationError "schemaVersion must be v1")
      let layoutSetId ← reqStr f "layoutSetId"
      let layoutSetVersion ← reqNat f "layoutSetVersion"
      let name ← reqStr f "name"
      let elkSettings ← reqObj f "elkSettings"
      let updatedAt ← reqStr f "updatedAt"
      let checksum ← reqStr f "checksum"
      validateLayoutSetBundle
        ⟨layoutSetId, layoutSetVersion, name, elkSettings, updatedAt, checksum⟩
  | _ => .error (.validationError "expected an object")

/-- `_legacy_bundle_from_json` (`layoutset_store.py` 585): a legacy payload
that does not parse and validate aborts the migration with the fatal 500
`LAYOUT_SET_STORAGE_CORRUPTED`. -/
def _legacy_bundle_from_json (payload : Jsn) : Except PyErr LayoutSetBundleV1 :=
  match parseLayoutSetBundle payload with
  | .ok b => .ok b
  | .error _ => .error (.store 500 "LAYOUT_SET_STORAGE_CORRUPTED")

/-- The normalized draft row the migration inserts for a replayed legacy
bundle (`INSERT INTO layout_sets` + its `layout_set_draft_entries`). -/
def migratedDraftRowOf (b : LayoutSetBundleV1) : String × DraftRow :=
  (b.layoutSetId, ⟨b.name, b.layoutSetVersion, b.updatedAt, b.checksum, b.elkSettings⟩)

/-- The normalized published row the migration inserts for a replayed
legacy bundle. -/
def migratedPublishedRowOf (b : LayoutSetBundleV1) : String × PublishedRow :=
  (b.layoutSetId, ⟨b.layoutSetVersion, b.name, b.updatedAt, b.checksum, b.elkSettings⟩)

/-- Replay one legacy draft row through the bundle constructor into the new
`layout_sets` / `layout_set_draft_entries` tables. -/
def migrateDraftRow (s : State) (row : LegacyDraftRow) : Except PyErr State := do
  let bundle ← _legacy_bundle_from_json row.draft_payload
  pure { s with sets := s.sets ++ [migratedDraftRowOf bundle] }

/-- Replay one legacy published row into the new published tables. -/
def migratePublishedRow (s : State) (row : LegacyPublishedRow) : Except PyErr State := do
  let bundle ← _legacy_bundle_from_json row.payload
  pure { s with published := s.published ++ [migratedPublishedRowOf bundle] }

/-- `_migrate_legacy_payload_schema` (`layoutset_store.py` 466): require
the legacy payload columns, rename the legacy tables to their `_legacy_v0`
names, create the fresh normalized tables, replay every legacy draft
(`ORDER BY layout_set_id`) and published row (`ORDER BY layout_set_id,
layout_set_version`) through `_legacy_bundle_from_json`, then drop the
legacy tables. -/
def _migrate_legacy_payload_schema (db : Db) : Except PyErr Db :=
  match db.legacy with
  | none => .error (.store 500 "LAYOUT_SET_SCHEMA_MIGRATION_REQUIRED")
  | some leg => do
      let s1 ← (leg.layout_sets.insertionSort legacyDraftLe).foldlM migrateDraftRow ⟨[], []⟩
      let s2 ← (leg.published.insertionSort legacyPubLe).foldlM migratePublishedRow s1
      pure ⟨s2, none⟩

/-- The legacy-shape detection of `_ensure_schema` (`layoutset_store.py`
405): the payload columns are present exactly when the legacy tables are. -/
def _ensure_schema (db : Db) : Except PyErr Db :=
  if db.legacy.isSome then _migrate_legacy_payload_schema db else .ok db

end LayoutSetStore

/-- One version step of a draft under a store operation: unchanged, bumped
by exactly one, created at version 1, or removed; a version never decreases
and never skips. -/
def versionStep (v v2 : Option Nat) : Prop :=
  v2 = v ∨ (∃ n, v = some n ∧ v2 = some (n + 1)) ∨ (v = none ∧ v2 = some 1) ∨ v2 = none

/-! ## Order lemmas for the code-point string order and the key sorts -/

theorem charListLe_total (as bs : List Char) :
    charListLe as bs = true ∨ charListLe bs as = true := by
  induction as generalizing bs with
  | nil => left; rfl
  | cons a as ih =>
    cases bs with
    | nil => right; rfl
    | cons b bs =>
      simp only [charListLe]
      rcases Nat.lt_trichotomy a.toNat b.toNat with h | h | h
      · left; rw [if_pos h]
      · have h1 : ¬a.toNat < b.toNat := by omega
        have h2 : ¬b.toNat < a.toNat := by omega
        simp only [h1, h2, if_false]
        exact ih bs
      · right; rw [if_pos h]

theorem charListLe_trans (as bs cs : List Char) (h1 : charListLe as bs = true)
    (h2 : charListLe bs cs = true) : charListLe as cs = true := by
  induction as generalizing bs cs with
  | nil => rfl
  | cons a as ih =>
    cases bs with
    | nil => simp [charListLe] at h1
    | cons b bs =>
      cases cs with
      | nil => simp [charListLe] at h2
      | cons c cs =>
        simp only [charListLe] at h1 h2 ⊢
        rcases Nat.lt_trichotomy a.toNat b.toNat with hab | hab | hab
        · rcases Nat.lt_trichotomy b.toNat c.toNat with hbc | hbc | hbc
          · rw [if_pos (by omega)]
          · rw [if_pos (by omega)]
          · rw [if_neg (by omega), if_pos hbc] at h2
            simp at h2
        · rw [if_neg (by omega), if_neg (by omega)] at h1
          rcases Nat.lt_trichotomy b.toNat c.toNat with hbc | hbc | hbc
          · rw [if_pos (by omega)]
          · rw [if_neg (by omega), if_neg (by omega)] at h2
            rw [if_neg (by omega), if_neg (by omega)]
            exact ih bs cs h1 h2
          · rw [if_neg (by omega), if_pos hbc] at h2
            simp at h2
        · rw [if_neg (by omega), if_pos hab] at h1
          simp at h1

theorem char_eq_of_toNat_eq {a b : Char} (h : a.toNat = b.toNat) : a = b :=
  Char.eq_of_val_eq (UInt32.ext h)

theorem charListLe_antisymm (as bs : List Char) (h1 : charListLe as bs = true)
    (h2 : charListLe bs as = true) : as = bs := by
  induction as generalizing bs with
  | nil =>
    cases bs with
    | nil => rfl
    | cons b bs => simp [charListLe] at h2
  | cons a as ih =>
    cases bs with
    | nil => simp [charListLe] at h1
    | cons b bs =>
      simp only [charListLe] at h1 h2
      by_cases hab : a.toNat < b.toNat
      · rw [if_neg (by omega), if_pos (by omega)] at h2
        simp at h2
      · by_cases hba : b.toNat < a.toNat
        · rw [if_neg (by omega), if_pos (by omega)] at h1
          simp at h1
        · have he : a = b := char_eq_of_toNat_eq (by omega)
          rw [if_neg hab, if_neg hba] at h1
          rw [if_neg hba, if_neg hab] at h2
          rw [he, ih bs h1 h2]

theorem strLe_total (a b : String) : strLe a b = true ∨ strLe b a = true :=
  charListLe_total a.data b.data

theorem strLe_trans {a b c : String} (h1 : strLe a b = true) (h2 : strLe b c = true) :
    strLe a c = true :=
  charListLe_trans a.data b.data c.data h1 h2

theorem strLe_antisymm {a b : String} (h1 : strLe a b = true) (h2 : strLe b a = true) :
    a = b := by
  cases a; cases b
  simp only [strLe] at h1 h2
  rw [charListLe_antisymm _ _ h1 h2]

instance : IsTotal String strLeRel := ⟨strLe_total⟩
instance : IsTrans String strLeRel := ⟨fun _ _ _ => strLe_trans⟩
instance : IsAntisymm String strLeRel := ⟨fun _ _ => strLe_antisymm⟩

instance {α : Type} : IsTotal (String × α) pairKeyLe := ⟨fun a b => strLe_total a.1 b.1⟩
instance {α : Type} : IsTrans (String × α) pairKeyLe := ⟨fun _ _ _ => strLe_trans⟩

theorem sortByKey_perm {α : Type} (l : List (String × α)) : (sortByKey l).Perm l :=
  List.perm_insertionSort _ _

theorem sortByKey_sorted {α : Type} (l : List (String × α)) :
    List.Sorted pairKeyLe (sortByKey l) :=
  List.sorted_insertionSort _ _

theorem sortStrings_perm (l : List String) : (sortStrings l).Perm l :=
  List.perm_insertionSort _ _

theorem sortStrings_sorted (l : List String) : List.Sorted strLeRel (sortStrings l) :=
  List.sorted_insertionSort _ _

/-- Two lists of strings that are permutations of each other sort
identically: Python's `sorted` depends only on the multiset. -/
theorem sortStrings_eq_of_perm {l₁ l₂ : List String} (h : l₁.Perm l₂) :
    sortStrings l₁ = sortStrings l₂ :=
  List.eq_of_perm_of_sorted
    ((sortStrings_perm l₁).trans (h.trans (sortStrings_perm l₂).symm))
    (sortStrings_sorted l₁) (sortStrings_sorted l₂)

/-- Strict-by-key relation used to pin down a key-sorted list with distinct
keys. -/
def pairKeyLt {α : Type} (a b : String × α) : Prop := pairKeyLe a b ∧ a.1 ≠ b.1

instance {α : Type} : IsAntisymm (String × α) pairKeyLt :=
  ⟨fun _ _ h1 h2 => absurd (strLe_antisymm h1.1 h2.1) h1.2⟩

/-- A key-sorted entry list with pairwise-distinct keys is pairwise
strictly sorted. -/
theorem sorted_pairKeyLt_of_nodupKeys {α : Type} {l : List (String × α)}
    (hs : List.Sorted pairKeyLe l) (hnd : (l.map Prod.fst).Nodup) :
    List.Pairwise pairKeyLt l := by
  have hne : List.Pairwise (fun a b : String × α => a.1 ≠ b.1) l :=
    (List.pairwise_map.mp hnd)
  exact hs.and hne

/-- Entry lists that are permutations of each other with pairwise-distinct
keys sort identically by key. -/
theorem sortByKey_eq_of_perm {α : Type} {l₁ l₂ : List (String × α)} (h : l₁.Perm l₂)
    (hnd : (l₁.map Prod.fst).Nodup) : sortByKey l₁ = sortByKey l₂ := by
  have hperm : (sortByKey l₁).Perm (sortByKey l₂) :=
    (sortByKey_perm l₁).trans (h.trans (sortByKey_perm l₂).symm)
  have hnd₁ : ((sortByKey l₁).map Prod.fst).Nodup :=
    (((sortByKey_perm l₁).map Prod.fst).nodup_iff).mpr hnd
  have hnd₂ : ((sortByKey l₂).map Prod.fst).Nodup :=
    ((hperm.map Prod.fst).nodup_iff).mp hnd₁
  exact List.eq_of_perm_of_sorted hperm
    (sorted_pairKeyLt_of_nodupKeys (sortByKey_sorted l₁) hnd₁)
    (sorted_pairKeyLt_of_nodupKeys (sortByKey_sorted l₂) hnd₂)

/-! ## Semantic equality of JSON payloads up to map key insertion order -/

mutual
/-- Two JSON values are semantically equal and differ only in map key
insertion order: equal leaves, pointwise-equivalent arrays, and objects
whose (nodup-keyed) entry lists are permutations of each other with
equivalent values at equal keys. -/
inductive JEquiv : Jsn → Jsn → Prop where
  | null : JEquiv .null .null
  | bool (b : Bool) : JEquiv (.bool b) (.bool b)
  | num (n : Int) : JEquiv (.num n) (.num n)
  | str (s : String) : JEquiv (.str s) (.str s)
  | arr {as bs : JsnList} : JEquivList as bs → JEquiv (.arr as) (.arr bs)
  | obj {l₁ mid l₂ : JsnFields} :
      (JsnFields.keys l₁).Nodup → JEquivFields l₁ mid → mid.toList.Perm l₂.toList →
      JEquiv (.obj l₁) (.obj l₂)

inductive JEquivList : JsnList → JsnList → Prop where
  | nil : JEquivList .nil .nil
  | cons {a b : Jsn} {t u : JsnList} :
      JEquiv a b → JEquivList t u → JEquivList (.cons a t) (.cons b u)

inductive JEquivFields : JsnFields → JsnFields → Prop where
  | nil : JEquivFields .nil .nil
  | cons {k : String} {v w : Jsn} {t u : JsnFields} :
      JEquiv v w → JEquivFields t u → JEquivFields (.cons k v t) (.cons k w u)
end

/-- Serializing entry-by-entry is mapping serialization over the entry
list. -/
theorem canonicalJsonFields_eq_map : ∀ f : JsnFields,
    canonicalJsonFields f = f.toList.map fun kv => (kv.1, canonicalJson kv.2)
  | .nil => rfl
  | .cons k v t => by
      simp [canonicalJsonFields, JsnFields.toList, canonicalJsonFields_eq_map t]

theorem canonicalJsonList_eq_map : ∀ l : JsnList,
    canonicalJsonList l = l.toList.map canonicalJson
  | .nil => rfl
  | .cons j t => by
      simp [canonicalJsonList, JsnList.toList, canonicalJsonList_eq_map t]

/-- The serialized entry list keeps the original keys. -/
theorem canonicalJsonFields_keys (f : JsnFields) :
    (canonicalJsonFields f).map Prod.fst = JsnFields.keys f := by
  rw [canonicalJsonFields_eq_map, JsnFields.keys, List.map_map]
  rfl

mutual

/-- Canonical JSON is invariant under map key insertion order: the central
fact behind `_canonical_json`'s `sort_keys=True`. -/
theorem jequiv_canonicalJson {a b : Jsn} (h : JEquiv a b) :
    canonicalJson a = canonicalJson b :=
  match h with
  | .null => rfl
  | .bool _ => rfl
  | .num _ => rfl
  | .str _ => rfl
  | .arr hl => by
      simp only [canonicalJson]
      rw [jequivList_canonicalJson hl]
  | @JEquiv.obj l₁ mid l₂ hnd hf hperm => by
      simp only [canonicalJson]
      have h1 := jequivFields_canonicalJson hf
      have hpermSer := hperm.map fun kv => (kv.1, canonicalJson kv.2)
      rw [← canonicalJsonFields_eq_map, ← canonicalJsonFields_eq_map] at hpermSer
      rw [← h1] at hpermSer
      have hndSer : ((canonicalJsonFields l₁).map Prod.fst).Nodup := by
        rw [canonicalJsonFields_keys]; exact hnd
      rw [sortByKey_eq_of_perm hpermSer hndSer]

theorem jequivList_canonicalJson {as bs : JsnList} (h : JEquivList as bs) :
    canonicalJsonList as = canonicalJsonList bs :=
  match h with
  | .nil => rfl
  | .cons hv ht => by
      simp only [canonicalJsonList]
      rw [jequiv_canonicalJson hv, jequivList_canonicalJson ht]

theorem jequivFields_canonicalJson {l₁ l₂ : JsnFields} (h : JEquivFields l₁ l₂) :
    canonicalJsonFields l₁ = canonicalJsonFields l₂ :=
  match h with
  | .nil => rfl
  | .cons hv ht => by
      simp only [canonicalJsonFields]
      rw [jequiv_canonicalJson hv, jequivFields_canonicalJson ht]

end

/-! ## Shape of SHA-256 hex digests -/

theorem digestBytes_length (st : Sha256State) : (digestBytes st).length = 32 := rfl

theorem bytesToHex_data_length (bs : List Nat) :
    (bytesToHex bs).data.length = 2 * bs.length := by
  induction bs with
  | nil => rfl
  | cons b t ih =>
    simp only [bytesToHex, List.flatMap_cons] at *
    simp_all [List.length_append]
    omega

/-- Every character `bytesToHex` emits is one of the sixteen lowercase hex
digits. -/
theorem bytesToHex_chars_hex (bs : List Nat) :
    ∀ c ∈ (bytesToHex bs).data, isDigitChar c = true ∨ (97 ≤ c.toNat ∧ c.toNat ≤ 102) := by
  have hdigit : ∀ n : Nat, n < 16 →
      isDigitChar (hexDigitChar n) = true ∨
        (97 ≤ (hexDigitChar n).toNat ∧ (hexDigitChar n).toNat ≤ 102) := by
    intro n hn
    interval_cases n <;> decide
  intro c hc
  simp only [bytesToHex, List.mem_flatMap] at hc
  obtain ⟨b, _, hmem⟩ := hc
  have h1 : b / 16 % 16 < 16 := Nat.mod_lt _ (by omega)
  have h2 : b % 16 < 16 := Nat.mod_lt _ (by omega)
  rcases List.mem_cons.mp hmem with h | hmem2
  · rw [h]; exact hdigit _ h1
  · rcases List.mem_cons.mp hmem2 with h | hmem3
    · rw [h]; exact hdigit _ h2
    · simp at hmem3

/-- `sha256Hex` always produces a string matching the repository's
`CHECKSUM_PATTERN` (`^[a-f0-9]{64}$`): 64 lowercase hex characters. -/
theorem sha256Hex_matches_checksum_pattern (s : String) :
    matchesChecksumPattern (sha256Hex s) = true := by
  have hlen : (sha256Hex s).data.length = 64 := by
    show (bytesToHex (digestBytes (sha256 (utf8Bytes s)))).data.length = 64
    rw [bytesToHex_data_length, digestBytes_length]
  have hchars := bytesToHex_chars_hex (digestBytes (sha256 (utf8Bytes s)))
  simp only [matchesChecksumPattern, Bool.and_eq_true, beq_iff_eq, List.all_eq_true]
  refine ⟨hlen, fun c hc => ?_⟩
  rcases hchars c hc with h | h
  · simp [h]
  · simp only [Bool.or_eq_true, Bool.and_eq_true, decide_eq_true_eq]
    right
    omega

theorem sha256Hex_length (s : String) : (sha256Hex s).data.length = 64 := by
  show (bytesToHex (digestBytes (sha256 (utf8Bytes s)))).data.length = 64
  rw [bytesToHex_data_length, digestBytes_length]

/-! ## Reasoning helpers for `Except` chains and dict operations -/

theorem except_bind_ok {ε α β : Type} {x : Except ε α} {f : α → Except ε β} {b : β}
    (h : (x >>= f) = .ok b) : ∃ a, x = .ok a ∧ f a = .ok b := by
  cases x with
  | error e => simp [Bind.bind, Except.bind] at h
  | ok a => exact ⟨a, rfl, by simpa [Bind.bind, Except.bind] using h⟩

theorem except_bind_error {ε α β : Type} {x : Except ε α} {f : α → Except ε β} {e : ε}
    (h : (x >>= f) = .error e) : x = .error e ∨ ∃ a, x = .ok a ∧ f a = .error e := by
  cases x with
  | error e' => left; simpa [Bind.bind, Except.bind] using h
  | ok a => right; exact ⟨a, rfl, by simpa [Bind.bind, Except.bind] using h⟩

theorem pyCheck_ok {c : Prop} [hd : Decidable c] {e : PyErr} {u : Unit}
    (h : pyCheck c e = .ok u) : ¬c := by
  unfold pyCheck at h
  split at h
  · cases h
  · assumption

theorem pyCheck_not (c : Prop) [hd : Decidable c] (e : PyErr) (h : ¬c) :
    pyCheck c e = .ok () := by
  unfold pyCheck
  rw [if_neg h]

theorem pyCheck_error {c : Prop} [hd : Decidable c] {e e' : PyErr}
    (h : pyCheck c e = .error e') : e' = e ∧ c := by
  unfold pyCheck at h
  split at h
  · cases h; exact ⟨rfl, by assumption⟩
  · cases h

theorem except_map_ok {ε α β : Type} {x : Except ε α} {f : α → β} {b : β}
    (h : Except.map f x = .ok b) : ∃ a, x = .ok a ∧ f a = b := by
  cases x with
  | error e => simp [Except.map] at h
  | ok a => exact ⟨a, rfl, by simpa [Except.map] using h⟩

theorem dictGet_dictInsert_self {α : Type} (l : List (String × α)) (k : String) (v : α) :
    dictGet (dictInsert l k v) k = some v := by
  induction l with
  | nil => simp [dictInsert, dictGet]
  | cons kv t ih =>
    by_cases h : kv.1 = k
    · cases kv; simp_all [dictInsert, dictGet]
    · cases kv; simp_all [dictInsert, dictGet]

theorem dictGet_dictInsert_ne {α : Type} (l : List (String × α)) (k k' : String) (v : α)
    (h : k' ≠ k) : dictGet (dictInsert l k v) k' = dictGet l k' := by
  induction l with
  | nil => simp [dictInsert, dictGet, Ne.symm h]
  | cons kv t ih =>
    by_cases hk : kv.1 = k
    · cases kv
      subst hk
      simp only [dictInsert, if_pos rfl, dictGet]
      rw [if_neg (fun he => h he.symm), if_neg (fun he => h he.symm)]
    · cases kv; simp_all [dictInsert, dictGet]

theorem dictInsert_ne_nil {α : Type} (l : List (String × α)) (k : String) (v : α) :
    dictInsert l k v ≠ [] := by
  cases l with
  | nil => simp [dictInsert]
  | cons kv t =>
    cases kv
    simp only [dictInsert]
    split <;> simp

theorem dictGet_append_of_none {α : Type} {l₁ : List (String × α)} (l₂ : List (String × α))
    {k : String} (h : dictGet l₁ k = none) : dictGet (l₁ ++ l₂) k = dictGet l₂ k := by
  induction l₁ with
  | nil => rfl
  | cons kv t ih =>
    cases kv with
    | mk k' v =>
      simp only [dictGet] at h ⊢
      by_cases hk : k' = k
      · simp [hk] at h
      · simp only [List.cons_append, dictGet, if_neg hk] at *
        exact ih h

theorem dictGet_replace {α : Type} (l : List (String × α)) (id : String) (r : α) (k : String) :
    dictGet (l.map fun kv => if kv.1 = id then (kv.1, r) else kv) k =
      if k = id then (dictGet l k).map fun _ => r else dictGet l k := by
  induction l with
  | nil => by_cases h : k = id <;> simp [dictGet, h]
  | cons kv t ih =>
    obtain ⟨k', v⟩ := kv
    simp only [List.map_cons]
    by_cases hid : k' = id
    · subst hid
      by_cases hk : k' = k
      · subst hk
        rw [if_pos rfl]
        simp [dictGet]
      · rw [if_pos rfl]
        simp only [dictGet, if_neg hk]
        exact ih
    · rw [if_neg hid]
      by_cases hk : k' = k
      · subst hk
        have : ¬k' = id := hid
        simp [dictGet, this]
      · simp only [dictGet, if_neg hk]
        exact ih

/-! ## Facts about the contract validators -/

theorem normalizeIconsetEntries_length :
    ∀ (l acc res : List (String × String)), normalizeIconsetEntries l acc = .ok res →
      res.length = acc.length + l.length := by
  intro l
  induction l with
  | nil =>
    intro acc res h
    simp only [normalizeIconsetEntries] at h
    cases h
    simp
  | cons kv t ih =>
    intro acc res h
    obtain ⟨k, v⟩ := kv
    simp only [normalizeIconsetEntries] at h
    obtain ⟨key, h1, h⟩ := except_bind_ok h
    obtain ⟨icon, h2, h⟩ := except_bind_ok h
    split at h
    · cases h
    · have := ih _ _ h
      simp only [List.length_append, List.length_cons, List.length_nil] at this ⊢
      omega

theorem validate_entries_ok {l r : List (String × String)} (h : validate_entries l = .ok r) :
    r ≠ [] := by
  unfold validate_entries at h
  obtain ⟨u1, hg1, h⟩ := except_bind_ok h
  have hng1 := pyCheck_ok hg1
  obtain ⟨u2, hg2, h⟩ := except_bind_ok h
  have hng2 := pyCheck_ok hg2
  obtain ⟨normalized, h3, h⟩ := except_bind_ok h
  obtain ⟨u3, hg3, h⟩ := except_bind_ok h
  simp only [pure, Except.pure, Except.ok.injEq] at h
  have hlen := normalizeIconsetEntries_length _ _ _ h3
  simp only [List.length_nil, Nat.zero_add] at hlen
  have hl : 1 ≤ l.length := by
    by_contra hc
    exact hng1 (Or.inl (by omega))
  intro hr
  have : (sortByKey normalized).length = normalized.length :=
    (sortByKey_perm normalized).length_eq
  rw [← h] at hr
  rw [hr] at this
  simp at this
  omega

theorem validateIconsetBundle_proj {b b' : IconsetBundleV1}
    (h : validateIconsetBundle b = .ok b') :
    b'.iconSetId = b.iconSetId ∧ b'.iconSetVersion = b.iconSetVersion ∧
      b'.updatedAt = b.updatedAt ∧ b'.checksum = b.checksum ∧ b'.entries ≠ [] := by
  unfold validateIconsetBundle at h
  obtain ⟨nm, h1, h⟩ := except_bind_ok h
  obtain ⟨en, h2, h⟩ := except_bind_ok h
  obtain ⟨u1, hg1, h⟩ := except_bind_ok h
  have hng1 := pyCheck_ok hg1
  obtain ⟨u2, hg2, h⟩ := except_bind_ok h
  have hng2 := pyCheck_ok hg2
  simp only [pure, Except.pure, Except.ok.injEq] at h
  subst h
  exact ⟨rfl, rfl, rfl, rfl, validate_entries_ok h2⟩

/-- `IconsetStore._build_bundle` keeps the id, version and timestamp it was
given and derives the checksum from the canonical payload. -/
theorem iconset_build_bundle_proj {icon_set_id : String} {v : Nat}
    {editable : IconsetEditableFieldsV1} {now : String} {b : IconsetBundleV1}
    (h : IconsetStore._build_bundle icon_set_id v editable now = .ok b) :
    b.iconSetId = icon_set_id ∧ b.iconSetVersion = v ∧ b.updatedAt = now := by
  unfold IconsetStore._build_bundle at h
  obtain ⟨h1, h2, h3, _, _⟩ := validateIconsetBundle_proj h
  exact ⟨h1, h2, h3⟩

theorem validateLayoutSetBundle_proj {b b' : LayoutSetBundleV1}
    (h : validateLayoutSetBundle b = .ok b') :
    b'.layoutSetId = b.layoutSetId ∧ b'.layoutSetVersion = b.layoutSetVersion ∧
      b'.updatedAt = b.updatedAt ∧ b'.checksum = b.checksum := by
  unfold validateLayoutSetBundle at h
  obtain ⟨nm, h1, h⟩ := except_bind_ok h
  obtain ⟨en, h2, h⟩ := except_bind_ok h
  obtain ⟨u1, hg1, h⟩ := except_bind_ok h
  have hng1 := pyCheck_ok hg1
  obtain ⟨u2, hg2, h⟩ := except_bind_ok h
  have hng2 := pyCheck_ok hg2
  simp only [pure, Except.pure, Except.ok.injEq] at h
  subst h
  exact ⟨rfl, rfl, rfl, rfl⟩

theorem layout_build_bundle_proj {ev : ElkValidator} {layout_set_id : String} {v : Nat}
    {editable : LayoutSetEditableFieldsV1} {now : String} {b : LayoutSetBundleV1}
    (h : LayoutSetStore._build_bundle ev layout_set_id v editable now = .ok b) :
    b.layoutSetId = layout_set_id ∧ b.layoutSetVersion = v ∧ b.updatedAt = now := by
  unfold LayoutSetStore._build_bundle at h
  obtain ⟨settings, h1, h⟩ := except_bind_ok h
  obtain ⟨h2, h3, h4, _⟩ := validateLayoutSetBundle_proj h
  exact ⟨h2, h3, h4⟩

theorem normalizeLinkSetEntries_length :
    ∀ (l acc res : List (String × LinkTypeDefinitionV1)),
      normalizeLinkSetEntries l acc = .ok res → res.length = acc.length + l.length := by
  intro l
  induction l with
  | nil =>
    intro acc res h
    simp only [normalizeLinkSetEntries] at h
    cases h
    simp
  | cons kv t ih =>
    intro acc res h
    obtain ⟨k, v⟩ := kv
    simp only [normalizeLinkSetEntries] at h
    obtain ⟨key, h1, h⟩ := except_bind_ok h
    split at h
    · cases h
    · obtain ⟨d, h2, h⟩ := except_bind_ok h
      have := ih _ _ h
      simp only [List.length_append, List.length_cons, List.length_nil] at this ⊢
      omega

theorem validateLinkSetEntries_ok {l r : List (String × LinkTypeDefinitionV1)}
    (h : validateLinkSetEntries l = .ok r) : r ≠ [] := by
  unfold validateLinkSetEntries at h
  obtain ⟨u1, hg1, h⟩ := except_bind_ok h
  have hng1 := pyCheck_ok hg1
  obtain ⟨u2, hg2, h⟩ := except_bind_ok h
  have hng2 := pyCheck_ok hg2
  obtain ⟨normalized, h3, h⟩ := except_bind_ok h
  obtain ⟨u3, hg3, h⟩ := except_bind_ok h
  simp only [pure, Except.pure, Except.ok.injEq] at h
  have hlen := normalizeLinkSetEntries_length _ _ _ h3
  simp only [List.length_nil, Nat.zero_add] at hlen
  have hl : 1 ≤ l.length := by
    by_contra hc
    exact hng1 (Or.inl (by omega))
  intro hr
  have : (sortByKey normalized).length = normalized.length :=
    (sortByKey_perm normalized).length_eq
  rw [← h] at hr
  rw [hr] at this
  simp at this
  omega

theorem validateLinkSetBundle_proj {b b' : LinkSetBundleV1}
    (h : validateLinkSetBundle b = .ok b') :
    b'.linkSetId = b.linkSetId ∧ b'.linkSetVersion = b.linkSetVersion ∧
      b'.updatedAt = b.updatedAt ∧ b'.checksum = b.checksum ∧ b'.entries ≠ [] := by
  unfold validateLinkSetBundle at h
  obtain ⟨nm, h1, h⟩ := except_bind_ok h
  obtain ⟨en, h2, h⟩ := except_bind_ok h
  obtain ⟨u1, hg1, h⟩ := except_bind_ok h
  have hng1 := pyCheck_ok hg1
  obtain ⟨u2, hg2, h⟩ := except_bind_ok h
  have hng2 := pyCheck_ok hg2
  simp only [pure, Except.pure, Except.ok.injEq] at h
  subst h
  exact ⟨rfl, rfl, rfl, rfl, validateLinkSetEntries_ok h2⟩

theorem link_build_bundle_proj {link_set_id : String} {v : Nat}
    {editable : LinkSetEditableFieldsV1} {now : String} {b : LinkSetBundleV1}
    (h : LinkSetStore._build_bundle link_set_id v editable now = .ok b) :
    b.linkSetId = link_set_id ∧ b.linkSetVersion = v ∧ b.updatedAt = now := by
  unfold LinkSetStore._build_bundle at h
  obtain ⟨h1, h2, h3, _, _⟩ := validateLinkSetBundle_proj h
  exact ⟨h1, h2, h3⟩

/-- `GraphTypeBundleV1.model_validate` keeps the identity, version,
settings, timestamp and checksum columns, and only accepts bundles whose
sorted `nodeTypes` equal the sorted `typeIconMap` keys. -/
theorem validateGraphTypeBundle_proj {b b' : GraphTypeBundleV1}
    (h : validateGraphTypeBundle b = .ok b') :
    b'.graphTypeId = b.graphTypeId ∧ b'.graphTypeVersion = b.graphTypeVersion ∧
      b'.updatedAt = b.updatedAt ∧ b'.checksum = b.checksum ∧
      b'.elkSettings = b.elkSettings ∧
      sortStrings b'.nodeTypes = sortStrings (dictKeys b'.typeIconMap) := by
  unfold validateGraphTypeBundle at h
  obtain ⟨nm, h1, h⟩ := except_bind_ok h
  obtain ⟨lr, h2, h⟩ := except_bind_ok h
  obtain ⟨ir0, h3, h⟩ := except_bind_ok h
  obtain ⟨ir, h4, h⟩ := except_bind_ok h
  obtain ⟨kr, h5, h⟩ := except_bind_ok h
  obtain ⟨u1, hg1, h⟩ := except_bind_ok h
  have hng1 := pyCheck_ok hg1
  obtain ⟨nt, h6, h⟩ := except_bind_ok h
  obtain ⟨lt, h7, h⟩ := except_bind_ok h
  obtain ⟨tim, h8, h⟩ := except_bind_ok h
  obtain ⟨u2, hg2, h⟩ := except_bind_ok h
  have hng2 := pyCheck_ok hg2
  obtain ⟨u3, hg3, h⟩ := except_bind_ok h
  have hng3 := pyCheck_ok hg3
  obtain ⟨u4, hg4, h⟩ := except_bind_ok h
  have hng4 := pyCheck_ok hg4
  obtain ⟨u5, hg5, h⟩ := except_bind_ok h
  have hng5 := pyCheck_ok hg5
  simp only [pure, Except.pure, Except.ok.injEq] at h
  subst h
  exact ⟨rfl, rfl, rfl, rfl, rfl, not_ne_iff.mp hng5⟩

theorem graphtype_build_bundle_proj {ev : ElkValidator} {layouts : LayoutSetStore.State}
    {links : LinkSetStore.State} {icons : IconsetStore.State}
    {graph_type_id : String} {v : Nat} {editable : GraphTypeEditableFieldsV1}
    {now : String} {b : GraphTypeBundleV1}
    (h : GraphTypeStore._build_bundle ev layouts links icons graph_type_id v editable now =
      .ok b) :
    b.graphTypeId = graph_type_id ∧ b.graphTypeVersion = v ∧ b.updatedAt = now ∧
      sortStrings b.nodeTypes = sortStrings (dictKeys b.typeIconMap) := by
  unfold GraphTypeStore._build_bundle at h
  obtain ⟨lb, h1, h⟩ := except_bind_ok h
  obtain ⟨u1, hg1, h⟩ := except_bind_ok h
  obtain ⟨kb, h2, h⟩ := except_bind_ok h
  obtain ⟨u2, hg2, h⟩ := except_bind_ok h
  obtain ⟨r, h3, h⟩ := except_bind_ok h
  obtain ⟨velk, h4, h⟩ := except_bind_ok h
  obtain ⟨e1, e2, e3, _, _, e6⟩ := validateGraphTypeBundle_proj h
  exact ⟨e1, e2, e3, e6⟩

/-! ## The nodeTypes / typeIconMap cross-field invariant (claim C4) -/

theorem gt_bundle_from_json_inv {b b' : GraphTypeBundleV1}
    (h : GraphTypeStore._bundle_from_json b = .ok b') :
    sortStrings b'.nodeTypes = sortStrings (dictKeys b'.typeIconMap) := by
  unfold GraphTypeStore._bundle_from_json at h
  split at h
  · cases h
    exact (validateGraphTypeBundle_proj (by assumption)).2.2.2.2.2
  · cases h

theorem gt_load_draft_inv {s : GraphTypeStore.State} {id : String} {b : GraphTypeBundleV1}
    (h : GraphTypeStore._load_draft_bundle s id = .ok b) :
    sortStrings b.nodeTypes = sortStrings (dictKeys b.typeIconMap) := by
  unfold GraphTypeStore._load_draft_bundle at h
  split at h
  · cases h
  · exact gt_bundle_from_json_inv h

theorem gt_get_bundle_inv {id : String} {stage : GraphTypeStore.Stage} {v : Option Nat}
    {s : GraphTypeStore.State} {b : GraphTypeBundleV1}
    (h : GraphTypeStore.get_bundle id stage v s = .ok b) :
    sortStrings b.nodeTypes = sortStrings (dictKeys b.typeIconMap) := by
  unfold GraphTypeStore.get_bundle at h
  split at h
  · obtain ⟨draft, h1, h⟩ := except_bind_ok h
    have hinv := gt_load_draft_inv h1
    split at h
    · split at h
      · simp [throw, throwThe, MonadExceptOf.throw] at h
      · simp only [pure, Except.pure, Except.ok.injEq] at h
        subst h
        exact hinv
    · simp only [pure, Except.pure, Except.ok.injEq] at h
      subst h
      exact hinv
  · split at h
    · split at h <;> simp [throw, throwThe, MonadExceptOf.throw] at h
    · split at h
      · exact gt_bundle_from_json_inv h
      · split at h
        · exact gt_bundle_from_json_inv h
        · cases h

theorem gt_publish_ok {id : String} {s : GraphTypeStore.State}
    {r : GraphTypeBundleV1 × GraphTypeStore.State}
    (h : GraphTypeStore.publish_graph_type id s = .ok r) :
    GraphTypeStore._load_draft_bundle s id = .ok r.1 ∧
      r.2 = GraphTypeStore._insert_published_row s r.1 := by
  unfold GraphTypeStore.publish_graph_type at h
  obtain ⟨draft, h1, h⟩ := except_bind_ok h
  obtain ⟨u, hg, h⟩ := except_bind_ok h
  simp only [pure, Except.pure, Except.ok.injEq] at h
  subst h
  exact ⟨h1, rfl⟩

/-- **C4**: every graph-type bundle the store constructs (`_build_bundle`),
returns (`get_bundle`, draft or published, any version), or persists (the
draft and published payload columns, preserved by every store operation)
satisfies `sorted(nodeTypes) = sorted(typeIconMap.keys())`. -/
theorem C4_node_types_match_type_icon_map :
    (∀ (ev : ElkValidator) (layouts : LayoutSetStore.State) (links : LinkSetStore.State)
       (icons : IconsetStore.State) (id : String) (v : Nat)
       (editable : GraphTypeEditableFieldsV1) (now : String) (b : GraphTypeBundleV1),
       GraphTypeStore._build_bundle ev layouts links icons id v editable now = .ok b →
       sortStrings b.nodeTypes = sortStrings (dictKeys b.typeIconMap)) ∧
    (∀ (id : String) (stage : GraphTypeStore.Stage) (v : Option Nat)
       (s : GraphTypeStore.State) (b : GraphTypeBundleV1),
       GraphTypeStore.get_bundle id stage v s = .ok b →
       sortStrings b.nodeTypes = sortStrings (dictKeys b.typeIconMap)) ∧
    (∀ (ev : ElkValidator) (layouts : LayoutSetStore.State) (links : LinkSetStore.State)
       (icons : IconsetStore.State) (op : GraphTypeStore.Op)
       (s s' : GraphTypeStore.State),
       (∀ kv ∈ s.graphs,
         sortStrings kv.2.draftPayload.nodeTypes =
           sortStrings (dictKeys kv.2.draftPayload.typeIconMap)) →
       (∀ kv ∈ s.published,
         sortStrings kv.2.payload.nodeTypes =
           sortStrings (dictKeys kv.2.payload.typeIconMap)) →
       GraphTypeStore.applyOp ev layouts links icons op s = .ok s' →
       (∀ kv ∈ s'.graphs,
         sortStrings kv.2.draftPayload.nodeTypes =
           sortStrings (dictKeys kv.2.draftPayload.typeIconMap)) ∧
       (∀ kv ∈ s'.published,
         sortStrings kv.2.payload.nodeTypes =
           sortStrings (dictKeys kv.2.payload.typeIconMap))) := by
  refine ⟨?_, ?_, ?_⟩
  · intro ev layouts links icons id v editable now b h
    exact (graphtype_build_bundle_proj h).2.2.2
  · intro id stage v s b h
    exact gt_get_bundle_inv h
  · intro ev layouts links icons op s s' hg hp h
    cases op with
    | ensureDefault id req now =>
      simp only [GraphTypeStore.applyOp, GraphTypeStore.ensure_default_graph_type] at h
      split at h
      · simp only [pure, Except.pure, Except.ok.injEq] at h
        subst h
        exact ⟨hg, hp⟩
      · obtain ⟨bundle, hb, h⟩ := except_bind_ok h
        have hinv := (graphtype_build_bundle_proj hb).2.2.2
        simp only [pure, Except.pure, Except.ok.injEq] at h
        subst h
        constructor
        · intro kv hkv
          have hkv2 : kv ∈ s.graphs ++ [(bundle.graphTypeId, GraphTypeStore.rowOfBundle bundle)] :=
            hkv
          rcases List.mem_append.mp hkv2 with hold | hnew
          · exact hg kv hold
          · rw [List.mem_singleton.mp hnew]
            exact hinv
        · intro kv hkv
          have hkv2 : kv ∈ s.published ++
              [(bundle.graphTypeId,
                (⟨bundle.graphTypeVersion, bundle.updatedAt, bundle.checksum,
                  bundle.runtimeChecksum, bundle.iconSetResolutionChecksum, bundle⟩ :
                  GraphTypeStore.PublishedRow))] := hkv
          rcases List.mem_append.mp hkv2 with hold | hnew
          · exact hp kv hold
          · rw [List.mem_singleton.mp hnew]
            exact hinv
    | create id req now =>
      simp only [GraphTypeStore.applyOp, GraphTypeStore.create_graph_type] at h
      obtain ⟨u, hu, h⟩ := except_bind_ok h
      obtain ⟨bundle, hb, h⟩ := except_bind_ok h
      have hinv := (graphtype_build_bundle_proj hb).2.2.2
      simp only [pure, Except.pure, Except.ok.injEq] at h
      subst h
      constructor
      · intro kv hkv
        have hkv2 : kv ∈ s.graphs ++ [(bundle.graphTypeId, GraphTypeStore.rowOfBundle bundle)] :=
          hkv
        rcases List.mem_append.mp hkv2 with hold | hnew
        · exact hg kv hold
        · rw [List.mem_singleton.mp hnew]
          exact hinv
      · intro kv hkv
        exact hp kv hkv
    | update id req now =>
      simp only [GraphTypeStore.applyOp, GraphTypeStore.update_graph_type] at h
      split at h
      · cases h
      · obtain ⟨bundle, hb, h⟩ := except_bind_ok h
        have hinv := (graphtype_build_bundle_proj hb).2.2.2
        simp only [pure, Except.pure, Except.ok.injEq] at h
        subst h
        constructor
        · intro kv hkv
          simp only [GraphTypeStore._replace_draft, List.mem_map] at hkv
          obtain ⟨kv0, hkv0, heq⟩ := hkv
          by_cases hid : kv0.1 = bundle.graphTypeId
          · rw [if_pos hid] at heq
            subst heq
            exact hinv
          · rw [if_neg hid] at heq
            subst heq
            exact hg kv0 hkv0
        · intro kv hkv
          simp only [GraphTypeStore._replace_draft] at hkv
          exact hp kv hkv
    | publish id =>
      simp only [GraphTypeStore.applyOp] at h
      obtain ⟨r, hr, hmap⟩ := except_map_ok h
      obtain ⟨hload, hst⟩ := gt_publish_ok hr
      have hinv := gt_load_draft_inv hload
      subst hmap
      rw [hst]
      constructor
      · intro kv hkv
        simp only [GraphTypeStore._insert_published_row] at hkv
        exact hg kv hkv
      · intro kv hkv
        simp only [GraphTypeStore._insert_published_row, List.mem_append,
          List.mem_singleton] at hkv
        rcases hkv with hold | hnew
        · exact hp kv hold
        · subst hnew
          exact hinv

/-- Witness for C4: a concrete one-row store whose draft loads, and the
no-op `ensureDefault` on the existing id, both keep the invariant. -/
theorem C4_witness :
    sortStrings (GraphTypeBundleV1.nodeTypes
        { graphTypeId := "default", graphTypeVersion := 1, name := "Default",
          layoutSetRef := ⟨"default", 1, none⟩, iconSetRefs := [⟨"default", 1, none⟩],
          linkSetRef := ⟨"default", 1, none⟩, iconConflictPolicy := .reject,
          nodeTypes := ["router"], linkTypes := ["flow"],
          typeIconMap := [("router", "mdi:router")], edgeTypeOverrides := [],
          iconSetResolutionChecksum := String.mk (List.replicate 64 'a'),
          runtimeChecksum := String.mk (List.replicate 64 'a'),
          elkSettings := [("spacing", .num 10)], updatedAt := "2024-01-01T00:00:00",
          checksum := String.mk (List.replicate 64 'a') }) =
      sortStrings (dictKeys (GraphTypeBundleV1.typeIconMap
        { graphTypeId := "default", graphTypeVersion := 1, name := "Default",
          layoutSetRef := ⟨"default", 1, none⟩, iconSetRefs := [⟨"default", 1, none⟩],
          linkSetRef := ⟨"default", 1, none⟩, iconConflictPolicy := .reject,
          nodeTypes := ["router"], linkTypes := ["flow"],
          typeIconMap := [("router", "mdi:router")], edgeTypeOverrides := [],
          iconSetResolutionChecksum := String.mk (List.replicate 64 'a'),
          runtimeChecksum := String.mk (List.replicate 64 'a'),
          elkSettings := [("spacing", .num 10)], updatedAt := "2024-01-01T00:00:00",
          checksum := String.mk (List.replicate 64 'a') })) :=
  C4_node_types_match_type_icon_map.2.1 "default" .draft none
    ⟨[("default",
       ⟨"Default", 1, "2024-01-01T00:00:00", String.mk (List.replicate 64 'a'),
        String.mk (List.replicate 64 'a'), String.mk (List.replicate 64 'a'),
        { graphTypeId := "default", graphTypeVersion := 1, name := "Default",
          layoutSetRef := ⟨"default", 1, none⟩, iconSetRefs := [⟨"default", 1, none⟩],
          linkSetRef := ⟨"default", 1, none⟩, iconConflictPolicy := .reject,
          nodeTypes := ["router"], linkTypes := ["flow"],
          typeIconMap := [("router", "mdi:router")], edgeTypeOverrides := [],
          iconSetResolutionChecksum := String.mk (List.replicate 64 'a'),
          runtimeChecksum := String.mk (List.replicate 64 'a'),
          elkSettings := [("spacing", .num 10)], updatedAt := "2024-01-01T00:00:00",
          checksum := String.mk (List.replicate 64 'a') }⟩)], []⟩
    _ rfl

/-- **C6**: canonical JSON serialization is invariant under map key
insertion order on semantically equal payloads, so the SHA-256 checksum
over it is identical, and it always matches `^[a-f0-9]{64}$`. -/
theorem C6_canonical_json_checksum_deterministic {a b : Jsn} (h : JEquiv a b) :
    canonicalJson a = canonicalJson b ∧ _sha256_hex a = _sha256_hex b ∧
      matchesChecksumPattern (_sha256_hex a) = true := by
  refine ⟨jequiv_canonicalJson h, ?_, sha256Hex_matches_checksum_pattern _⟩
  unfold _sha256_hex
  rw [jequiv_canonicalJson h]

/-- Witness for C6: two concrete objects differing only in key order. -/
theorem C6_witness :
    canonicalJson (.objL [("b", .num 1), ("a", .str "x")]) =
        canonicalJson (.objL [("a", .str "x"), ("b", .num 1)]) ∧
      _sha256_hex (.objL [("b", .num 1), ("a", .str "x")]) =
          _sha256_hex (.objL [("a", .str "x"), ("b", .num 1)]) ∧
      matchesChecksumPattern (_sha256_hex (.objL [("b", .num 1), ("a", .str "x")])) = true :=
  C6_canonical_json_checksum_deterministic
    (@JEquiv.obj (JsnFields.ofList [("b", .num 1), ("a", .str "x")])
      (JsnFields.ofList [("b", .num 1), ("a", .str "x")])
      (JsnFields.ofList [("a", .str "x"), ("b", .num 1)])
      (by decide)
      (JEquivFields.cons (JEquiv.num 1) (JEquivFields.cons (JEquiv.str "x") JEquivFields.nil))
      (by
        show [("b", Jsn.num 1), ("a", Jsn.str "x")].Perm [("a", Jsn.str "x"), ("b", Jsn.num 1)]
        exact List.Perm.swap _ _ _))

/-! ## Reachability of the empty-resolution branch (claim C10) -/

theorem foldlM_ok_post {σ α : Type} {step : σ → α → Except PyErr σ} {P : σ → Prop}
    (hstep : ∀ s x s', step s x = .ok s' → P s') :
    ∀ {l : List α} {init out : σ}, l ≠ [] → l.foldlM step init = .ok out → P out := by
  intro l
  induction l with
  | nil => intro init out hne _; exact absurd rfl hne
  | cons x t ih =>
    intro init out _ h
    rw [List.foldlM_cons] at h
    obtain ⟨s1, h1, h⟩ := except_bind_ok h
    by_cases ht : t = []
    · subst ht
      simp only [List.foldlM_nil, pure, Except.pure, Except.ok.injEq] at h
      subst h
      exact hstep _ _ _ h1
    · exact ih ht h

theorem foldlM_error_class {σ α : Type} {step : σ → α → Except PyErr σ} {Q : PyErr → Prop}
    (hstep : ∀ s x e, step s x = .error e → Q e) :
    ∀ {l : List α} {init : σ} {e : PyErr}, l.foldlM step init = .error e → Q e := by
  intro l
  induction l with
  | nil => intro init e h; simp [List.foldlM_nil, pure, Except.pure] at h
  | cons x t ih =>
    intro init e h
    rw [List.foldlM_cons] at h
    rcases except_bind_error h with h | ⟨s1, h1, h⟩
    · exact hstep _ _ _ h
    · exact ih h

theorem dictGet_some_ne_nil {α : Type} {l : List (String × α)} {k : String} {v : α}
    (h : dictGet l k = some v) : l ≠ [] := by
  intro hl
  subst hl
  cases h

theorem iconset_get_bundle_entries_ne_nil {id : String} {stage : IconsetStore.Stage}
    {v : Option Nat} {s : IconsetStore.State} {b : IconsetBundleV1}
    (h : IconsetStore.get_bundle id stage v s = .ok b) : b.entries ≠ [] := by
  unfold IconsetStore.get_bundle at h
  have hload : ∀ {id2 : String} {b2 : IconsetBundleV1},
      IconsetStore._load_draft_bundle s id2 = .ok b2 → b2.entries ≠ [] := by
    intro id2 b2 h2
    unfold IconsetStore._load_draft_bundle at h2
    split at h2
    · cases h2
    · exact (validateIconsetBundle_proj h2).2.2.2.2
  split at h
  · obtain ⟨draft, h1, h⟩ := except_bind_ok h
    have hinv := hload h1
    split at h
    · split at h
      · simp [throw, throwThe, MonadExceptOf.throw] at h
      · simp only [pure, Except.pure, Except.ok.injEq] at h
        subst h
        exact hinv
    · simp only [pure, Except.pure, Except.ok.injEq] at h
      subst h
      exact hinv
  · split at h
    · split at h <;> simp [throw, throwThe, MonadExceptOf.throw] at h
    · split at h
      · exact (validateIconsetBundle_proj h).2.2.2.2
      · split at h
        · exact (validateIconsetBundle_proj h).2.2.2.2
        · cases h

theorem fetchResolvedIconset_entries_ne_nil {icons : IconsetStore.State}
    {ref : ProfileIconsetRefV1} {b : IconsetBundleV1}
    (h : GraphTypeStore.fetchResolvedIconset icons ref = .ok b) : b.entries ≠ [] := by
  unfold GraphTypeStore.fetchResolvedIconset at h
  split at h
  · cases h
    exact iconset_get_bundle_entries_ne_nil (by assumption)
  · split at h <;> cases h
  · cases h

theorem fetchResolvedIconset_error_class {icons : IconsetStore.State}
    {ref : ProfileIconsetRefV1} {e : PyErr}
    (h : GraphTypeStore.fetchResolvedIconset icons ref = .error e) :
    e ≠ .store 400 "GRAPH_TYPE_ICONSET_REF_INVALID" := by
  unfold GraphTypeStore.fetchResolvedIconset at h
  split at h
  · cases h
  · split at h <;> (cases h; intro hc; cases hc)
  · rename_i x1 e0 hno heq
    cases h
    intro hc
    subst hc
    exact hno 400 "GRAPH_TYPE_ICONSET_REF_INVALID" rfl

theorem resolveEntryStep_resolved_ne_nil {cp : IconConflictPolicy}
    {source : IconsetSourceRefV1} {st st' : GraphTypeStore.ResolveState}
    {kv : String × String}
    (h : GraphTypeStore.resolveEntryStep cp source st kv = .ok st') :
    st'.resolvedEntries ≠ [] := by
  unfold GraphTypeStore.resolveEntryStep at h
  obtain ⟨key, h1, h⟩ := except_bind_ok h
  simp only [] at h
  all_goals repeat' split at h
  all_goals
    first
      | simp [throw, throwThe, MonadExceptOf.throw] at h
      | (simp only [pure, Except.pure, Except.ok.injEq] at h
         subst h
         first
           | exact dictInsert_ne_nil _ _ _
           | exact dictGet_some_ne_nil (by assumption))

theorem normalize_type_key_error_class {s : String} {e : PyErr}
    (h : normalize_type_key s = .error e) : ∃ m, e = .valueError m := by
  unfold normalize_type_key at h
  simp only [] at h
  split at h
  · cases h; exact ⟨_, rfl⟩
  · split at h
    · cases h; exact ⟨_, rfl⟩
    · split at h
      · cases h
      · cases h; exact ⟨_, rfl⟩

theorem resolveEntryStep_error_class {cp : IconConflictPolicy}
    {source : IconsetSourceRefV1} {st : GraphTypeStore.ResolveState}
    {kv : String × String} {e : PyErr}
    (h : GraphTypeStore.resolveEntryStep cp source st kv = .error e) :
    e ≠ .store 400 "GRAPH_TYPE_ICONSET_REF_INVALID" := by
  unfold GraphTypeStore.resolveEntryStep at h
  rcases except_bind_error h with h | ⟨key, h1, h⟩
  · obtain ⟨m, hm⟩ := normalize_type_key_error_class h
    subst hm
    intro hc
    cases hc
  · simp only [] at h
    all_goals repeat' split at h
    all_goals
      first
        | simp [pure, Except.pure] at h
        | (simp only [throw, throwThe, MonadExceptOf.throw, Except.error.injEq] at h
           subst h
           intro hc
           cases hc)

theorem resolveRefStep_resolved_ne_nil {icons : IconsetStore.State}
    {cp : IconConflictPolicy} {st st' : GraphTypeStore.ResolveState}
    {ref : ProfileIconsetRefV1}
    (h : GraphTypeStore.resolveRefStep icons cp st ref = .ok st') :
    st'.resolvedEntries ≠ [] := by
  unfold GraphTypeStore.resolveRefStep at h
  obtain ⟨bundle, hb, h⟩ := except_bind_ok h
  obtain ⟨u, hu, h⟩ := except_bind_ok h
  exact foldlM_ok_post (fun s x s2 hs => resolveEntryStep_resolved_ne_nil hs)
    (fetchResolvedIconset_entries_ne_nil hb) h

theorem resolveRefStep_error_class {icons : IconsetStore.State}
    {cp : IconConflictPolicy} {st : GraphTypeStore.ResolveState}
    {ref : ProfileIconsetRefV1} {e : PyErr}
    (h : GraphTypeStore.resolveRefStep icons cp st ref = .error e) :
    e ≠ .store 400 "GRAPH_TYPE_ICONSET_REF_INVALID" := by
  unfold GraphTypeStore.resolveRefStep at h
  rcases except_bind_error h with h | ⟨bundle, hb, h⟩
  · exact fetchResolvedIconset_error_class h
  · rcases except_bind_error h with h | ⟨u, hu, h⟩
    · obtain ⟨he, hc⟩ := pyCheck_error h
      subst he
      intro hc2
      cases hc2
    · exact foldlM_error_class (fun s x e2 hs => resolveEntryStep_error_class hs) h

theorem validate_iconset_refs_ok_ne_nil {l r : List ProfileIconsetRefV1}
    (h : validate_iconset_refs l = .ok r) : r ≠ [] := by
  unfold validate_iconset_refs at h
  obtain ⟨u1, hg1, h⟩ := except_bind_ok h
  have hng1 := pyCheck_ok hg1
  obtain ⟨u2, hg2, h⟩ := except_bind_ok h
  obtain ⟨u3, hg3, h⟩ := except_bind_ok h
  obtain ⟨u4, hg4, h⟩ := except_bind_ok h
  simp only [pure, Except.pure, Except.ok.injEq] at h
  subst h
  intro hr
  subst hr
  exact hng1 (Or.inl (by simp))

/-- **C10**: the `GRAPH_TYPE_ICONSET_REF_INVALID` 400 branch for an empty
resolved map is unreachable: every validated graph type carries at least
one icon-set ref, and resolving a non-empty ref list never produces that
error — each stored icon-set bundle validates to at least one entry, so
the merged map is non-empty, and every other failure of the loop carries a
different status code or error code. -/
theorem C10_empty_resolved_map_unreachable :
    (∀ (f f2 : GraphTypeEditableFieldsV1), validateGraphTypeEditableFields f = .ok f2 →
       f2.iconSetRefs ≠ []) ∧
    (∀ (icons : IconsetStore.State) (refs : List ProfileIconsetRefV1)
       (cp : IconConflictPolicy), refs ≠ [] →
       GraphTypeStore._resolve_icon_sets icons refs cp ≠
         .error (.store 400 "GRAPH_TYPE_ICONSET_REF_INVALID")) := by
  constructor
  · intro f f2 h
    unfold validateGraphTypeEditableFields at h
    obtain ⟨nm, h1, h⟩ := except_bind_ok h
    obtain ⟨lr, h2, h⟩ := except_bind_ok h
    obtain ⟨ir0, h3, h⟩ := except_bind_ok h
    obtain ⟨ir, h4, h⟩ := except_bind_ok h
    obtain ⟨kr, h5, h⟩ := except_bind_ok h
    simp only [pure, Except.pure, Except.ok.injEq] at h
    subst h
    exact validate_iconset_refs_ok_ne_nil h4
  · intro icons refs cp hrefs hcontra
    unfold GraphTypeStore._resolve_icon_sets at hcontra
    rcases except_bind_error hcontra with h | ⟨st, hst, h⟩
    · exact foldlM_error_class (fun s x e2 hs => resolveRefStep_error_class hs) h rfl
    · have hne : st.resolvedEntries ≠ [] :=
        foldlM_ok_post (fun s x s2 hs => resolveRefStep_resolved_ne_nil hs) hrefs hst
      rcases except_bind_error h with h | ⟨u, hu, h⟩
      · obtain ⟨he, hc⟩ := pyCheck_error h
        have : (sortByKey st.resolvedEntries).length = st.resolvedEntries.length :=
          (sortByKey_perm st.resolvedEntries).length_eq
        rw [List.isEmpty_iff] at hc
        rw [hc] at this
        exact hne (List.eq_nil_of_length_eq_zero (by simpa using this.symm))
      · simp [pure, Except.pure] at h

/-- Witness for C10: a concrete validated editable-fields record has a
non-empty ref list, and resolving a concrete one-ref list against an empty
icon-set store does not hit the empty-resolved-map error. -/
theorem C10_witness :
    GraphTypeEditableFieldsV1.iconSetRefs
        ⟨"Default", ⟨"default", 1, none⟩, [⟨"default", 1, none⟩], ⟨"default", 1, none⟩,
         .reject⟩ ≠ [] ∧
    GraphTypeStore._resolve_icon_sets ⟨[], []⟩ [⟨"default", 1, none⟩] .reject ≠
      .error (.store 400 "GRAPH_TYPE_ICONSET_REF_INVALID") :=
  ⟨C10_empty_resolved_map_unreachable.1
      ⟨"Default", ⟨"default", 1, none⟩, [⟨"default", 1, none⟩], ⟨"default", 1, none⟩, .reject⟩
      ⟨"Default", ⟨"default", 1, none⟩, [⟨"default", 1, none⟩], ⟨"default", 1, none⟩, .reject⟩
      rfl,
   C10_empty_resolved_map_unreachable.2 ⟨[], []⟩ [⟨"default", 1, none⟩] .reject
      (by simp)⟩

/-! ## Conflict-policy behaviour of icon-set resolution (claim C1) -/

/-- **C1**: resolving the concrete published icon sets
A = \x7brouter: mdi:router\x7d and B = \x7brouter: mdi:router-wireless,
gateway: mdi:gate\x7d in the order [A, B] raises the 409
`ICONSET_KEY_CONFLICT` under `reject`, yields
\x7bgateway: mdi:gate, router: mdi:router-wireless\x7d under `last-wins`
and \x7bgateway: mdi:gate, router: mdi:router\x7d under `first-wins`; in
general, one merge step inserts a new key, ignores an equal icon, and on a
differing icon fails immediately under `reject`, keeps the existing icon
under `first-wins`, and overwrites the icon and the `selectedFrom`
provenance under `last-wins`. -/
theorem C1_conflict_policies :
    ((GraphTypeStore._resolve_icon_sets
        ⟨[], [("aa", ⟨1, "A", "t1", "aaaaaaaaaaaaaaaaaaaaaaaaaaaaaaaaaaaaaaaaaaaaaaaaaaaaaaaaaaaaaaaa", [("router", "mdi:router")]⟩),
              ("bb", ⟨1, "B", "t1", "aaaaaaaaaaaaaaaaaaaaaaaaaaaaaaaaaaaaaaaaaaaaaaaaaaaaaaaaaaaaaaaa",
                [("router", "mdi:router-wireless"), ("gateway", "mdi:gate")]⟩)]⟩
        [⟨"aa", 1, none⟩, ⟨"bb", 1, none⟩] .reject =
      .error (.store 409 "ICONSET_KEY_CONFLICT")) ∧
    (Except.map (fun r => r.1)
        (GraphTypeStore._resolve_icon_sets
          ⟨[], [("aa", ⟨1, "A", "t1", "aaaaaaaaaaaaaaaaaaaaaaaaaaaaaaaaaaaaaaaaaaaaaaaaaaaaaaaaaaaaaaaa", [("router", "mdi:router")]⟩),
                ("bb", ⟨1, "B", "t1", "aaaaaaaaaaaaaaaaaaaaaaaaaaaaaaaaaaaaaaaaaaaaaaaaaaaaaaaaaaaaaaaa",
                  [("router", "mdi:router-wireless"), ("gateway", "mdi:gate")]⟩)]⟩
          [⟨"aa", 1, none⟩, ⟨"bb", 1, none⟩] .lastWins) =
      .ok [("gateway", "mdi:gate"), ("router", "mdi:router-wireless")]) ∧
    (Except.map (fun r => r.1)
        (GraphTypeStore._resolve_icon_sets
          ⟨[], [("aa", ⟨1, "A", "t1", "aaaaaaaaaaaaaaaaaaaaaaaaaaaaaaaaaaaaaaaaaaaaaaaaaaaaaaaaaaaaaaaa", [("router", "mdi:router")]⟩),
                ("bb", ⟨1, "B", "t1", "aaaaaaaaaaaaaaaaaaaaaaaaaaaaaaaaaaaaaaaaaaaaaaaaaaaaaaaaaaaaaaaa",
                  [("router", "mdi:router-wireless"), ("gateway", "mdi:gate")]⟩)]⟩
          [⟨"aa", 1, none⟩, ⟨"bb", 1, none⟩] .firstWins) =
      .ok [("gateway", "mdi:gate"), ("router", "mdi:router")])) ∧
    (∀ (cp : IconConflictPolicy) (source : IconsetSourceRefV1)
      (st : GraphTypeStore.ResolveState) (kv : String × String) (key : String),
      normalize_type_key kv.1 = .ok key →
      ((dictGet st.resolvedEntries key = none →
         ∃ st2, GraphTypeStore.resolveEntryStep cp source st kv = .ok st2 ∧
           st2.resolvedEntries = dictInsert st.resolvedEntries key kv.2) ∧
       (dictGet st.resolvedEntries key = some kv.2 →
         ∃ st2, GraphTypeStore.resolveEntryStep cp source st kv = .ok st2 ∧
           st2.resolvedEntries = st.resolvedEntries) ∧
       (∀ existing, dictGet st.resolvedEntries key = some existing → existing ≠ kv.2 →
         GraphTypeStore.resolveEntryStep .reject source st kv =
             .error (.store 409 "ICONSET_KEY_CONFLICT") ∧
           (∃ st2, GraphTypeStore.resolveEntryStep .firstWins source st kv = .ok st2 ∧
              st2.resolvedEntries = st.resolvedEntries) ∧
           (∃ st2, GraphTypeStore.resolveEntryStep .lastWins source st kv = .ok st2 ∧
              st2.resolvedEntries = dictInsert st.resolvedEntries key kv.2 ∧
              ∃ ks, dictGet st2.keySources key = some ks ∧ ks.icon = kv.2 ∧
                ks.selectedFrom = source)))) := by
  refine ⟨⟨rfl, rfl, rfl⟩, ?_⟩
  intro cp source st kv key hnorm
  refine ⟨?_, ?_, ?_⟩
  · intro hget
    unfold GraphTypeStore.resolveEntryStep
    rw [hnorm]
    simp only [Bind.bind, Except.bind, hget]
    exact ⟨_, rfl, rfl⟩
  · intro hget
    unfold GraphTypeStore.resolveEntryStep
    rw [hnorm]
    simp only [Bind.bind, Except.bind, hget, if_pos]
    exact ⟨_, rfl, rfl⟩
  · intro existing hget hne
    refine ⟨?_, ?_, ?_⟩
    · unfold GraphTypeStore.resolveEntryStep
      rw [hnorm]
      simp only [Bind.bind, Except.bind, hget, if_neg hne]
      rfl
    · unfold GraphTypeStore.resolveEntryStep
      rw [hnorm]
      simp only [Bind.bind, Except.bind, hget, if_neg hne]
      exact ⟨_, rfl, rfl⟩
    · rcases hks : dictGet st.keySources key with _ | ks0 <;>
      · unfold GraphTypeStore.resolveEntryStep
        rw [hnorm]
        simp only [Bind.bind, Except.bind, hget, if_neg hne, hks, dictGet_dictInsert_self]
        refine ⟨_, rfl, rfl, ?_⟩
        rw [dictGet_dictInsert_self]
        exact ⟨_, rfl, rfl, rfl⟩

/-- Witness for C1: one merge step at a concrete state where the key is
already mapped to a different icon. -/
theorem C1_witness :
    GraphTypeStore.resolveEntryStep .reject ⟨"bb", 1, "aaaaaaaaaaaaaaaaaaaaaaaaaaaaaaaaaaaaaaaaaaaaaaaaaaaaaaaaaaaaaaaa"⟩
        ⟨[("router", "mdi:router")], [], []⟩ ("router", "mdi:router-wireless") =
      .error (.store 409 "ICONSET_KEY_CONFLICT") ∧
    (∃ st2, GraphTypeStore.resolveEntryStep .firstWins ⟨"bb", 1, "aaaaaaaaaaaaaaaaaaaaaaaaaaaaaaaaaaaaaaaaaaaaaaaaaaaaaaaaaaaaaaaa"⟩
        ⟨[("router", "mdi:router")], [], []⟩ ("router", "mdi:router-wireless") = .ok st2 ∧
       st2.resolvedEntries = [("router", "mdi:router")]) ∧
    (∃ st2, GraphTypeStore.resolveEntryStep .lastWins ⟨"bb", 1, "aaaaaaaaaaaaaaaaaaaaaaaaaaaaaaaaaaaaaaaaaaaaaaaaaaaaaaaaaaaaaaaa"⟩
        ⟨[("router", "mdi:router")], [], []⟩ ("router", "mdi:router-wireless") = .ok st2 ∧
       st2.resolvedEntries =
         dictInsert [("router", "mdi:router")] "router" "mdi:router-wireless" ∧
       ∃ ks, dictGet st2.keySources "router" = some ks ∧ ks.icon = "mdi:router-wireless" ∧
         ks.selectedFrom = ⟨"bb", 1, "aaaaaaaaaaaaaaaaaaaaaaaaaaaaaaaaaaaaaaaaaaaaaaaaaaaaaaaaaaaaaaaa"⟩) :=
  (C1_conflict_policies.2 .reject ⟨"bb", 1, "aaaaaaaaaaaaaaaaaaaaaaaaaaaaaaaaaaaaaaaaaaaaaaaaaaaaaaaaaaaaaaaa"⟩ ⟨[("router", "mdi:router")], [], []⟩
      ("router", "mdi:router-wireless") "router" rfl).2.2 "mdi:router" rfl (by decide)

/-! ## What the resolution checksum actually covers (claim C5) -/

/-- **C5 (amended)**: before the resolution checksum is computed,
`resolvedEntries` and `keySources` are sorted by key, but the `sources`
list stays in caller ref order; the checksum is computed over the policy,
the sources **in ref order** and the sorted entries, so two resolve calls
agreeing on the policy, the ordered sources list and the resolved entry
map produce the same checksum. -/
theorem C5_resolution_checksum_inputs :
    ∀ (icons : IconsetStore.State) (refs : List ProfileIconsetRefV1)
      (cp : IconConflictPolicy)
      (r : List (String × String) × List IconsetSourceRefV1 ×
           List (String × NodeTypeSourceV1) × String),
      GraphTypeStore._resolve_icon_sets icons refs cp = .ok r →
      List.Sorted pairKeyLe r.1 ∧ List.Sorted pairKeyLe r.2.2.1 ∧
        r.2.2.2 = compute_icon_set_resolution_checksum cp r.2.1 r.1 ∧
        (∀ (icons2 : IconsetStore.State) (refs2 : List ProfileIconsetRefV1)
          (r2 : List (String × String) × List IconsetSourceRefV1 ×
                List (String × NodeTypeSourceV1) × String),
          GraphTypeStore._resolve_icon_sets icons2 refs2 cp = .ok r2 →
          r2.1 = r.1 → r2.2.1 = r.2.1 → r2.2.2.2 = r.2.2.2) := by
  have key : ∀ (icons : IconsetStore.State) (refs : List ProfileIconsetRefV1)
      (cp : IconConflictPolicy)
      (r : List (String × String) × List IconsetSourceRefV1 ×
           List (String × NodeTypeSourceV1) × String),
      GraphTypeStore._resolve_icon_sets icons refs cp = .ok r →
      List.Sorted pairKeyLe r.1 ∧ List.Sorted pairKeyLe r.2.2.1 ∧
        r.2.2.2 = compute_icon_set_resolution_checksum cp r.2.1 r.1 := by
    intro icons refs cp r h
    unfold GraphTypeStore._resolve_icon_sets at h
    obtain ⟨st, hst, h⟩ := except_bind_ok h
    obtain ⟨u, hu, h⟩ := except_bind_ok h
    simp only [pure, Except.pure, Except.ok.injEq] at h
    subst h
    exact ⟨sortByKey_sorted _, sortByKey_sorted _, rfl⟩
  intro icons refs cp r h
  obtain ⟨h1, h2, h3⟩ := key icons refs cp r h
  refine ⟨h1, h2, h3, ?_⟩
  intro icons2 refs2 r2 h4 he hs
  rw [(key icons2 refs2 cp r2 h4).2.2, he, hs, h3]

/-- Counterexample to C5 as stated: two single-entry icon sets with
disjoint keys, resolved under both ref orders — the ref lists are
permutations of each other and the resolved entry maps agree, yet the
resolution checksums differ, because the sources enter the checksum
payload in ref order rather than sorted. -/
theorem C5_sources_not_sorted_counterexample :
    ([(⟨"aa", 1, none⟩ : ProfileIconsetRefV1), ⟨"bb", 1, none⟩].Perm
       [⟨"bb", 1, none⟩, ⟨"aa", 1, none⟩]) ∧
    (Except.map (fun r => r.1)
        (GraphTypeStore._resolve_icon_sets
          ⟨[], [("aa", ⟨1, "A", "t1", "aaaaaaaaaaaaaaaaaaaaaaaaaaaaaaaaaaaaaaaaaaaaaaaaaaaaaaaaaaaaaaaa", [("gateway", "mdi:gate")]⟩),
                ("bb", ⟨1, "B", "t1", "aaaaaaaaaaaaaaaaaaaaaaaaaaaaaaaaaaaaaaaaaaaaaaaaaaaaaaaaaaaaaaaa", [("router", "mdi:router")]⟩)]⟩
          [⟨"aa", 1, none⟩, ⟨"bb", 1, none⟩] .reject) =
      Except.map (fun r => r.1)
        (GraphTypeStore._resolve_icon_sets
          ⟨[], [("aa", ⟨1, "A", "t1", "aaaaaaaaaaaaaaaaaaaaaaaaaaaaaaaaaaaaaaaaaaaaaaaaaaaaaaaaaaaaaaaa", [("gateway", "mdi:gate")]⟩),
                ("bb", ⟨1, "B", "t1", "aaaaaaaaaaaaaaaaaaaaaaaaaaaaaaaaaaaaaaaaaaaaaaaaaaaaaaaaaaaaaaaa", [("router", "mdi:router")]⟩)]⟩
          [⟨"bb", 1, none⟩, ⟨"aa", 1, none⟩] .reject)) ∧
    (Option.map (fun r => r.2.2.2)
        (GraphTypeStore._resolve_icon_sets
          ⟨[], [("aa", ⟨1, "A", "t1", "aaaaaaaaaaaaaaaaaaaaaaaaaaaaaaaaaaaaaaaaaaaaaaaaaaaaaaaaaaaaaaaa", [("gateway", "mdi:gate")]⟩),
                ("bb", ⟨1, "B", "t1", "aaaaaaaaaaaaaaaaaaaaaaaaaaaaaaaaaaaaaaaaaaaaaaaaaaaaaaaaaaaaaaaa", [("router", "mdi:router")]⟩)]⟩
          [⟨"aa", 1, none⟩, ⟨"bb", 1, none⟩] .reject).toOption ≠
      Option.map (fun r => r.2.2.2)
        (GraphTypeStore._resolve_icon_sets
          ⟨[], [("aa", ⟨1, "A", "t1", "aaaaaaaaaaaaaaaaaaaaaaaaaaaaaaaaaaaaaaaaaaaaaaaaaaaaaaaaaaaaaaaa", [("gateway", "mdi:gate")]⟩),
                ("bb", ⟨1, "B", "t1", "aaaaaaaaaaaaaaaaaaaaaaaaaaaaaaaaaaaaaaaaaaaaaaaaaaaaaaaaaaaaaaaa", [("router", "mdi:router")]⟩)]⟩
          [⟨"bb", 1, none⟩, ⟨"aa", 1, none⟩] .reject).toOption) :=
  ⟨List.Perm.swap _ _ _, rfl, by decide⟩

/-- Witness for the amended C5 theorem at a concrete one-ref resolution. -/
theorem C5_witness :
    List.Sorted pairKeyLe [("gateway", "mdi:gate")] ∧
      List.Sorted pairKeyLe
        [("gateway",
          (⟨"gateway", "mdi:gate", ⟨"aa", 1, "aaaaaaaaaaaaaaaaaaaaaaaaaaaaaaaaaaaaaaaaaaaaaaaaaaaaaaaaaaaaaaaa"⟩, [⟨"aa", 1, "aaaaaaaaaaaaaaaaaaaaaaaaaaaaaaaaaaaaaaaaaaaaaaaaaaaaaaaaaaaaaaaa"⟩]⟩ : NodeTypeSourceV1))] ∧
      compute_icon_set_resolution_checksum .reject [⟨"aa", 1, "aaaaaaaaaaaaaaaaaaaaaaaaaaaaaaaaaaaaaaaaaaaaaaaaaaaaaaaaaaaaaaaa"⟩] [("gateway", "mdi:gate")] =
        compute_icon_set_resolution_checksum .reject [⟨"aa", 1, "aaaaaaaaaaaaaaaaaaaaaaaaaaaaaaaaaaaaaaaaaaaaaaaaaaaaaaaaaaaaaaaa"⟩]
          [("gateway", "mdi:gate")] ∧
      (∀ (icons2 : IconsetStore.State) (refs2 : List ProfileIconsetRefV1)
        (r2 : List (String × String) × List IconsetSourceRefV1 ×
              List (String × NodeTypeSourceV1) × String),
        GraphTypeStore._resolve_icon_sets icons2 refs2 .reject = .ok r2 →
        r2.1 = [("gateway", "mdi:gate")] → r2.2.1 = [⟨"aa", 1, "aaaaaaaaaaaaaaaaaaaaaaaaaaaaaaaaaaaaaaaaaaaaaaaaaaaaaaaaaaaaaaaa"⟩] →
        r2.2.2.2 =
          compute_icon_set_resolution_checksum .reject [⟨"aa", 1, "aaaaaaaaaaaaaaaaaaaaaaaaaaaaaaaaaaaaaaaaaaaaaaaaaaaaaaaaaaaaaaaa"⟩]
            [("gateway", "mdi:gate")]) :=
  C5_resolution_checksum_inputs
    ⟨[], [("aa", ⟨1, "A", "t1", "aaaaaaaaaaaaaaaaaaaaaaaaaaaaaaaaaaaaaaaaaaaaaaaaaaaaaaaaaaaaaaaa", [("gateway", "mdi:gate")]⟩)]⟩
    [⟨"aa", 1, none⟩] .reject
    ([("gateway", "mdi:gate")], [⟨"aa", 1, "aaaaaaaaaaaaaaaaaaaaaaaaaaaaaaaaaaaaaaaaaaaaaaaaaaaaaaaaaaaaaaaa"⟩],
     [("gateway", ⟨"gateway", "mdi:gate", ⟨"aa", 1, "aaaaaaaaaaaaaaaaaaaaaaaaaaaaaaaaaaaaaaaaaaaaaaaaaaaaaaaaaaaaaaaa"⟩, [⟨"aa", 1, "aaaaaaaaaaaaaaaaaaaaaaaaaaaaaaaaaaaaaaaaaaaaaaaaaaaaaaaaaaaaaaaa"⟩]⟩)],
     compute_icon_set_resolution_checksum .reject [⟨"aa", 1, "aaaaaaaaaaaaaaaaaaaaaaaaaaaaaaaaaaaaaaaaaaaaaaaaaaaaaaaaaaaaaaaa"⟩] [("gateway", "mdi:gate")])
    rfl

/-! ## Deleting the last entry of a draft (claim C7) -/

/-- **C7**: for each entries-bearing store (icon set, layout set, link
set), deleting the one remaining entry of a draft fails with the 400
`*_ENTRIES_EMPTY` error and leaves the store state — version, entries,
checksum, timestamp — completely unchanged. -/
theorem C7_delete_last_entry_rejected :
    (∀ (id tk now : String) (s : IconsetStore.State) (base : IconsetStore.DraftRow)
       (key : String),
       dictGet s.sets id = some base →
       normalize_type_key tk = .ok key →
       dictContains (sortByKey base.entries) key = true →
       base.entries.length = 1 →
       IconsetStore.delete_iconset_entry id tk now s =
           .error (.store 400 "ICONSET_ENTRIES_EMPTY") ∧
         IconsetStore.stateAfter (.deleteEntry id tk now) s = s) ∧
    (∀ (id sk now : String) (ev : ElkValidator) (s : LayoutSetStore.State)
       (base : LayoutSetStore.DraftRow) (key : String),
       dictGet s.sets id = some base →
       normalize_layout_setting_key sk = .ok key →
       dictContains (sortByKey base.entries) key = true →
       base.entries.length = 1 →
       LayoutSetStore.delete_layout_set_entry ev id sk now s =
           .error (.store 400 "LAYOUT_SET_ENTRIES_EMPTY") ∧
         LayoutSetStore.stateAfter ev (.deleteEntry id sk now) s = s) ∧
    (∀ (id k now : String) (s : LinkSetStore.State) (draft : LinkSetBundleV1)
       (key : String),
       normalize_type_key k = .ok key →
       LinkSetStore._load_draft_bundle s id = .ok draft →
       dictContains draft.entries key = true →
       draft.entries.length = 1 →
       LinkSetStore.delete_link_entry id k now s =
           .error (.store 400 "LINK_SET_ENTRIES_EMPTY") ∧
         LinkSetStore.stateAfter (.deleteEntry id k now) s = s) := by
  refine ⟨?_, ?_, ?_⟩
  · intro id tk now s base key hrow hnorm hcont hlen
    have herr : IconsetStore.delete_iconset_entry id tk now s =
        .error (.store 400 "ICONSET_ENTRIES_EMPTY") := by
      unfold IconsetStore.delete_iconset_entry
      simp only [hrow]
      rw [hnorm]
      simp only [Bind.bind, Except.bind]
      rw [pyCheck_not _ _ (fun hc => hc hcont)]
      have hle : (IconsetStore._load_entries base).length ≤ 1 := by
        unfold IconsetStore._load_entries
        rw [(sortByKey_perm base.entries).length_eq, hlen]
      unfold pyCheck
      rw [if_pos hle]
    refine ⟨herr, ?_⟩
    simp [IconsetStore.stateAfter, IconsetStore.applyOp, herr]
  · intro id sk now ev s base key hrow hnorm hcont hlen
    have herr : LayoutSetStore.delete_layout_set_entry ev id sk now s =
        .error (.store 400 "LAYOUT_SET_ENTRIES_EMPTY") := by
      unfold LayoutSetStore.delete_layout_set_entry
      simp only [hrow]
      rw [hnorm]
      simp only [Bind.bind, Except.bind]
      rw [pyCheck_not _ _ (fun hc => hc hcont)]
      have hle : (LayoutSetStore._load_draft_entries base).length ≤ 1 := by
        unfold LayoutSetStore._load_draft_entries
        rw [(sortByKey_perm base.entries).length_eq, hlen]
      unfold pyCheck
      rw [if_pos hle]
    refine ⟨herr, ?_⟩
    simp [LayoutSetStore.stateAfter, LayoutSetStore.applyOp, herr]
  · intro id k now s draft key hnorm hload hcont hlen
    have herr : LinkSetStore.delete_link_entry id k now s =
        .error (.store 400 "LINK_SET_ENTRIES_EMPTY") := by
      unfold LinkSetStore.delete_link_entry
      rw [hnorm]
      simp only [Bind.bind, Except.bind, hload]
      rw [pyCheck_not _ _ (fun hc => hc hcont)]
      unfold pyCheck
      rw [if_pos (le_of_eq hlen)]
    refine ⟨herr, ?_⟩
    simp [LinkSetStore.stateAfter, LinkSetStore.applyOp, herr]

theorem C7_witness :
    (IconsetStore.delete_iconset_entry "aa" "router" "t2"
        ⟨[("aa", ⟨"A", 1, "t", "aaaaaaaaaaaaaaaaaaaaaaaaaaaaaaaaaaaaaaaaaaaaaaaaaaaaaaaaaaaaaaaa", [("router", "mdi:router")]⟩)], []⟩ =
        .error (.store 400 "ICONSET_ENTRIES_EMPTY") ∧
      IconsetStore.stateAfter (.deleteEntry "aa" "router" "t2")
        ⟨[("aa", ⟨"A", 1, "t", "aaaaaaaaaaaaaaaaaaaaaaaaaaaaaaaaaaaaaaaaaaaaaaaaaaaaaaaaaaaaaaaa", [("router", "mdi:router")]⟩)], []⟩ =
        ⟨[("aa", ⟨"A", 1, "t", "aaaaaaaaaaaaaaaaaaaaaaaaaaaaaaaaaaaaaaaaaaaaaaaaaaaaaaaaaaaaaaaa", [("router", "mdi:router")]⟩)], []⟩) ∧
    (LayoutSetStore.delete_layout_set_entry (fun l => .ok l) "aa" "spacing" "t2"
        ⟨[("aa", ⟨"A", 1, "t", "aaaaaaaaaaaaaaaaaaaaaaaaaaaaaaaaaaaaaaaaaaaaaaaaaaaaaaaaaaaaaaaa", [("spacing", .num 10)]⟩)], []⟩ =
        .error (.store 400 "LAYOUT_SET_ENTRIES_EMPTY") ∧
      LayoutSetStore.stateAfter (fun l => .ok l) (.deleteEntry "aa" "spacing" "t2")
        ⟨[("aa", ⟨"A", 1, "t", "aaaaaaaaaaaaaaaaaaaaaaaaaaaaaaaaaaaaaaaaaaaaaaaaaaaaaaaaaaaaaaaa", [("spacing", .num 10)]⟩)], []⟩ =
        ⟨[("aa", ⟨"A", 1, "t", "aaaaaaaaaaaaaaaaaaaaaaaaaaaaaaaaaaaaaaaaaaaaaaaaaaaaaaaaaaaaaaaa", [("spacing", .num 10)]⟩)], []⟩) ∧
    (LinkSetStore.delete_link_entry "aa" "flow" "t2"
        ⟨[("aa", ⟨"A", 1, "t", "aaaaaaaaaaaaaaaaaaaaaaaaaaaaaaaaaaaaaaaaaaaaaaaaaaaaaaaaaaaaaaaa",
            ⟨"aa", 1, "A", [("flow", ⟨"Flow", none, []⟩)], "t", "aaaaaaaaaaaaaaaaaaaaaaaaaaaaaaaaaaaaaaaaaaaaaaaaaaaaaaaaaaaaaaaa"⟩⟩)], []⟩ =
        .error (.store 400 "LINK_SET_ENTRIES_EMPTY") ∧
      LinkSetStore.stateAfter (.deleteEntry "aa" "flow" "t2")
        ⟨[("aa", ⟨"A", 1, "t", "aaaaaaaaaaaaaaaaaaaaaaaaaaaaaaaaaaaaaaaaaaaaaaaaaaaaaaaaaaaaaaaa",
            ⟨"aa", 1, "A", [("flow", ⟨"Flow", none, []⟩)], "t", "aaaaaaaaaaaaaaaaaaaaaaaaaaaaaaaaaaaaaaaaaaaaaaaaaaaaaaaaaaaaaaaa"⟩⟩)], []⟩ =
        ⟨[("aa", ⟨"A", 1, "t", "aaaaaaaaaaaaaaaaaaaaaaaaaaaaaaaaaaaaaaaaaaaaaaaaaaaaaaaaaaaaaaaa",
            ⟨"aa", 1, "A", [("flow", ⟨"Flow", none, []⟩)], "t", "aaaaaaaaaaaaaaaaaaaaaaaaaaaaaaaaaaaaaaaaaaaaaaaaaaaaaaaaaaaaaaaa"⟩⟩)], []⟩) :=
  ⟨C7_delete_last_entry_rejected.1 "aa" "router" "t2"
      ⟨[("aa", ⟨"A", 1, "t", "aaaaaaaaaaaaaaaaaaaaaaaaaaaaaaaaaaaaaaaaaaaaaaaaaaaaaaaaaaaaaaaa", [("router", "mdi:router")]⟩)], []⟩
      ⟨"A", 1, "t", "aaaaaaaaaaaaaaaaaaaaaaaaaaaaaaaaaaaaaaaaaaaaaaaaaaaaaaaaaaaaaaaa", [("router", "mdi:router")]⟩ "router" rfl rfl (by decide) rfl,
   C7_delete_last_entry_rejected.2.1 "aa" "spacing" "t2" (fun l => .ok l)
      ⟨[("aa", ⟨"A", 1, "t", "aaaaaaaaaaaaaaaaaaaaaaaaaaaaaaaaaaaaaaaaaaaaaaaaaaaaaaaaaaaaaaaa", [("spacing", .num 10)]⟩)], []⟩
      ⟨"A", 1, "t", "aaaaaaaaaaaaaaaaaaaaaaaaaaaaaaaaaaaaaaaaaaaaaaaaaaaaaaaaaaaaaaaa", [("spacing", .num 10)]⟩ "spacing" rfl rfl (by decide) rfl,
   C7_delete_last_entry_rejected.2.2 "aa" "flow" "t2"
      ⟨[("aa", ⟨"A", 1, "t", "aaaaaaaaaaaaaaaaaaaaaaaaaaaaaaaaaaaaaaaaaaaaaaaaaaaaaaaaaaaaaaaa",
          ⟨"aa", 1, "A", [("flow", ⟨"Flow", none, []⟩)], "t", "aaaaaaaaaaaaaaaaaaaaaaaaaaaaaaaaaaaaaaaaaaaaaaaaaaaaaaaaaaaaaaaa"⟩⟩)], []⟩
      ⟨"aa", 1, "A", [("flow", ⟨"Flow", none, []⟩)], "t", "aaaaaaaaaaaaaaaaaaaaaaaaaaaaaaaaaaaaaaaaaaaaaaaaaaaaaaaaaaaaaaaa"⟩ "flow" rfl rfl
      (by decide) rfl⟩

/-! ## Reserved composer keys in layout settings (claim C8) -/

theorem normalize_layout_key_reserved_error {raw : String}
    (h : RESERVED_LAYOUT_SETTING_KEYS.contains (pyStrip raw) = true) :
    ∃ m, normalize_layout_setting_key raw = .error (.valueError m) := by
  unfold normalize_layout_setting_key
  simp only []
  by_cases hp : matchesLayoutSettingKeyPattern (pyStrip raw) = true
  · rw [if_neg (by simpa using hp), if_pos h]
    exact ⟨_, rfl⟩
  · rw [if_pos (by simpa using hp)]
    exact ⟨_, rfl⟩

theorem normalize_layout_key_ok_not_reserved {raw k : String}
    (h : normalize_layout_setting_key raw = .ok k) :
    RESERVED_LAYOUT_SETTING_KEYS.contains k = false := by
  unfold normalize_layout_setting_key at h
  simp only [] at h
  by_cases hp : matchesLayoutSettingKeyPattern (pyStrip raw) = true
  · rw [if_neg (by simpa using hp)] at h
    by_cases hr : RESERVED_LAYOUT_SETTING_KEYS.contains (pyStrip raw) = true
    · rw [if_pos hr] at h
      cases h
    · rw [if_neg hr] at h
      cases h
      simpa using hr
  · rw [if_pos (by simpa using hp)] at h
    cases h

theorem normalizeLayoutSettings_input_keys :
    ∀ (l acc r : List (String × Jsn)), normalizeLayoutSettings l acc = .ok r →
      ∀ kv ∈ l, ∃ k, normalize_layout_setting_key kv.1 = .ok k := by
  intro l
  induction l with
  | nil => intro acc r _ kv hkv; cases hkv
  | cons x t ih =>
    intro acc r h kv hkv
    simp only [normalizeLayoutSettings] at h
    obtain ⟨key, hk, h⟩ := except_bind_ok h
    rcases List.mem_cons.mp hkv with hx | ht
    · subst hx
      exact ⟨key, hk⟩
    · split at h
      · cases h
      · exact ih _ _ h kv ht

theorem normalizeLayoutSettings_output_keys :
    ∀ (l acc r : List (String × Jsn)), normalizeLayoutSettings l acc = .ok r →
      ∀ kv ∈ r, kv ∈ acc ∨ ∃ raw, normalize_layout_setting_key raw = .ok kv.1 := by
  intro l
  induction l with
  | nil =>
    intro acc r h kv hkv
    simp only [normalizeLayoutSettings, Except.ok.injEq] at h
    subst h
    exact Or.inl hkv
  | cons x t ih =>
    intro acc r h kv hkv
    simp only [normalizeLayoutSettings] at h
    obtain ⟨key, hk, h⟩ := except_bind_ok h
    split at h
    · cases h
    · rcases ih _ _ h kv hkv with hacc | hnew
      · rcases List.mem_append.mp hacc with ha | hone
        · exact Or.inl ha
        · rw [List.mem_singleton.mp hone]
          exact Or.inr ⟨x.1, hk⟩
      · exact Or.inr hnew

/-- **C8**: the reserved composer keys `type_icon_map` and
`edge_type_overrides` cannot be written into a layout set: the key
normalizer rejects them, so the editable-fields model validation guarding
`create`/`update` requests fails on settings containing one, the
entry-upsert path fails before any state change, and validated
`elkSettings` never contain a reserved key — only the graph-type composer
injects them into the merged runtime settings. -/
theorem C8_reserved_layout_keys_rejected :
    (∀ raw : String, RESERVED_LAYOUT_SETTING_KEYS.contains (pyStrip raw) = true →
       ∃ m, normalize_layout_setting_key raw = .error (.valueError m)) ∧
    (∀ (name : String) (settings : List (String × Jsn)),
       (∃ kv ∈ settings, RESERVED_LAYOUT_SETTING_KEYS.contains (pyStrip kv.1) = true) →
       ∀ e, validateLayoutSetEditableFields name settings ≠ .ok e) ∧
    (∀ (ev : ElkValidator) (id rawkey : String) (value : Jsn) (now : String)
       (s : LayoutSetStore.State),
       RESERVED_LAYOUT_SETTING_KEYS.contains (pyStrip rawkey) = true →
       (∀ s2, LayoutSetStore.upsert_layout_set_entry ev id rawkey value now s ≠ .ok s2) ∧
         LayoutSetStore.stateAfter ev (.upsertEntry id rawkey value now) s = s) ∧
    (∀ (value r : List (String × Jsn)), validate_elk_settings_size value = .ok r →
       ∀ kv ∈ r, RESERVED_LAYOUT_SETTING_KEYS.contains kv.1 = false) := by
  refine ⟨fun raw h => normalize_layout_key_reserved_error h, ?_, ?_, ?_⟩
  · intro name settings ⟨kv, hkv, hres⟩ e hok
    unfold validateLayoutSetEditableFields at hok
    obtain ⟨nm, h1, hok⟩ := except_bind_ok hok
    obtain ⟨es, h2, hok⟩ := except_bind_ok hok
    unfold validate_elk_settings_size at h2
    obtain ⟨u1, hg1, h2⟩ := except_bind_ok h2
    obtain ⟨u2, hg2, h2⟩ := except_bind_ok h2
    obtain ⟨normalized, h3, h2⟩ := except_bind_ok h2
    obtain ⟨k, hk⟩ := normalizeLayoutSettings_input_keys _ _ _ h3 kv hkv
    obtain ⟨m, hm⟩ := normalize_layout_key_reserved_error hres
    rw [hm] at hk
    cases hk
  · intro ev id rawkey value now s hres
    have hfail : ∀ s2, LayoutSetStore.upsert_layout_set_entry ev id rawkey value now s ≠
        .ok s2 := by
      intro s2 hok
      unfold LayoutSetStore.upsert_layout_set_entry at hok
      split at hok
      · simp [throw, throwThe, MonadExceptOf.throw] at hok
      · obtain ⟨key, hk, hok⟩ := except_bind_ok hok
        obtain ⟨m, hm⟩ := normalize_layout_key_reserved_error hres
        rw [hm] at hk
        cases hk
    refine ⟨hfail, ?_⟩
    unfold LayoutSetStore.stateAfter
    cases happly : LayoutSetStore.applyOp ev (.upsertEntry id rawkey value now) s with
    | ok s2 =>
      simp only [LayoutSetStore.applyOp] at happly
      exact absurd happly (hfail s2)
    | error e => rfl
  · intro value r h kv hkv
    unfold validate_elk_settings_size at h
    obtain ⟨u1, hg1, h⟩ := except_bind_ok h
    obtain ⟨u2, hg2, h⟩ := except_bind_ok h
    obtain ⟨normalized, h3, h⟩ := except_bind_ok h
    obtain ⟨u3, hg3, h⟩ := except_bind_ok h
    simp only [pure, Except.pure, Except.ok.injEq] at h
    subst h
    have hkv2 : kv ∈ normalized := (sortByKey_perm normalized).mem_iff.mp hkv
    rcases normalizeLayoutSettings_output_keys _ _ _ h3 kv hkv2 with hacc | ⟨raw, hraw⟩
    · cases hacc
    · exact normalize_layout_key_ok_not_reserved hraw

/-- Witness for C8 at the two concrete reserved keys and a concrete
store. -/
theorem C8_witness :
    (∃ m, normalize_layout_setting_key "type_icon_map" = .error (.valueError m)) ∧
    (∀ e, validateLayoutSetEditableFields "A"
        [("edge_type_overrides", .objL []), ("spacing", .num 10)] ≠ .ok e) ∧
    (∀ s2, LayoutSetStore.upsert_layout_set_entry (fun l => .ok l) "aa" "type_icon_map"
        (.objL []) "t" ⟨[], []⟩ ≠ .ok s2) ∧
    LayoutSetStore.stateAfter (fun l => .ok l)
        (.upsertEntry "aa" "type_icon_map" (.objL []) "t") ⟨[], []⟩ = ⟨[], []⟩ ∧
    (∀ kv ∈ [("spacing", Jsn.num 10)], RESERVED_LAYOUT_SETTING_KEYS.contains kv.1 = false) :=
  ⟨C8_reserved_layout_keys_rejected.1 "type_icon_map" rfl,
   C8_reserved_layout_keys_rejected.2.1 "A"
     [("edge_type_overrides", .objL []), ("spacing", .num 10)]
     ⟨("edge_type_overrides", .objL []), List.mem_cons_self _ _, rfl⟩,
   (C8_reserved_layout_keys_rejected.2.2.1 (fun l => .ok l) "aa" "type_icon_map" (.objL [])
     "t" ⟨[], []⟩ rfl).1,
   (C8_reserved_layout_keys_rejected.2.2.1 (fun l => .ok l) "aa" "type_icon_map" (.objL [])
     "t" ⟨[], []⟩ rfl).2,
   C8_reserved_layout_keys_rejected.2.2.2 [("spacing", .num 10)] [("spacing", .num 10)] rfl⟩

theorem iconset_load_draft_id {s : IconsetStore.State} {id : String} {b : IconsetBundleV1}
    (h : IconsetStore._load_draft_bundle s id = .ok b) : b.iconSetId = id := by
  unfold IconsetStore._load_draft_bundle at h
  split at h
  · cases h
  · exact (validateIconsetBundle_proj h).1

/-! ## Publishing a draft version exactly once (claim C3) -/

/-- **C3**: publishing a known draft at version V returns the draft and
appends an immutable copy to the published rows; a second publish while
the draft is still at V fails with the 409 `*_VERSION_ALREADY_PUBLISHED`
and changes nothing; publishing an unknown id is the 404 `*_NOT_FOUND`
(icon-set and graph-type stores). -/
theorem C3_publish_exactly_once :
    (∀ (id : String) (s : IconsetStore.State) (r : IconsetBundleV1 × IconsetStore.State),
       IconsetStore.publish_iconset id s = .ok r →
       IconsetStore._load_draft_bundle s id = .ok r.1 ∧
       r.2 = IconsetStore._insert_published_bundle s r.1 ∧
       IconsetStore.publish_iconset id r.2 =
         .error (.store 409 "ICONSET_VERSION_ALREADY_PUBLISHED") ∧
       IconsetStore.stateAfter (.publish id) r.2 = r.2) ∧
    (∀ (id : String) (s : IconsetStore.State), dictGet s.sets id = none →
       IconsetStore.publish_iconset id s = .error (.store 404 "ICONSET_NOT_FOUND")) ∧
    (∀ (id : String) (s : GraphTypeStore.State)
       (r : GraphTypeBundleV1 × GraphTypeStore.State),
       GraphTypeStore.publish_graph_type id s = .ok r →
       r.1.graphTypeId = id →
       GraphTypeStore._load_draft_bundle s id = .ok r.1 ∧
       r.2 = GraphTypeStore._insert_published_row s r.1 ∧
       GraphTypeStore.publish_graph_type id r.2 =
         .error (.store 409 "GRAPH_TYPE_VERSION_ALREADY_PUBLISHED") ∧
       (∀ (ev : ElkValidator) (layouts : LayoutSetStore.State) (links : LinkSetStore.State)
          (icons : IconsetStore.State),
          GraphTypeStore.stateAfter ev layouts links icons (.publish id) r.2 = r.2)) ∧
    (∀ (id : String) (s : GraphTypeStore.State), dictGet s.graphs id = none →
       GraphTypeStore.publish_graph_type id s = .error (.store 404 "GRAPH_TYPE_NOT_FOUND")) := by
  refine ⟨?_, ?_, ?_, ?_⟩
  · intro id s r hok
    obtain ⟨b, s2⟩ := r
    unfold IconsetStore.publish_iconset at hok
    obtain ⟨draft, hload, hok⟩ := except_bind_ok hok
    obtain ⟨u, hg, hok⟩ := except_bind_ok hok
    have hpv := pyCheck_ok hg
    simp only [pure, Except.pure, Except.ok.injEq, Prod.mk.injEq] at hok
    obtain ⟨hb, hs2⟩ := hok
    subst hb
    subst hs2
    have hid := iconset_load_draft_id hload
    have hex : IconsetStore.publishedVersionExists
        (IconsetStore._insert_published_bundle s draft) id draft.iconSetVersion = true := by
      simp [IconsetStore.publishedVersionExists, IconsetStore._insert_published_bundle,
        List.any_append, hid]
    have herr : IconsetStore.publish_iconset id
        (IconsetStore._insert_published_bundle s draft) =
        .error (.store 409 "ICONSET_VERSION_ALREADY_PUBLISHED") := by
      unfold IconsetStore.publish_iconset
      have hload2 : IconsetStore._load_draft_bundle
          (IconsetStore._insert_published_bundle s draft) id = .ok draft := hload
      simp only [Bind.bind, Except.bind, hload2]
      unfold pyCheck
      rw [if_pos hex]
    refine ⟨hload, rfl, herr, ?_⟩
    simp [IconsetStore.stateAfter, IconsetStore.applyOp, herr, Except.map]
  · intro id s hnone
    unfold IconsetStore.publish_iconset IconsetStore._load_draft_bundle
    simp only [Bind.bind, Except.bind, hnone]
  · intro id s r hok hid
    obtain ⟨hload, hs2⟩ := gt_publish_ok hok
    obtain ⟨b, s2⟩ := r
    simp only at hload hs2 hid
    subst hs2
    have hex : GraphTypeStore.publishedVersionExists
        (GraphTypeStore._insert_published_row s b) id b.graphTypeVersion = true := by
      simp [GraphTypeStore.publishedVersionExists, GraphTypeStore._insert_published_row,
        List.any_append, hid]
    have herr : GraphTypeStore.publish_graph_type id
        (GraphTypeStore._insert_published_row s b) =
        .error (.store 409 "GRAPH_TYPE_VERSION_ALREADY_PUBLISHED") := by
      unfold GraphTypeStore.publish_graph_type
      have hload2 : GraphTypeStore._load_draft_bundle
          (GraphTypeStore._insert_published_row s b) id = .ok b := hload
      simp only [Bind.bind, Except.bind, hload2]
      unfold pyCheck
      rw [if_pos hex]
    refine ⟨hload, rfl, herr, ?_⟩
    intro ev layouts links icons
    simp [GraphTypeStore.stateAfter, GraphTypeStore.applyOp, herr, Except.map]
  · intro id s hnone
    unfold GraphTypeStore.publish_graph_type GraphTypeStore._load_draft_bundle
    simp only [Bind.bind, Except.bind, hnone]

theorem C3_witness :
    (IconsetStore._load_draft_bundle
        ⟨[("aa", ⟨"A", 1, "t", "aaaaaaaaaaaaaaaaaaaaaaaaaaaaaaaaaaaaaaaaaaaaaaaaaaaaaaaaaaaaaaaa", [("router", "mdi:router")]⟩)], []⟩ "aa" =
        .ok ⟨"aa", 1, "A", [("router", "mdi:router")], "t", "aaaaaaaaaaaaaaaaaaaaaaaaaaaaaaaaaaaaaaaaaaaaaaaaaaaaaaaaaaaaaaaa"⟩ ∧
      (⟨[("aa", ⟨"A", 1, "t", "aaaaaaaaaaaaaaaaaaaaaaaaaaaaaaaaaaaaaaaaaaaaaaaaaaaaaaaaaaaaaaaa", [("router", "mdi:router")]⟩)],
        [("aa", ⟨1, "A", "t", "aaaaaaaaaaaaaaaaaaaaaaaaaaaaaaaaaaaaaaaaaaaaaaaaaaaaaaaaaaaaaaaa", [("router", "mdi:router")]⟩)]⟩ : IconsetStore.State) =
        IconsetStore._insert_published_bundle
          ⟨[("aa", ⟨"A", 1, "t", "aaaaaaaaaaaaaaaaaaaaaaaaaaaaaaaaaaaaaaaaaaaaaaaaaaaaaaaaaaaaaaaa", [("router", "mdi:router")]⟩)], []⟩
          ⟨"aa", 1, "A", [("router", "mdi:router")], "t", "aaaaaaaaaaaaaaaaaaaaaaaaaaaaaaaaaaaaaaaaaaaaaaaaaaaaaaaaaaaaaaaa"⟩ ∧
      IconsetStore.publish_iconset "aa"
        ⟨[("aa", ⟨"A", 1, "t", "aaaaaaaaaaaaaaaaaaaaaaaaaaaaaaaaaaaaaaaaaaaaaaaaaaaaaaaaaaaaaaaa", [("router", "mdi:router")]⟩)],
         [("aa", ⟨1, "A", "t", "aaaaaaaaaaaaaaaaaaaaaaaaaaaaaaaaaaaaaaaaaaaaaaaaaaaaaaaaaaaaaaaa", [("router", "mdi:router")]⟩)]⟩ =
        .error (.store 409 "ICONSET_VERSION_ALREADY_PUBLISHED") ∧
      IconsetStore.stateAfter (.publish "aa")
        ⟨[("aa", ⟨"A", 1, "t", "aaaaaaaaaaaaaaaaaaaaaaaaaaaaaaaaaaaaaaaaaaaaaaaaaaaaaaaaaaaaaaaa", [("router", "mdi:router")]⟩)],
         [("aa", ⟨1, "A", "t", "aaaaaaaaaaaaaaaaaaaaaaaaaaaaaaaaaaaaaaaaaaaaaaaaaaaaaaaaaaaaaaaa", [("router", "mdi:router")]⟩)]⟩ =
        ⟨[("aa", ⟨"A", 1, "t", "aaaaaaaaaaaaaaaaaaaaaaaaaaaaaaaaaaaaaaaaaaaaaaaaaaaaaaaaaaaaaaaa", [("router", "mdi:router")]⟩)],
         [("aa", ⟨1, "A", "t", "aaaaaaaaaaaaaaaaaaaaaaaaaaaaaaaaaaaaaaaaaaaaaaaaaaaaaaaaaaaaaaaa", [("router", "mdi:router")]⟩)]⟩) ∧
    (IconsetStore.publish_iconset "zz" ⟨[], []⟩ = .error (.store 404 "ICONSET_NOT_FOUND")) ∧
    (GraphTypeStore.publish_graph_type "zz" ⟨[], []⟩ =
      .error (.store 404 "GRAPH_TYPE_NOT_FOUND")) :=
  ⟨C3_publish_exactly_once.1 "aa" ⟨[("aa", ⟨"A", 1, "t", "aaaaaaaaaaaaaaaaaaaaaaaaaaaaaaaaaaaaaaaaaaaaaaaaaaaaaaaaaaaaaaaa", [("router", "mdi:router")]⟩)], []⟩
      (⟨"aa", 1, "A", [("router", "mdi:router")], "t", "aaaaaaaaaaaaaaaaaaaaaaaaaaaaaaaaaaaaaaaaaaaaaaaaaaaaaaaaaaaaaaaa"⟩,
       ⟨[("aa", ⟨"A", 1, "t", "aaaaaaaaaaaaaaaaaaaaaaaaaaaaaaaaaaaaaaaaaaaaaaaaaaaaaaaaaaaaaaaa", [("router", "mdi:router")]⟩)],
        [("aa", ⟨1, "A", "t", "aaaaaaaaaaaaaaaaaaaaaaaaaaaaaaaaaaaaaaaaaaaaaaaaaaaaaaaaaaaaaaaa", [("router", "mdi:router")]⟩)]⟩) rfl,
   C3_publish_exactly_once.2.1 "zz" ⟨[], []⟩ rfl,
   C3_publish_exactly_once.2.2.2 "zz" ⟨[], []⟩ rfl⟩

/-! ## The legacy layout-set schema migration (claim C9) -/

theorem reqStr_ok {f : List (String × Jsn)} {k c : String}
    (h : LayoutSetStore.reqStr f k = .ok c) : dictGet f k = some (.str c) := by
  unfold LayoutSetStore.reqStr at h
  split at h
  · cases h
    assumption
  · cases h

theorem parseLayoutSetBundle_checksum {j : Jsn} {b : LayoutSetBundleV1}
    (hp : LayoutSetStore.parseLayoutSetBundle j = .ok b) :
    ∃ fields, j = .obj fields ∧
      dictGet (JsnFields.toList fields) "checksum" = some (.str b.checksum) := by
  unfold LayoutSetStore.parseLayoutSetBundle at hp
  split at hp
  · rename_i fields
    refine ⟨fields, rfl, ?_⟩
    obtain ⟨u1, hg1, hp⟩ := except_bind_ok hp
    obtain ⟨u2, hg2, hp⟩ := except_bind_ok hp
    obtain ⟨lsid, h1, hp⟩ := except_bind_ok hp
    obtain ⟨v, h2, hp⟩ := except_bind_ok hp
    obtain ⟨nm, h3, hp⟩ := except_bind_ok hp
    obtain ⟨elk, h4, hp⟩ := except_bind_ok hp
    obtain ⟨upd, h5, hp⟩ := except_bind_ok hp
    obtain ⟨c, h6, hp⟩ := except_bind_ok hp
    have hc := (validateLayoutSetBundle_proj hp).2.2.2
    rw [hc]
    exact reqStr_ok h6
  · cases hp

theorem legacy_bundle_dichotomy (payload : Jsn) :
    (∃ b, LayoutSetStore._legacy_bundle_from_json payload = .ok b) ∨
      LayoutSetStore._legacy_bundle_from_json payload =
        .error (.store 500 "LAYOUT_SET_STORAGE_CORRUPTED") := by
  unfold LayoutSetStore._legacy_bundle_from_json
  split
  · exact Or.inl ⟨_, rfl⟩
  · exact Or.inr rfl

theorem migrate_drafts_foldlM {rows : List LayoutSetStore.LegacyDraftRow}
    {bs : List LayoutSetBundleV1}
    (h : List.Forall₂ (fun row b =>
      LayoutSetStore._legacy_bundle_from_json row.draft_payload = .ok b) rows bs) :
    ∀ s : LayoutSetStore.State, rows.foldlM LayoutSetStore.migrateDraftRow s =
      .ok ⟨s.sets ++ bs.map LayoutSetStore.migratedDraftRowOf, s.published⟩ := by
  induction h with
  | nil => intro s; simp [List.foldlM_nil, pure, Except.pure]
  | cons hrb htail ih =>
    intro s
    rw [List.foldlM_cons]
    rename_i row b rows2 bs2
    have hstep : LayoutSetStore.migrateDraftRow s row =
        .ok ⟨s.sets ++ [LayoutSetStore.migratedDraftRowOf b], s.published⟩ := by
      unfold LayoutSetStore.migrateDraftRow
      simp only [Bind.bind, Except.bind, hrb]
      rfl
    simp only [hstep, Bind.bind, Except.bind]
    rw [ih ⟨s.sets ++ [LayoutSetStore.migratedDraftRowOf b], s.published⟩]
    simp [List.append_assoc]

theorem migrate_published_foldlM {rows : List LayoutSetStore.LegacyPublishedRow}
    {ps : List LayoutSetBundleV1}
    (h : List.Forall₂ (fun row b =>
      LayoutSetStore._legacy_bundle_from_json row.payload = .ok b) rows ps) :
    ∀ s : LayoutSetStore.State, rows.foldlM LayoutSetStore.migratePublishedRow s =
      .ok ⟨s.sets, s.published ++ ps.map LayoutSetStore.migratedPublishedRowOf⟩ := by
  induction h with
  | nil => intro s; simp [List.foldlM_nil, pure, Except.pure]
  | cons hrb htail ih =>
    intro s
    rw [List.foldlM_cons]
    rename_i row b rows2 ps2
    have hstep : LayoutSetStore.migratePublishedRow s row =
        .ok ⟨s.sets, s.published ++ [LayoutSetStore.migratedPublishedRowOf b]⟩ := by
      unfold LayoutSetStore.migratePublishedRow
      simp only [Bind.bind, Except.bind, hrb]
      rfl
    simp only [hstep, Bind.bind, Except.bind]
    rw [ih ⟨s.sets, s.published ++ [LayoutSetStore.migratedPublishedRowOf b]⟩]
    simp [List.append_assoc]

theorem migrateDraftRow_error_class {s : LayoutSetStore.State}
    {row : LayoutSetStore.LegacyDraftRow} {e : PyErr}
    (h : LayoutSetStore.migrateDraftRow s row = .error e) :
    e = .store 500 "LAYOUT_SET_STORAGE_CORRUPTED" := by
  unfold LayoutSetStore.migrateDraftRow at h
  rcases except_bind_error h with h | ⟨b, hb, h⟩
  · rcases legacy_bundle_dichotomy row.draft_payload with ⟨b, hb⟩ | herr
    · rw [hb] at h
      cases h
    · rw [herr] at h
      cases h
      rfl
  · simp [pure, Except.pure] at h

theorem migrate_drafts_foldlM_fail {rows : List LayoutSetStore.LegacyDraftRow}
    (hx : ∃ row ∈ rows,
      ∀ b, LayoutSetStore._legacy_bundle_from_json row.draft_payload ≠ .ok b) :
    ∀ s : LayoutSetStore.State, rows.foldlM LayoutSetStore.migrateDraftRow s =
      .error (.store 500 "LAYOUT_SET_STORAGE_CORRUPTED") := by
  induction rows with
  | nil => obtain ⟨row, hmem, _⟩ := hx; cases hmem
  | cons r t ih =>
    intro s
    rw [List.foldlM_cons]
    rcases legacy_bundle_dichotomy r.draft_payload with ⟨b, hb⟩ | herr
    · have hstep : LayoutSetStore.migrateDraftRow s r =
          .ok ⟨s.sets ++ [LayoutSetStore.migratedDraftRowOf b], s.published⟩ := by
        unfold LayoutSetStore.migrateDraftRow
        simp only [Bind.bind, Except.bind, hb]
        rfl
      simp only [hstep, Bind.bind, Except.bind]
      obtain ⟨row, hmem, hbad⟩ := hx
      rcases List.mem_cons.mp hmem with hr | ht
      · subst hr
        exact absurd hb (hbad b)
      · exact ih ⟨row, ht, hbad⟩ _
    · have hstep : LayoutSetStore.migrateDraftRow s r =
          .error (.store 500 "LAYOUT_SET_STORAGE_CORRUPTED") := by
        unfold LayoutSetStore.migrateDraftRow
        simp only [Bind.bind, Except.bind, herr]
      simp only [hstep, Bind.bind, Except.bind]

theorem migrate_published_foldlM_fail {rows : List LayoutSetStore.LegacyPublishedRow}
    (hx : ∃ row ∈ rows,
      ∀ b, LayoutSetStore._legacy_bundle_from_json row.payload ≠ .ok b) :
    ∀ s : LayoutSetStore.State, rows.foldlM LayoutSetStore.migratePublishedRow s =
      .error (.store 500 "LAYOUT_SET_STORAGE_CORRUPTED") := by
  induction rows with
  | nil => obtain ⟨row, hmem, _⟩ := hx; cases hmem
  | cons r t ih =>
    intro s
    rw [List.foldlM_cons]
    rcases legacy_bundle_dichotomy r.payload with ⟨b, hb⟩ | herr
    · have hstep : LayoutSetStore.migratePublishedRow s r =
          .ok ⟨s.sets, s.published ++ [LayoutSetStore.migratedPublishedRowOf b]⟩ := by
        unfold LayoutSetStore.migratePublishedRow
        simp only [Bind.bind, Except.bind, hb]
        rfl
      simp only [hstep, Bind.bind, Except.bind]
      obtain ⟨row, hmem, hbad⟩ := hx
      rcases List.mem_cons.mp hmem with hr | ht
      · subst hr
        exact absurd hb (hbad b)
      · exact ih ⟨row, ht, hbad⟩ _
    · have hstep : LayoutSetStore.migratePublishedRow s r =
          .error (.store 500 "LAYOUT_SET_STORAGE_CORRUPTED") := by
        unfold LayoutSetStore.migratePublishedRow
        simp only [Bind.bind, Except.bind, herr]
      simp only [hstep, Bind.bind, Except.bind]

/-- **C9**: the legacy payload-blob migration is content-preserving: with
every legacy payload valid, replaying the drafts (ordered by id) and
published rows (ordered by id, version) through the bundle constructor
yields exactly the bundles of the legacy payloads as the new rows — each
new checksum column the byte-for-byte `checksum` field of its
pre-migration payload — and drops the legacy tables; any invalid payload
aborts with the fatal 500 `LAYOUT_SET_STORAGE_CORRUPTED`. -/
theorem C9_legacy_migration_content_preserving :
    (∀ (db : LayoutSetStore.Db) (leg : LayoutSetStore.LegacyDb)
       (bs ps : List LayoutSetBundleV1),
       db.legacy = some leg →
       List.Forall₂ (fun row b =>
         LayoutSetStore._legacy_bundle_from_json row.draft_payload = .ok b)
         (leg.layout_sets.insertionSort LayoutSetStore.legacyDraftLe) bs →
       List.Forall₂ (fun row b =>
         LayoutSetStore._legacy_bundle_from_json row.payload = .ok b)
         (leg.published.insertionSort LayoutSetStore.legacyPubLe) ps →
       LayoutSetStore._migrate_legacy_payload_schema db =
         .ok ⟨⟨bs.map LayoutSetStore.migratedDraftRowOf,
               ps.map LayoutSetStore.migratedPublishedRowOf⟩, none⟩) ∧
    (∀ (j : Jsn) (b : LayoutSetBundleV1),
       LayoutSetStore._legacy_bundle_from_json j = .ok b →
       ∃ fields, j = .obj fields ∧
         dictGet (JsnFields.toList fields) "checksum" = some (.str b.checksum)) ∧
    (∀ (db : LayoutSetStore.Db) (leg : LayoutSetStore.LegacyDb),
       db.legacy = some leg →
       ((∃ row ∈ leg.layout_sets,
           ∀ b, LayoutSetStore._legacy_bundle_from_json row.draft_payload ≠ .ok b) ∨
        (∃ row ∈ leg.published,
           ∀ b, LayoutSetStore._legacy_bundle_from_json row.payload ≠ .ok b)) →
       LayoutSetStore._migrate_legacy_payload_schema db =
         .error (.store 500 "LAYOUT_SET_STORAGE_CORRUPTED")) := by
  refine ⟨?_, ?_, ?_⟩
  · intro db leg bs ps hleg hd hp
    unfold LayoutSetStore._migrate_legacy_payload_schema
    rw [hleg]
    simp only [Bind.bind, Except.bind, migrate_drafts_foldlM hd]
    rw [migrate_published_foldlM hp]
    simp [pure, Except.pure]
  · intro j b h
    unfold LayoutSetStore._legacy_bundle_from_json at h
    split at h
    · cases h
      exact parseLayoutSetBundle_checksum (by assumption)
    · cases h
  · intro db leg hleg hbad
    unfold LayoutSetStore._migrate_legacy_payload_schema
    rw [hleg]
    rcases hbad with ⟨row, hmem, hb⟩ | ⟨row, hmem, hb⟩
    · have hmem2 : row ∈ leg.layout_sets.insertionSort LayoutSetStore.legacyDraftLe :=
        (List.perm_insertionSort _ _).mem_iff.mpr hmem
      simp only [Bind.bind, Except.bind, migrate_drafts_foldlM_fail ⟨row, hmem2, hb⟩ ⟨[], []⟩]
    · have hmem2 : row ∈ leg.published.insertionSort LayoutSetStore.legacyPubLe :=
        (List.perm_insertionSort _ _).mem_iff.mpr hmem
      rcases hdrafts :
          (leg.layout_sets.insertionSort LayoutSetStore.legacyDraftLe).foldlM
            LayoutSetStore.migrateDraftRow ⟨[], []⟩ with e | s1
      · have := foldlM_error_class
          (fun s x e2 hs => migrateDraftRow_error_class hs) hdrafts
        subst this
        simp only [Bind.bind, Except.bind, hdrafts]
      · simp only [Bind.bind, Except.bind, hdrafts,
          migrate_published_foldlM_fail ⟨row, hmem2, hb⟩ s1]

theorem C9_witness :
    (LayoutSetStore._migrate_legacy_payload_schema
        ⟨⟨[], []⟩, some ⟨[⟨"aa", .objL [("schemaVersion", .str "v1"), ("layoutSetId", .str "aa"),
            ("layoutSetVersion", .num 1), ("name", .str "A"),
            ("elkSettings", .objL [("spacing", .num 10)]), ("updatedAt", .str "t"),
            ("checksum", .str "aaaaaaaaaaaaaaaaaaaaaaaaaaaaaaaaaaaaaaaaaaaaaaaaaaaaaaaaaaaaaaaa")]⟩], [⟨"bb", 2, .objL [("schemaVersion", .str "v1"), ("layoutSetId", .str "bb"),
            ("layoutSetVersion", .num 2), ("name", .str "B"),
            ("elkSettings", .objL [("spacing", .num 20)]), ("updatedAt", .str "t"),
            ("checksum", .str "aaaaaaaaaaaaaaaaaaaaaaaaaaaaaaaaaaaaaaaaaaaaaaaaaaaaaaaaaaaaaaaa")]⟩]⟩⟩ =
      .ok ⟨⟨[LayoutSetStore.migratedDraftRowOf ⟨"aa", 1, "A", [("spacing", .num 10)], "t", "aaaaaaaaaaaaaaaaaaaaaaaaaaaaaaaaaaaaaaaaaaaaaaaaaaaaaaaaaaaaaaaa"⟩],
            [LayoutSetStore.migratedPublishedRowOf
              ⟨"bb", 2, "B", [("spacing", .num 20)], "t", "aaaaaaaaaaaaaaaaaaaaaaaaaaaaaaaaaaaaaaaaaaaaaaaaaaaaaaaaaaaaaaaa"⟩]⟩, none⟩) ∧
    (∃ fields, (.objL [("schemaVersion", .str "v1"), ("layoutSetId", .str "aa"),
            ("layoutSetVersion", .num 1), ("name", .str "A"),
            ("elkSettings", .objL [("spacing", .num 10)]), ("updatedAt", .str "t"),
            ("checksum", .str "aaaaaaaaaaaaaaaaaaaaaaaaaaaaaaaaaaaaaaaaaaaaaaaaaaaaaaaaaaaaaaaa")] : Jsn) = .obj fields ∧
      dictGet (JsnFields.toList fields) "checksum" =
        some (.str (LayoutSetBundleV1.checksum ⟨"aa", 1, "A", [("spacing", .num 10)], "t", "aaaaaaaaaaaaaaaaaaaaaaaaaaaaaaaaaaaaaaaaaaaaaaaaaaaaaaaaaaaaaaaa"⟩))) ∧
    (LayoutSetStore._migrate_legacy_payload_schema
        ⟨⟨[], []⟩, some ⟨[⟨"aa", .null⟩], []⟩⟩ =
      .error (.store 500 "LAYOUT_SET_STORAGE_CORRUPTED")) :=
  ⟨C9_legacy_migration_content_preserving.1 ⟨⟨[], []⟩, some ⟨[⟨"aa", .objL [("schemaVersion", .str "v1"), ("layoutSetId", .str "aa"),
            ("layoutSetVersion", .num 1), ("name", .str "A"),
            ("elkSettings", .objL [("spacing", .num 10)]), ("updatedAt", .str "t"),
            ("checksum", .str "aaaaaaaaaaaaaaaaaaaaaaaaaaaaaaaaaaaaaaaaaaaaaaaaaaaaaaaaaaaaaaaa")]⟩], [⟨"bb", 2, .objL [("schemaVersion", .str "v1"), ("layoutSetId", .str "bb"),
            ("layoutSetVersion", .num 2), ("name", .str "B"),
            ("elkSettings", .objL [("spacing", .num 20)]), ("updatedAt", .str "t"),
            ("checksum", .str "aaaaaaaaaaaaaaaaaaaaaaaaaaaaaaaaaaaaaaaaaaaaaaaaaaaaaaaaaaaaaaaa")]⟩]⟩⟩
      ⟨[⟨"aa", .objL [("schemaVersion", .str "v1"), ("layoutSetId", .str "aa"),
            ("layoutSetVersion", .num 1), ("name", .str "A"),
            ("elkSettings", .objL [("spacing", .num 10)]), ("updatedAt", .str "t"),
            ("checksum", .str "aaaaaaaaaaaaaaaaaaaaaaaaaaaaaaaaaaaaaaaaaaaaaaaaaaaaaaaaaaaaaaaa")]⟩], [⟨"bb", 2, .objL [("schemaVersion", .str "v1"), ("layoutSetId", .str "bb"),
            ("layoutSetVersion", .num 2), ("name", .str "B"),
            ("elkSettings", .objL [("spacing", .num 20)]), ("updatedAt", .str "t"),
            ("checksum", .str "aaaaaaaaaaaaaaaaaaaaaaaaaaaaaaaaaaaaaaaaaaaaaaaaaaaaaaaaaaaaaaaa")]⟩]⟩
      [⟨"aa", 1, "A", [("spacing", .num 10)], "t", "aaaaaaaaaaaaaaaaaaaaaaaaaaaaaaaaaaaaaaaaaaaaaaaaaaaaaaaaaaaaaaaa"⟩]
      [⟨"bb", 2, "B", [("spacing", .num 20)], "t", "aaaaaaaaaaaaaaaaaaaaaaaaaaaaaaaaaaaaaaaaaaaaaaaaaaaaaaaaaaaaaaaa"⟩]
      rfl
      (List.Forall₂.cons rfl List.Forall₂.nil)
      (List.Forall₂.cons rfl List.Forall₂.nil),
   C9_legacy_migration_content_preserving.2.1 (.objL [("schemaVersion", .str "v1"), ("layoutSetId", .str "aa"),
            ("layoutSetVersion", .num 1), ("name", .str "A"),
            ("elkSettings", .objL [("spacing", .num 10)]), ("updatedAt", .str "t"),
            ("checksum", .str "aaaaaaaaaaaaaaaaaaaaaaaaaaaaaaaaaaaaaaaaaaaaaaaaaaaaaaaaaaaaaaaa")]) ⟨"aa", 1, "A", [("spacing", .num 10)], "t", "aaaaaaaaaaaaaaaaaaaaaaaaaaaaaaaaaaaaaaaaaaaaaaaaaaaaaaaaaaaaaaaa"⟩ rfl,
   C9_legacy_migration_content_preserving.2.2 ⟨⟨[], []⟩, some ⟨[⟨"aa", .null⟩], []⟩⟩ ⟨[⟨"aa", .null⟩], []⟩ rfl
      (Or.inl ⟨⟨"aa", .null⟩, List.mem_singleton.mpr rfl, fun b h => by cases h⟩)⟩

/-! ## Draft version monotonicity (claim C2) -/

theorem dictGet_append_some {α : Type} {l₁ : List (String × α)} (l₂ : List (String × α))
    {k : String} {v : α} (h : dictGet l₁ k = some v) : dictGet (l₁ ++ l₂) k = some v := by
  induction l₁ with
  | nil => cases h
  | cons kv t ih =>
    obtain ⟨k2, v2⟩ := kv
    simp only [dictGet, List.cons_append] at h ⊢
    by_cases hk : k2 = k
    · simpa [hk] using h
    · rw [if_neg hk] at h ⊢
      exact ih h

theorem dictGet_append_singleton_self {α : Type} {l : List (String × α)} {k : String}
    (r : α) (h : dictGet l k = none) : dictGet (l ++ [(k, r)]) k = some r := by
  rw [dictGet_append_of_none _ h]
  simp [dictGet]

theorem dictGet_append_singleton_ne {α : Type} (l : List (String × α)) {k k2 : String}
    (r : α) (h : k ≠ k2) : dictGet (l ++ [(k, r)]) k2 = dictGet l k2 := by
  cases hv : dictGet l k2 with
  | some v => exact dictGet_append_some _ hv
  | none =>
    rw [dictGet_append_of_none _ hv]
    simp [dictGet, h]

theorem dictGet_filter_self {α : Type} (l : List (String × α)) (k : String) :
    dictGet (l.filter fun kv => kv.1 ≠ k) k = none := by
  induction l with
  | nil => rfl
  | cons kv t ih =>
    obtain ⟨k2, v2⟩ := kv
    by_cases hk : k2 = k
    · simpa [List.filter, hk] using ih
    · simp only [List.filter]
      rw [show (decide ¬(k2, v2).1 = k) = true by simp [hk]]
      simpa [dictGet, hk] using ih

theorem dictGet_filter_ne {α : Type} (l : List (String × α)) {k k2 : String}
    (h : k2 ≠ k) : dictGet (l.filter fun kv => kv.1 ≠ k) k2 = dictGet l k2 := by
  induction l with
  | nil => rfl
  | cons kv t ih =>
    obtain ⟨k3, v3⟩ := kv
    by_cases hk : k3 = k
    · subst hk
      simp only [List.filter]
      rw [show (decide ¬(k3, v3).1 = k3) = false by simp]
      rw [ih]
      simp only [dictGet]
      rw [if_neg (fun he => h he.symm)]
    · simp only [List.filter]
      rw [show (decide ¬(k3, v3).1 = k) = true by simp [hk]]
      by_cases h3 : k3 = k2
      · simp [dictGet, h3]
      · simp only [dictGet, if_neg h3]
        exact ih

theorem not_contains_none {α : Type} {l : List (String × α)} {k : String}
    (h : ¬dictContains l k = true) : dictGet l k = none := by
  cases hv : dictGet l k with
  | none => rfl
  | some v => exact absurd (by simp [dictContains, hv]) h

theorem ic_create_inv {req : IconsetCreateRequestV1} {now : String}
    {s s2 : IconsetStore.State}
    (h : IconsetStore.create_iconset req now s = .ok s2) :
    IconsetStore.draftVersionOf s req.iconSetId = none ∧
    IconsetStore.draftVersionOf s2 req.iconSetId = some 1 ∧
    ∀ id2, id2 ≠ req.iconSetId →
      IconsetStore.draftVersionOf s2 id2 = IconsetStore.draftVersionOf s id2 := by
  unfold IconsetStore.create_iconset at h
  obtain ⟨u, hg, h⟩ := except_bind_ok h
  have hnone := not_contains_none (pyCheck_ok hg)
  obtain ⟨b, hb, h⟩ := except_bind_ok h
  obtain ⟨hid, hv, hnow⟩ := iconset_build_bundle_proj hb
  simp only [pure, Except.pure, Except.ok.injEq] at h
  subst h
  refine ⟨by simp [IconsetStore.draftVersionOf, hnone], ?_, ?_⟩
  · show (dictGet (s.sets ++ [(b.iconSetId,
        ⟨b.name, b.iconSetVersion, b.updatedAt, b.checksum, b.entries⟩)])
        req.iconSetId).map IconsetStore.DraftRow.draftVersion = some 1
    rw [hid, dictGet_append_singleton_self _ hnone]
    simp [hv]
  · intro id2 hne
    show (dictGet (s.sets ++ [(b.iconSetId,
        ⟨b.name, b.iconSetVersion, b.updatedAt, b.checksum, b.entries⟩)])
        id2).map IconsetStore.DraftRow.draftVersion = _
    rw [dictGet_append_singleton_ne _ _ (fun he => hne ((hid ▸ he : req.iconSetId = id2)).symm)]
    rfl

theorem ic_ensure_inv {req : IconsetCreateRequestV1} {now : String}
    {s s2 : IconsetStore.State}
    (h : IconsetStore.ensure_default_iconset req now s = .ok s2) :
    (s2 = s ∧ dictContains s.sets req.iconSetId = true) ∨
      (IconsetStore.draftVersionOf s req.iconSetId = none ∧
       IconsetStore.draftVersionOf s2 req.iconSetId = some 1 ∧
       ∀ id2, id2 ≠ req.iconSetId →
         IconsetStore.draftVersionOf s2 id2 = IconsetStore.draftVersionOf s id2) := by
  unfold IconsetStore.ensure_default_iconset at h
  split at h
  · rename_i hc
    simp only [pure, Except.pure, Except.ok.injEq] at h
    exact Or.inl ⟨h.symm, hc⟩
  · right
    rename_i hnc
    have hnone := not_contains_none hnc
    obtain ⟨b, hb, h⟩ := except_bind_ok h
    obtain ⟨hid, hv, hnow⟩ := iconset_build_bundle_proj hb
    simp only [pure, Except.pure, Except.ok.injEq] at h
    subst h
    refine ⟨by simp [IconsetStore.draftVersionOf, hnone], ?_, ?_⟩
    · show (dictGet (s.sets ++ [(b.iconSetId,
          ⟨b.name, b.iconSetVersion, b.updatedAt, b.checksum, b.entries⟩)])
          req.iconSetId).map IconsetStore.DraftRow.draftVersion = some 1
      rw [hid, dictGet_append_singleton_self _ hnone]
      simp [hv]
    · intro id2 hne
      show (dictGet (s.sets ++ [(b.iconSetId,
          ⟨b.name, b.iconSetVersion, b.updatedAt, b.checksum, b.entries⟩)])
          id2).map IconsetStore.DraftRow.draftVersion = _
      rw [dictGet_append_singleton_ne _ _
        (fun he => hne ((hid ▸ he : req.iconSetId = id2)).symm)]
      rfl

theorem ic_replace_dvo {s : IconsetStore.State} {b : IconsetBundleV1} (id2 : String) :
    IconsetStore.draftVersionOf (IconsetStore._replace_draft s b) id2 =
      if id2 = b.iconSetId then
        (dictGet s.sets id2).map fun _ => b.iconSetVersion
      else IconsetStore.draftVersionOf s id2 := by
  show (dictGet (s.sets.map fun kv =>
      if kv.1 = b.iconSetId then (kv.1,
        ⟨b.name, b.iconSetVersion, b.updatedAt, b.checksum, b.entries⟩) else kv)
      id2).map IconsetStore.DraftRow.draftVersion = _
  rw [dictGet_replace]
  by_cases hid : id2 = b.iconSetId
  · rw [if_pos hid, if_pos hid]
    cases dictGet s.sets id2 <;> rfl
  · rw [if_neg hid, if_neg hid]
    rfl

theorem ic_update_inv {id : String} {req : IconsetEditableFieldsV1} {now : String}
    {s s2 : IconsetStore.State}
    (h : IconsetStore.update_iconset id req now s = .ok s2) :
    (∃ n, IconsetStore.draftVersionOf s id = some n ∧
       IconsetStore.draftVersionOf s2 id = some (n + 1)) ∧
    ∀ id2, id2 ≠ id →
      IconsetStore.draftVersionOf s2 id2 = IconsetStore.draftVersionOf s id2 := by
  unfold IconsetStore.update_iconset at h
  split at h
  · cases h
  · rename_i row hrow
    obtain ⟨b, hb, h⟩ := except_bind_ok h
    obtain ⟨hid, hv, hnow⟩ := iconset_build_bundle_proj hb
    simp only [pure, Except.pure, Except.ok.injEq] at h
    subst h
    constructor
    · refine ⟨row.draftVersion, by simp [IconsetStore.draftVersionOf, hrow], ?_⟩
      rw [ic_replace_dvo, if_pos hid.symm, hrow, hv]
      rfl
    · intro id2 hne
      rw [ic_replace_dvo, if_neg (fun he => hne (he.trans hid))]

theorem ic_upsert_inv {id tk icon now : String} {s s2 : IconsetStore.State}
    (h : IconsetStore.upsert_iconset_entry id tk icon now s = .ok s2) :
    (∃ n, IconsetStore.draftVersionOf s id = some n ∧
       IconsetStore.draftVersionOf s2 id = some (n + 1)) ∧
    ∀ id2, id2 ≠ id →
      IconsetStore.draftVersionOf s2 id2 = IconsetStore.draftVersionOf s id2 := by
  unfold IconsetStore.upsert_iconset_entry at h
  split at h
  · cases h
  · rename_i base hrow
    obtain ⟨key, hk, h⟩ := except_bind_ok h
    obtain ⟨ed, hed, h⟩ := except_bind_ok h
    obtain ⟨b, hb, h⟩ := except_bind_ok h
    obtain ⟨hid, hv, hnow⟩ := iconset_build_bundle_proj hb
    simp only [pure, Except.pure, Except.ok.injEq] at h
    subst h
    constructor
    · refine ⟨base.draftVersion, by simp [IconsetStore.draftVersionOf, hrow], ?_⟩
      rw [ic_replace_dvo, if_pos hid.symm, hrow, hv]
      rfl
    · intro id2 hne
      rw [ic_replace_dvo, if_neg (fun he => hne (he.trans hid))]

theorem ic_delete_inv {id tk now : String} {s s2 : IconsetStore.State}
    (h : IconsetStore.delete_iconset_entry id tk now s = .ok s2) :
    (∃ n, IconsetStore.draftVersionOf s id = some n ∧
       IconsetStore.draftVersionOf s2 id = some (n + 1)) ∧
    ∀ id2, id2 ≠ id →
      IconsetStore.draftVersionOf s2 id2 = IconsetStore.draftVersionOf s id2 := by
  unfold IconsetStore.delete_iconset_entry at h
  split at h
  · cases h
  · rename_i base hrow
    obtain ⟨key, hk, h⟩ := except_bind_ok h
    obtain ⟨u1, hg1, h⟩ := except_bind_ok h
    obtain ⟨u2, hg2, h⟩ := except_bind_ok h
    obtain ⟨ed, hed, h⟩ := except_bind_ok h
    obtain ⟨b, hb, h⟩ := except_bind_ok h
    obtain ⟨hid, hv, hnow⟩ := iconset_build_bundle_proj hb
    simp only [pure, Except.pure, Except.ok.injEq] at h
    subst h
    constructor
    · refine ⟨base.draftVersion, by simp [IconsetStore.draftVersionOf, hrow], ?_⟩
      rw [ic_replace_dvo, if_pos hid.symm, hrow, hv]
      rfl
    · intro id2 hne
      rw [ic_replace_dvo, if_neg (fun he => hne (he.trans hid))]

theorem ic_publish_inv {id : String} {s s2 : IconsetStore.State}
    (h : (IconsetStore.publish_iconset id s).map Prod.snd = .ok s2) :
    ∀ id2, IconsetStore.draftVersionOf s2 id2 = IconsetStore.draftVersionOf s id2 := by
  obtain ⟨r, hr, hmap⟩ := except_map_ok h
  obtain ⟨draft, hload, hr⟩ := except_bind_ok hr
  obtain ⟨u, hg, hr⟩ := except_bind_ok hr
  simp only [pure, Except.pure, Except.ok.injEq] at hr
  subst hr
  subst hmap
  intro id2
  rfl

theorem dictGet_mem {α : Type} {l : List (String × α)} {k : String} {v : α}
    (h : dictGet l k = some v) : (k, v) ∈ l := by
  induction l with
  | nil => cases h
  | cons kv t ih =>
    obtain ⟨k2, v2⟩ := kv
    simp only [dictGet] at h
    by_cases hk : k2 = k
    · rw [if_pos hk] at h
      cases h
      subst hk
      exact List.mem_cons_self _ _
    · rw [if_neg hk] at h
      exact List.mem_cons_of_mem _ (ih h)

theorem ly_create_inv {ev : ElkValidator} {id now : String}
    {req : LayoutSetEditableFieldsV1} {s s2 : LayoutSetStore.State}
    (h : LayoutSetStore.create_layout_set ev id req now s = .ok s2) :
    LayoutSetStore.draftVersionOf s id = none ∧
    LayoutSetStore.draftVersionOf s2 id = some 1 ∧
    ∀ id2, id2 ≠ id →
      LayoutSetStore.draftVersionOf s2 id2 = LayoutSetStore.draftVersionOf s id2 := by
  unfold LayoutSetStore.create_layout_set at h
  obtain ⟨u, hg, h⟩ := except_bind_ok h
  have hnone := not_contains_none (pyCheck_ok hg)
  obtain ⟨b, hb, h⟩ := except_bind_ok h
  obtain ⟨hid, hv, hnow⟩ := layout_build_bundle_proj hb
  simp only [pure, Except.pure, Except.ok.injEq] at h
  subst h
  refine ⟨by simp [LayoutSetStore.draftVersionOf, hnone], ?_, ?_⟩
  · show (dictGet (s.sets ++ [(b.layoutSetId,
        ⟨b.name, b.layoutSetVersion, b.updatedAt, b.checksum, b.elkSettings⟩)])
        id).map LayoutSetStore.DraftRow.draftVersion = some 1
    rw [hid, dictGet_append_singleton_self _ hnone]
    simp [hv]
  · intro id2 hne
    show (dictGet (s.sets ++ [(b.layoutSetId,
        ⟨b.name, b.layoutSetVersion, b.updatedAt, b.checksum, b.elkSettings⟩)])
        id2).map LayoutSetStore.DraftRow.draftVersion = _
    rw [dictGet_append_singleton_ne _ _ (fun he => hne ((hid ▸ he : id = id2)).symm)]
    rfl

theorem ly_ensure_inv {ev : ElkValidator} {id now : String}
    {req : LayoutSetEditableFieldsV1} {s s2 : LayoutSetStore.State}
    (h : LayoutSetStore.ensure_default_layout_set ev id req now s = .ok s2) :
    (s2 = s ∧ dictContains s.sets id = true) ∨
      (LayoutSetStore.draftVersionOf s id = none ∧
       LayoutSetStore.draftVersionOf s2 id = some 1 ∧
       ∀ id2, id2 ≠ id →
         LayoutSetStore.draftVersionOf s2 id2 = LayoutSetStore.draftVersionOf s id2) := by
  unfold LayoutSetStore.ensure_default_layout_set at h
  split at h
  · rename_i hc
    simp only [pure, Except.pure, Except.ok.injEq] at h
    exact Or.inl ⟨h.symm, hc⟩
  · right
    rename_i hnc
    have hnone := not_contains_none hnc
    obtain ⟨b, hb, h⟩ := except_bind_ok h
    obtain ⟨hid, hv, hnow⟩ := layout_build_bundle_proj hb
    simp only [pure, Except.pure, Except.ok.injEq] at h
    subst h
    refine ⟨by simp [LayoutSetStore.draftVersionOf, hnone], ?_, ?_⟩
    · show (dictGet (s.sets ++ [(b.layoutSetId,
          ⟨b.name, b.layoutSetVersion, b.updatedAt, b.checksum, b.elkSettings⟩)])
          id).map LayoutSetStore.DraftRow.draftVersion = some 1
      rw [hid, dictGet_append_singleton_self _ hnone]
      simp [hv]
    · intro id2 hne
      show (dictGet (s.sets ++ [(b.layoutSetId,
          ⟨b.name, b.layoutSetVersion, b.updatedAt, b.checksum, b.elkSettings⟩)])
          id2).map LayoutSetStore.DraftRow.draftVersion = _
      rw [dictGet_append_singleton_ne _ _ (fun he => hne ((hid ▸ he : id = id2)).symm)]
      rfl

theorem ly_replace_dvo {s : LayoutSetStore.State} {b : LayoutSetBundleV1} (id2 : String) :
    LayoutSetStore.draftVersionOf (LayoutSetStore._replace_draft s b) id2 =
      if id2 = b.layoutSetId then
        (dictGet s.sets id2).map fun _ => b.layoutSetVersion
      else LayoutSetStore.draftVersionOf s id2 := by
  show (dictGet (s.sets.map fun kv =>
      if kv.1 = b.layoutSetId then (kv.1,
        ⟨b.name, b.layoutSetVersion, b.updatedAt, b.checksum, b.elkSettings⟩) else kv)
      id2).map LayoutSetStore.DraftRow.draftVersion = _
  rw [dictGet_replace]
  by_cases hid : id2 = b.layoutSetId
  · rw [if_pos hid, if_pos hid]
    cases dictGet s.sets id2 <;> rfl
  · rw [if_neg hid, if_neg hid]
    rfl

theorem ly_update_inv {ev : ElkValidator} {id now : String}
    {req : LayoutSetEditableFieldsV1} {s s2 : LayoutSetStore.State}
    (h : LayoutSetStore.update_layout_set ev id req now s = .ok s2) :
    (∃ n, LayoutSetStore.draftVersionOf s id = some n ∧
       LayoutSetStore.draftVersionOf s2 id = some (n + 1)) ∧
    ∀ id2, id2 ≠ id →
      LayoutSetStore.draftVersionOf s2 id2 = LayoutSetStore.draftVersionOf s id2 := by
  unfold LayoutSetStore.update_layout_set at h
  split at h
  · cases h
  · rename_i row hrow
    obtain ⟨b, hb, h⟩ := except_bind_ok h
    obtain ⟨hid, hv, hnow⟩ := layout_build_bundle_proj hb
    simp only [pure, Except.pure, Except.ok.injEq] at h
    subst h
    constructor
    · refine ⟨row.draftVersion, by simp [LayoutSetStore.draftVersionOf, hrow], ?_⟩
      rw [ly_replace_dvo, if_pos hid.symm, hrow, hv]
      rfl
    · intro id2 hne
      rw [ly_replace_dvo, if_neg (fun he => hne (he.trans hid))]

theorem ly_upsert_inv {ev : ElkValidator} {id sk : String} {value : Jsn} {now : String}
    {s s2 : LayoutSetStore.State}
    (h : LayoutSetStore.upsert_layout_set_entry ev id sk value now s = .ok s2) :
    (∃ n, LayoutSetStore.draftVersionOf s id = some n ∧
       LayoutSetStore.draftVersionOf s2 id = some (n + 1)) ∧
    ∀ id2, id2 ≠ id →
      LayoutSetStore.draftVersionOf s2 id2 = LayoutSetStore.draftVersionOf s id2 := by
  unfold LayoutSetStore.upsert_layout_set_entry at h
  split at h
  · cases h
  · rename_i base hrow
    obtain ⟨key, hk, h⟩ := except_bind_ok h
    obtain ⟨ed, hed, h⟩ := except_bind_ok h
    obtain ⟨b, hb, h⟩ := except_bind_ok h
    obtain ⟨hid, hv, hnow⟩ := layout_build_bundle_proj hb
    simp only [pure, Except.pure, Except.ok.injEq] at h
    subst h
    constructor
    · refine ⟨base.draftVersion, by simp [LayoutSetStore.draftVersionOf, hrow], ?_⟩
      rw [ly_replace_dvo, if_pos hid.symm, hrow, hv]
      rfl
    · intro id2 hne
      rw [ly_replace_dvo, if_neg (fun he => hne (he.trans hid))]

theorem ly_delete_entry_inv {ev : ElkValidator} {id sk now : String}
    {s s2 : LayoutSetStore.State}
    (h : LayoutSetStore.delete_layout_set_entry ev id sk now s = .ok s2) :
    (∃ n, LayoutSetStore.draftVersionOf s id = some n ∧
       LayoutSetStore.draftVersionOf s2 id = some (n + 1)) ∧
    ∀ id2, id2 ≠ id →
      LayoutSetStore.draftVersionOf s2 id2 = LayoutSetStore.draftVersionOf s id2 := by
  unfold LayoutSetStore.delete_layout_set_entry at h
  split at h
  · cases h
  · rename_i base hrow
    obtain ⟨key, hk, h⟩ := except_bind_ok h
    obtain ⟨u1, hg1, h⟩ := except_bind_ok h
    obtain ⟨u2, hg2, h⟩ := except_bind_ok h
    obtain ⟨ed, hed, h⟩ := except_bind_ok h
    obtain ⟨b, hb, h⟩ := except_bind_ok h
    obtain ⟨hid, hv, hnow⟩ := layout_build_bundle_proj hb
    simp only [pure, Except.pure, Except.ok.injEq] at h
    subst h
    constructor
    · refine ⟨base.draftVersion, by simp [LayoutSetStore.draftVersionOf, hrow], ?_⟩
      rw [ly_replace_dvo, if_pos hid.symm, hrow, hv]
      rfl
    · intro id2 hne
      rw [ly_replace_dvo, if_neg (fun he => hne (he.trans hid))]

theorem ly_deleteSet_inv {id : String} {s s2 : LayoutSetStore.State}
    (h : LayoutSetStore.delete_layout_set id s = .ok s2) :
    LayoutSetStore.draftVersionOf s2 id = none ∧
    ∀ id2, id2 ≠ id →
      LayoutSetStore.draftVersionOf s2 id2 = LayoutSetStore.draftVersionOf s id2 := by
  unfold LayoutSetStore.delete_layout_set at h
  split at h
  · cases h
    constructor
    · show (dictGet (s.sets.filter fun kv => kv.1 ≠ id) id).map _ = none
      rw [dictGet_filter_self]
      rfl
    · intro id2 hne
      show (dictGet (s.sets.filter fun kv => kv.1 ≠ id) id2).map _ = _
      rw [dictGet_filter_ne _ hne]
      rfl
  · cases h

theorem ly_publish_inv {ev : ElkValidator} {id : String} {s s2 : LayoutSetStore.State}
    (h : (LayoutSetStore.publish_layout_set ev id s).map Prod.snd = .ok s2) :
    ∀ id2, LayoutSetStore.draftVersionOf s2 id2 = LayoutSetStore.draftVersionOf s id2 := by
  obtain ⟨r, hr, hmap⟩ := except_map_ok h
  obtain ⟨draft, hload, hr⟩ := except_bind_ok hr
  obtain ⟨u, hg, hr⟩ := except_bind_ok hr
  simp only [pure, Except.pure, Except.ok.injEq] at hr
  subst hr
  subst hmap
  intro id2
  rfl

theorem lk_create_inv {id now : String} {req : LinkSetEditableFieldsV1}
    {s s2 : LinkSetStore.State}
    (h : LinkSetStore.create_link_set id req now s = .ok s2) :
    LinkSetStore.draftVersionOf s id = none ∧
    LinkSetStore.draftVersionOf s2 id = some 1 ∧
    ∀ id2, id2 ≠ id →
      LinkSetStore.draftVersionOf s2 id2 = LinkSetStore.draftVersionOf s id2 := by
  unfold LinkSetStore.create_link_set at h
  obtain ⟨u, hg, h⟩ := except_bind_ok h
  have hnone := not_contains_none (pyCheck_ok hg)
  obtain ⟨b, hb, h⟩ := except_bind_ok h
  obtain ⟨hid, hv, hnow⟩ := link_build_bundle_proj hb
  simp only [pure, Except.pure, Except.ok.injEq] at h
  subst h
  refine ⟨by simp [LinkSetStore.draftVersionOf, hnone], ?_, ?_⟩
  · show (dictGet (s.sets ++ [(b.linkSetId,
        ⟨b.name, b.linkSetVersion, b.updatedAt, b.checksum, b⟩)])
        id).map LinkSetStore.DraftRow.draftVersion = some 1
    rw [hid, dictGet_append_singleton_self _ hnone]
    simp [hv]
  · intro id2 hne
    show (dictGet (s.sets ++ [(b.linkSetId,
        ⟨b.name, b.linkSetVersion, b.updatedAt, b.checksum, b⟩)])
        id2).map LinkSetStore.DraftRow.draftVersion = _
    rw [dictGet_append_singleton_ne _ _ (fun he => hne ((hid ▸ he : id = id2)).symm)]
    rfl

theorem lk_ensure_inv {id now : String} {req : LinkSetEditableFieldsV1}
    {s s2 : LinkSetStore.State}
    (h : LinkSetStore.ensure_default_link_set id req now s = .ok s2) :
    (s2 = s ∧ dictContains s.sets id = true) ∨
      (LinkSetStore.draftVersionOf s id = none ∧
       LinkSetStore.draftVersionOf s2 id = some 1 ∧
       ∀ id2, id2 ≠ id →
         LinkSetStore.draftVersionOf s2 id2 = LinkSetStore.draftVersionOf s id2) := by
  unfold LinkSetStore.ensure_default_link_set at h
  split at h
  · rename_i hc
    simp only [pure, Except.pure, Except.ok.injEq] at h
    exact Or.inl ⟨h.symm, hc⟩
  · right
    rename_i hnc
    have hnone := not_contains_none hnc
    obtain ⟨b, hb, h⟩ := except_bind_ok h
    obtain ⟨hid, hv, hnow⟩ := link_build_bundle_proj hb
    simp only [pure, Except.pure, Except.ok.injEq] at h
    subst h
    refine ⟨by simp [LinkSetStore.draftVersionOf, hnone], ?_, ?_⟩
    · show (dictGet (s.sets ++ [(b.linkSetId,
          ⟨b.name, b.linkSetVersion, b.updatedAt, b.checksum, b⟩)])
          id).map LinkSetStore.DraftRow.draftVersion = some 1
      rw [hid, dictGet_append_singleton_self _ hnone]
      simp [hv]
    · intro id2 hne
      show (dictGet (s.sets ++ [(b.linkSetId,
          ⟨b.name, b.linkSetVersion, b.updatedAt, b.checksum, b⟩)])
          id2).map LinkSetStore.DraftRow.draftVersion = _
      rw [dictGet_append_singleton_ne _ _ (fun he => hne ((hid ▸ he : id = id2)).symm)]
      rfl

theorem lk_replace_dvo {s : LinkSetStore.State} {b : LinkSetBundleV1} (id2 : String) :
    LinkSetStore.draftVersionOf (LinkSetStore._replace_draft s b) id2 =
      if id2 = b.linkSetId then
        (dictGet s.sets id2).map fun _ => b.linkSetVersion
      else LinkSetStore.draftVersionOf s id2 := by
  show (dictGet (s.sets.map fun kv =>
      if kv.1 = b.linkSetId then (kv.1,
        ⟨b.name, b.linkSetVersion, b.updatedAt, b.checksum, b⟩) else kv)
      id2).map LinkSetStore.DraftRow.draftVersion = _
  rw [dictGet_replace]
  by_cases hid : id2 = b.linkSetId
  · rw [if_pos hid, if_pos hid]
    cases dictGet s.sets id2 <;> rfl
  · rw [if_neg hid, if_neg hid]
    rfl

theorem lk_load_draft_inv {s : LinkSetStore.State} {id : String} {draft : LinkSetBundleV1}
    (h : LinkSetStore._load_draft_bundle s id = .ok draft) :
    ∃ row, dictGet s.sets id = some row ∧
      draft.linkSetVersion = row.draftPayload.linkSetVersion := by
  unfold LinkSetStore._load_draft_bundle at h
  split at h
  · cases h
  · rename_i row hrow
    unfold LinkSetStore._bundle_from_json at h
    split at h
    · cases h
      exact ⟨row, hrow, (validateLinkSetBundle_proj (by assumption)).2.1⟩
    · cases h

theorem lk_update_inv {id now : String} {req : LinkSetEditableFieldsV1}
    {s s2 : LinkSetStore.State}
    (h : LinkSetStore.update_link_set id req now s = .ok s2) :
    (∃ n, LinkSetStore.draftVersionOf s id = some n ∧
       LinkSetStore.draftVersionOf s2 id = some (n + 1)) ∧
    ∀ id2, id2 ≠ id →
      LinkSetStore.draftVersionOf s2 id2 = LinkSetStore.draftVersionOf s id2 := by
  unfold LinkSetStore.update_link_set at h
  split at h
  · cases h
  · rename_i row hrow
    obtain ⟨b, hb, h⟩ := except_bind_ok h
    obtain ⟨hid, hv, hnow⟩ := link_build_bundle_proj hb
    simp only [pure, Except.pure, Except.ok.injEq] at h
    subst h
    constructor
    · refine ⟨row.draftVersion, by simp [LinkSetStore.draftVersionOf, hrow], ?_⟩
      rw [lk_replace_dvo, if_pos hid.symm, hrow, hv]
      rfl
    · intro id2 hne
      rw [lk_replace_dvo, if_neg (fun he => hne (he.trans hid))]

theorem lk_upsert_inv {id k : String} {request : LinkTypeDefinitionV1} {now : String}
    {s s2 : LinkSetStore.State}
    (h : LinkSetStore.upsert_link_entry id k request now s = .ok s2) :
    (∃ row, dictGet s.sets id = some row ∧
       LinkSetStore.draftVersionOf s2 id =
         some (row.draftPayload.linkSetVersion + 1)) ∧
    ∀ id2, id2 ≠ id →
      LinkSetStore.draftVersionOf s2 id2 = LinkSetStore.draftVersionOf s id2 := by
  unfold LinkSetStore.upsert_link_entry at h
  obtain ⟨draft, hload, h⟩ := except_bind_ok h
  obtain ⟨key, hk, h⟩ := except_bind_ok h
  obtain ⟨ed, hed, h⟩ := except_bind_ok h
  obtain ⟨b, hb, h⟩ := except_bind_ok h
  obtain ⟨hid, hv, hnow⟩ := link_build_bundle_proj hb
  obtain ⟨row, hrow, hver⟩ := lk_load_draft_inv hload
  simp only [pure, Except.pure, Except.ok.injEq] at h
  subst h
  constructor
  · refine ⟨row, hrow, ?_⟩
    rw [lk_replace_dvo, if_pos hid.symm, hrow, hv, hver]
    rfl
  · intro id2 hne
    rw [lk_replace_dvo, if_neg (fun he => hne (he.trans hid))]

theorem lk_delete_entry_inv {id k now : String} {s s2 : LinkSetStore.State}
    (h : LinkSetStore.delete_link_entry id k now s = .ok s2) :
    (∃ row, dictGet s.sets id = some row ∧
       LinkSetStore.draftVersionOf s2 id =
         some (row.draftPayload.linkSetVersion + 1)) ∧
    ∀ id2, id2 ≠ id →
      LinkSetStore.draftVersionOf s2 id2 = LinkSetStore.draftVersionOf s id2 := by
  unfold LinkSetStore.delete_link_entry at h
  obtain ⟨key, hk, h⟩ := except_bind_ok h
  obtain ⟨draft, hload, h⟩ := except_bind_ok h
  obtain ⟨u1, hg1, h⟩ := except_bind_ok h
  obtain ⟨u2, hg2, h⟩ := except_bind_ok h
  obtain ⟨ed, hed, h⟩ := except_bind_ok h
  obtain ⟨b, hb, h⟩ := except_bind_ok h
  obtain ⟨hid, hv, hnow⟩ := link_build_bundle_proj hb
  obtain ⟨row, hrow, hver⟩ := lk_load_draft_inv hload
  simp only [pure, Except.pure, Except.ok.injEq] at h
  subst h
  constructor
  · refine ⟨row, hrow, ?_⟩
    rw [lk_replace_dvo, if_pos hid.symm, hrow, hv, hver]
    rfl
  · intro id2 hne
    rw [lk_replace_dvo, if_neg (fun he => hne (he.trans hid))]

theorem lk_deleteSet_inv {id : String} {s s2 : LinkSetStore.State}
    (h : LinkSetStore.delete_link_set id s = .ok s2) :
    LinkSetStore.draftVersionOf s2 id = none ∧
    ∀ id2, id2 ≠ id →
      LinkSetStore.draftVersionOf s2 id2 = LinkSetStore.draftVersionOf s id2 := by
  unfold LinkSetStore.delete_link_set at h
  split at h
  · cases h
    constructor
    · show (dictGet (s.sets.filter fun kv => kv.1 ≠ id) id).map _ = none
      rw [dictGet_filter_self]
      rfl
    · intro id2 hne
      show (dictGet (s.sets.filter fun kv => kv.1 ≠ id) id2).map _ = _
      rw [dictGet_filter_ne _ hne]
      rfl
  · cases h

theorem lk_publish_inv {id : String} {s s2 : LinkSetStore.State}
    (h : (LinkSetStore.publish_link_set id s).map Prod.snd = .ok s2) :
    ∀ id2, LinkSetStore.draftVersionOf s2 id2 = LinkSetStore.draftVersionOf s id2 := by
  obtain ⟨r, hr, hmap⟩ := except_map_ok h
  obtain ⟨draft, hload, hr⟩ := except_bind_ok hr
  obtain ⟨u, hg, hr⟩ := except_bind_ok hr
  simp only [pure, Except.pure, Except.ok.injEq] at hr
  subst hr
  subst hmap
  intro id2
  rfl

theorem gt_create_inv {ev : ElkValidator} {layouts : LayoutSetStore.State}
    {links : LinkSetStore.State} {icons : IconsetStore.State} {id now : String}
    {req : GraphTypeEditableFieldsV1} {s s2 : GraphTypeStore.State}
    (h : GraphTypeStore.create_graph_type ev layouts links icons id req now s = .ok s2) :
    GraphTypeStore.draftVersionOf s id = none ∧
    GraphTypeStore.draftVersionOf s2 id = some 1 ∧
    ∀ id2, id2 ≠ id →
      GraphTypeStore.draftVersionOf s2 id2 = GraphTypeStore.draftVersionOf s id2 := by
  unfold GraphTypeStore.create_graph_type at h
  obtain ⟨u, hg, h⟩ := except_bind_ok h
  have hnone := not_contains_none (pyCheck_ok hg)
  obtain ⟨b, hb, h⟩ := except_bind_ok h
  obtain ⟨hid, hv, hnow, _⟩ := graphtype_build_bundle_proj hb
  simp only [pure, Except.pure, Except.ok.injEq] at h
  subst h
  refine ⟨by simp [GraphTypeStore.draftVersionOf, hnone], ?_, ?_⟩
  · show (dictGet (s.graphs ++ [(b.graphTypeId, GraphTypeStore.rowOfBundle b)])
        id).map GraphTypeStore.DraftRow.draftVersion = some 1
    rw [hid, dictGet_append_singleton_self _ hnone]
    simp [GraphTypeStore.rowOfBundle, hv]
  · intro id2 hne
    show (dictGet (s.graphs ++ [(b.graphTypeId, GraphTypeStore.rowOfBundle b)])
        id2).map GraphTypeStore.DraftRow.draftVersion = _
    rw [dictGet_append_singleton_ne _ _ (fun he => hne ((hid ▸ he : id = id2)).symm)]
    rfl

theorem gt_ensure_inv {ev : ElkValidator} {layouts : LayoutSetStore.State}
    {links : LinkSetStore.State} {icons : IconsetStore.State} {id now : String}
    {req : GraphTypeEditableFieldsV1} {s s2 : GraphTypeStore.State}
    (h : GraphTypeStore.ensure_default_graph_type ev layouts links icons id req now s =
      .ok s2) :
    (s2 = s ∧ dictContains s.graphs id = true) ∨
      (GraphTypeStore.draftVersionOf s id = none ∧
       GraphTypeStore.draftVersionOf s2 id = some 1 ∧
       ∀ id2, id2 ≠ id →
         GraphTypeStore.draftVersionOf s2 id2 = GraphTypeStore.draftVersionOf s id2) := by
  unfold GraphTypeStore.ensure_default_graph_type at h
  split at h
  · rename_i hc
    simp only [pure, Except.pure, Except.ok.injEq] at h
    exact Or.inl ⟨h.symm, hc⟩
  · right
    rename_i hnc
    have hnone := not_contains_none hnc
    obtain ⟨b, hb, h⟩ := except_bind_ok h
    obtain ⟨hid, hv, hnow, _⟩ := graphtype_build_bundle_proj hb
    simp only [pure, Except.pure, Except.ok.injEq] at h
    subst h
    refine ⟨by simp [GraphTypeStore.draftVersionOf, hnone], ?_, ?_⟩
    · show (dictGet (s.graphs ++ [(b.graphTypeId, GraphTypeStore.rowOfBundle b)])
          id).map GraphTypeStore.DraftRow.draftVersion = some 1
      rw [hid, dictGet_append_singleton_self _ hnone]
      simp [GraphTypeStore.rowOfBundle, hv]
    · intro id2 hne
      show (dictGet (s.graphs ++ [(b.graphTypeId, GraphTypeStore.rowOfBundle b)])
          id2).map GraphTypeStore.DraftRow.draftVersion = _
      rw [dictGet_append_singleton_ne _ _ (fun he => hne ((hid ▸ he : id = id2)).symm)]
      rfl

theorem gt_replace_dvo {s : GraphTypeStore.State} {b : GraphTypeBundleV1} (id2 : String) :
    GraphTypeStore.draftVersionOf (GraphTypeStore._replace_draft s b) id2 =
      if id2 = b.graphTypeId then
        (dictGet s.graphs id2).map fun _ => b.graphTypeVersion
      else GraphTypeStore.draftVersionOf s id2 := by
  show (dictGet (s.graphs.map fun kv =>
      if kv.1 = b.graphTypeId then (kv.1, GraphTypeStore.rowOfBundle b) else kv)
      id2).map GraphTypeStore.DraftRow.draftVersion = _
  rw [dictGet_replace]
  by_cases hid : id2 = b.graphTypeId
  · rw [if_pos hid, if_pos hid]
    cases dictGet s.graphs id2 <;> rfl
  · rw [if_neg hid, if_neg hid]
    rfl

theorem gt_update_inv {ev : ElkValidator} {layouts : LayoutSetStore.State}
    {links : LinkSetStore.State} {icons : IconsetStore.State} {id now : String}
    {req : GraphTypeEditableFieldsV1} {s s2 : GraphTypeStore.State}
    (h : GraphTypeStore.update_graph_type ev layouts links icons id req now s = .ok s2) :
    (∃ n, GraphTypeStore.draftVersionOf s id = some n ∧
       GraphTypeStore.draftVersionOf s2 id = some (n + 1)) ∧
    ∀ id2, id2 ≠ id →
      GraphTypeStore.draftVersionOf s2 id2 = GraphTypeStore.draftVersionOf s id2 := by
  unfold GraphTypeStore.update_graph_type at h
  split at h
  · cases h
  · rename_i row hrow
    obtain ⟨b, hb, h⟩ := except_bind_ok h
    obtain ⟨hid, hv, hnow, _⟩ := graphtype_build_bundle_proj hb
    simp only [pure, Except.pure, Except.ok.injEq] at h
    subst h
    constructor
    · refine ⟨row.draftVersion, by simp [GraphTypeStore.draftVersionOf, hrow], ?_⟩
      rw [gt_replace_dvo, if_pos hid.symm, hrow, hv]
      rfl
    · intro id2 hne
      rw [gt_replace_dvo, if_neg (fun he => hne (he.trans hid))]

theorem gt_publish_dvo_inv {id : String} {s s2 : GraphTypeStore.State}
    (h : (GraphTypeStore.publish_graph_type id s).map Prod.snd = .ok s2) :
    ∀ id2, GraphTypeStore.draftVersionOf s2 id2 = GraphTypeStore.draftVersionOf s id2 := by
  obtain ⟨r, hr, hmap⟩ := except_map_ok h
  obtain ⟨hload, hst⟩ := gt_publish_ok hr
  subst hmap
  rw [hst]
  intro id2
  rfl

theorem ic_version_step (op : IconsetStore.Op) (s : IconsetStore.State) (id2 : String) :
    versionStep (IconsetStore.draftVersionOf s id2)
      (IconsetStore.draftVersionOf (IconsetStore.stateAfter op s) id2) := by
  unfold IconsetStore.stateAfter
  cases happly : IconsetStore.applyOp op s with
  | error e => exact Or.inl rfl
  | ok s2 =>
    cases op with
    | ensureDefault req now =>
      simp only [IconsetStore.applyOp] at happly
      rcases ic_ensure_inv happly with ⟨hs, _⟩ | ⟨hnone, hone, hother⟩
      · subst hs
        exact Or.inl rfl
      · by_cases hid : id2 = req.iconSetId
        · subst hid
          exact Or.inr (Or.inr (Or.inl ⟨hnone, hone⟩))
        · exact Or.inl (hother id2 hid)
    | create req now =>
      simp only [IconsetStore.applyOp] at happly
      obtain ⟨hnone, hone, hother⟩ := ic_create_inv happly
      by_cases hid : id2 = req.iconSetId
      · subst hid
        exact Or.inr (Or.inr (Or.inl ⟨hnone, hone⟩))
      · exact Or.inl (hother id2 hid)
    | update id req now =>
      simp only [IconsetStore.applyOp] at happly
      obtain ⟨⟨n, hn, hn2⟩, hother⟩ := ic_update_inv happly
      by_cases hid : id2 = id
      · subst hid
        exact Or.inr (Or.inl ⟨n, hn, hn2⟩)
      · exact Or.inl (hother id2 hid)
    | upsertEntry id tk icon now =>
      simp only [IconsetStore.applyOp] at happly
      obtain ⟨⟨n, hn, hn2⟩, hother⟩ := ic_upsert_inv happly
      by_cases hid : id2 = id
      · subst hid
        exact Or.inr (Or.inl ⟨n, hn, hn2⟩)
      · exact Or.inl (hother id2 hid)
    | deleteEntry id tk now =>
      simp only [IconsetStore.applyOp] at happly
      obtain ⟨⟨n, hn, hn2⟩, hother⟩ := ic_delete_inv happly
      by_cases hid : id2 = id
      · subst hid
        exact Or.inr (Or.inl ⟨n, hn, hn2⟩)
      · exact Or.inl (hother id2 hid)
    | publish id =>
      simp only [IconsetStore.applyOp] at happly
      exact Or.inl (ic_publish_inv happly id2)

theorem ly_version_step (ev : ElkValidator) (op : LayoutSetStore.Op)
    (s : LayoutSetStore.State) (id2 : String) :
    versionStep (LayoutSetStore.draftVersionOf s id2)
      (LayoutSetStore.draftVersionOf (LayoutSetStore.stateAfter ev op s) id2) := by
  unfold LayoutSetStore.stateAfter
  cases happly : LayoutSetStore.applyOp ev op s with
  | error e => exact Or.inl rfl
  | ok s2 =>
    cases op with
    | ensureDefault id req now =>
      simp only [LayoutSetStore.applyOp] at happly
      rcases ly_ensure_inv happly with ⟨hs, _⟩ | ⟨hnone, hone, hother⟩
      · subst hs
        exact Or.inl rfl
      · by_cases hid : id2 = id
        · subst hid
          exact Or.inr (Or.inr (Or.inl ⟨hnone, hone⟩))
        · exact Or.inl (hother id2 hid)
    | create id req now =>
      simp only [LayoutSetStore.applyOp] at happly
      obtain ⟨hnone, hone, hother⟩ := ly_create_inv happly
      by_cases hid : id2 = id
      · subst hid
        exact Or.inr (Or.inr (Or.inl ⟨hnone, hone⟩))
      · exact Or.inl (hother id2 hid)
    | update id req now =>
      simp only [LayoutSetStore.applyOp] at happly
      obtain ⟨⟨n, hn, hn2⟩, hother⟩ := ly_update_inv happly
      by_cases hid : id2 = id
      · subst hid
        exact Or.inr (Or.inl ⟨n, hn, hn2⟩)
      · exact Or.inl (hother id2 hid)
    | deleteSet id =>
      simp only [LayoutSetStore.applyOp] at happly
      obtain ⟨hnone, hother⟩ := ly_deleteSet_inv happly
      by_cases hid : id2 = id
      · subst hid
        exact Or.inr (Or.inr (Or.inr hnone))
      · exact Or.inl (hother id2 hid)
    | upsertEntry id key value now =>
      simp only [LayoutSetStore.applyOp] at happly
      obtain ⟨⟨n, hn, hn2⟩, hother⟩ := ly_upsert_inv happly
      by_cases hid : id2 = id
      · subst hid
        exact Or.inr (Or.inl ⟨n, hn, hn2⟩)
      · exact Or.inl (hother id2 hid)
    | deleteEntry id key now =>
      simp only [LayoutSetStore.applyOp] at happly
      obtain ⟨⟨n, hn, hn2⟩, hother⟩ := ly_delete_entry_inv happly
      by_cases hid : id2 = id
      · subst hid
        exact Or.inr (Or.inl ⟨n, hn, hn2⟩)
      · exact Or.inl (hother id2 hid)
    | publish id =>
      simp only [LayoutSetStore.applyOp] at happly
      exact Or.inl (ly_publish_inv happly id2)

theorem lk_version_step (op : LinkSetStore.Op) (s : LinkSetStore.State) (id2 : String)
    (hwf : ∀ kv ∈ s.sets, kv.2.draftPayload.linkSetVersion = kv.2.draftVersion) :
    versionStep (LinkSetStore.draftVersionOf s id2)
      (LinkSetStore.draftVersionOf (LinkSetStore.stateAfter op s) id2) := by
  unfold LinkSetStore.stateAfter
  cases happly : LinkSetStore.applyOp op s with
  | error e => exact Or.inl rfl
  | ok s2 =>
    cases op with
    | ensureDefault id req now =>
      simp only [LinkSetStore.applyOp] at happly
      rcases lk_ensure_inv happly with ⟨hs, _⟩ | ⟨hnone, hone, hother⟩
      · subst hs
        exact Or.inl rfl
      · by_cases hid : id2 = id
        · subst hid
          exact Or.inr (Or.inr (Or.inl ⟨hnone, hone⟩))
        · exact Or.inl (hother id2 hid)
    | create id req now =>
      simp only [LinkSetStore.applyOp] at happly
      obtain ⟨hnone, hone, hother⟩ := lk_create_inv happly
      by_cases hid : id2 = id
      · subst hid
        exact Or.inr (Or.inr (Or.inl ⟨hnone, hone⟩))
      · exact Or.inl (hother id2 hid)
    | update id req now =>
      simp only [LinkSetStore.applyOp] at happly
      obtain ⟨⟨n, hn, hn2⟩, hother⟩ := lk_update_inv happly
      by_cases hid : id2 = id
      · subst hid
        exact Or.inr (Or.inl ⟨n, hn, hn2⟩)
      · exact Or.inl (hother id2 hid)
    | deleteSet id =>
      simp only [LinkSetStore.applyOp] at happly
      obtain ⟨hnone, hother⟩ := lk_deleteSet_inv happly
      by_cases hid : id2 = id
      · subst hid
        exact Or.inr (Or.inr (Or.inr hnone))
      · exact Or.inl (hother id2 hid)
    | upsertEntry id key request now =>
      simp only [LinkSetStore.applyOp] at happly
      obtain ⟨⟨row, hrow, hn2⟩, hother⟩ := lk_upsert_inv happly
      by_cases hid : id2 = id
      · subst hid
        refine Or.inr (Or.inl ⟨row.draftVersion,
          by simp [LinkSetStore.draftVersionOf, hrow], ?_⟩)
        rw [hn2, hwf (id2, row) (dictGet_mem hrow)]
      · exact Or.inl (hother id2 hid)
    | deleteEntry id key now =>
      simp only [LinkSetStore.applyOp] at happly
      obtain ⟨⟨row, hrow, hn2⟩, hother⟩ := lk_delete_entry_inv happly
      by_cases hid : id2 = id
      · subst hid
        refine Or.inr (Or.inl ⟨row.draftVersion,
          by simp [LinkSetStore.draftVersionOf, hrow], ?_⟩)
        rw [hn2, hwf (id2, row) (dictGet_mem hrow)]
      · exact Or.inl (hother id2 hid)
    | publish id =>
      simp only [LinkSetStore.applyOp] at happly
      exact Or.inl (lk_publish_inv happly id2)

theorem gt_version_step (ev : ElkValidator) (layouts : LayoutSetStore.State)
    (links : LinkSetStore.State) (icons : IconsetStore.State)
    (op : GraphTypeStore.Op) (s : GraphTypeStore.State) (id2 : String) :
    versionStep (GraphTypeStore.draftVersionOf s id2)
      (GraphTypeStore.draftVersionOf
        (GraphTypeStore.stateAfter ev layouts links icons op s) id2) := by
  unfold GraphTypeStore.stateAfter
  cases happly : GraphTypeStore.applyOp ev layouts links icons op s with
  | error e => exact Or.inl rfl
  | ok s2 =>
    cases op with
    | ensureDefault id req now =>
      simp only [GraphTypeStore.applyOp] at happly
      rcases gt_ensure_inv happly with ⟨hs, _⟩ | ⟨hnone, hone, hother⟩
      · subst hs
        exact Or.inl rfl
      · by_cases hid : id2 = id
        · subst hid
          exact Or.inr (Or.inr (Or.inl ⟨hnone, hone⟩))
        · exact Or.inl (hother id2 hid)
    | create id req now =>
      simp only [GraphTypeStore.applyOp] at happly
      obtain ⟨hnone, hone, hother⟩ := gt_create_inv happly
      by_cases hid : id2 = id
      · subst hid
        exact Or.inr (Or.inr (Or.inl ⟨hnone, hone⟩))
      · exact Or.inl (hother id2 hid)
    | update id req now =>
      simp only [GraphTypeStore.applyOp] at happly
      obtain ⟨⟨n, hn, hn2⟩, hother⟩ := gt_update_inv happly
      by_cases hid : id2 = id
      · subst hid
        exact Or.inr (Or.inl ⟨n, hn, hn2⟩)
      · exact Or.inl (hother id2 hid)
    | publish id =>
      simp only [GraphTypeStore.applyOp] at happly
      exact Or.inl (gt_publish_dvo_inv happly id2)

/-- **C2**: across all four stores, `create` (and `ensureDefault` on an
absent id) produces a draft at version exactly 1; every successful
`update`, entry upsert and entry delete bumps the draft to exactly the
previous draft version + 1; and every operation of each store alphabet
performs a legal version step — unchanged, +1, fresh at 1, or resource
removal — never decreasing and never skipping.  (The link-store entry ops
bump the version stored in the draft payload, so their step statements
carry the payload/column consistency every writer maintains.) -/
theorem C2_draft_version_monotonic :
    ((∀ (req : IconsetCreateRequestV1) (now : String) (s s2 : IconsetStore.State),
        IconsetStore.create_iconset req now s = .ok s2 →
        IconsetStore.draftVersionOf s2 req.iconSetId = some 1) ∧
     (∀ (req : IconsetCreateRequestV1) (now : String) (s s2 : IconsetStore.State),
        IconsetStore.ensure_default_iconset req now s = .ok s2 →
        IconsetStore.draftVersionOf s req.iconSetId = none →
        IconsetStore.draftVersionOf s2 req.iconSetId = some 1) ∧
     (∀ (id : String) (req : IconsetEditableFieldsV1) (now : String)
        (s s2 : IconsetStore.State) (n : Nat),
        IconsetStore.update_iconset id req now s = .ok s2 →
        IconsetStore.draftVersionOf s id = some n →
        IconsetStore.draftVersionOf s2 id = some (n + 1)) ∧
     (∀ (id tk icon now : String) (s s2 : IconsetStore.State) (n : Nat),
        IconsetStore.upsert_iconset_entry id tk icon now s = .ok s2 →
        IconsetStore.draftVersionOf s id = some n →
        IconsetStore.draftVersionOf s2 id = some (n + 1)) ∧
     (∀ (id tk now : String) (s s2 : IconsetStore.State) (n : Nat),
        IconsetStore.delete_iconset_entry id tk now s = .ok s2 →
        IconsetStore.draftVersionOf s id = some n →
        IconsetStore.draftVersionOf s2 id = some (n + 1)) ∧
     (∀ (op : IconsetStore.Op) (s : IconsetStore.State) (id2 : String),
        versionStep (IconsetStore.draftVersionOf s id2)
          (IconsetStore.draftVersionOf (IconsetStore.stateAfter op s) id2))) ∧
    ((∀ (ev : ElkValidator) (id now : String) (req : LayoutSetEditableFieldsV1)
        (s s2 : LayoutSetStore.State),
        LayoutSetStore.create_layout_set ev id req now s = .ok s2 →
        LayoutSetStore.draftVersionOf s2 id = some 1) ∧
     (∀ (ev : ElkValidator) (id now : String) (req : LayoutSetEditableFieldsV1)
        (s s2 : LayoutSetStore.State),
        LayoutSetStore.ensure_default_layout_set ev id req now s = .ok s2 →
        LayoutSetStore.draftVersionOf s id = none →
        LayoutSetStore.draftVersionOf s2 id = some 1) ∧
     (∀ (ev : ElkValidator) (id now : String) (req : LayoutSetEditableFieldsV1)
        (s s2 : LayoutSetStore.State) (n : Nat),
        LayoutSetStore.update_layout_set ev id req now s = .ok s2 →
        LayoutSetStore.draftVersionOf s id = some n →
        LayoutSetStore.draftVersionOf s2 id = some (n + 1)) ∧
     (∀ (ev : ElkValidator) (id sk : String) (value : Jsn) (now : String)
        (s s2 : LayoutSetStore.State) (n : Nat),
        LayoutSetStore.upsert_layout_set_entry ev id sk value now s = .ok s2 →
        LayoutSetStore.draftVersionOf s id = some n →
        LayoutSetStore.draftVersionOf s2 id = some (n + 1)) ∧
     (∀ (ev : ElkValidator) (id sk now : String) (s s2 : LayoutSetStore.State) (n : Nat),
        LayoutSetStore.delete_layout_set_entry ev id sk now s = .ok s2 →
        LayoutSetStore.draftVersionOf s id = some n →
        LayoutSetStore.draftVersionOf s2 id = some (n + 1)) ∧
     (∀ (ev : ElkValidator) (op : LayoutSetStore.Op) (s : LayoutSetStore.State)
        (id2 : String),
        versionStep (LayoutSetStore.draftVersionOf s id2)
          (LayoutSetStore.draftVersionOf (LayoutSetStore.stateAfter ev op s) id2))) ∧
    ((∀ (id now : String) (req : LinkSetEditableFieldsV1) (s s2 : LinkSetStore.State),
        LinkSetStore.create_link_set id req now s = .ok s2 →
        LinkSetStore.draftVersionOf s2 id = some 1) ∧
     (∀ (id now : String) (req : LinkSetEditableFieldsV1) (s s2 : LinkSetStore.State),
        LinkSetStore.ensure_default_link_set id req now s = .ok s2 →
        LinkSetStore.draftVersionOf s id = none →
        LinkSetStore.draftVersionOf s2 id = some 1) ∧
     (∀ (id now : String) (req : LinkSetEditableFieldsV1) (s s2 : LinkSetStore.State)
        (n : Nat),
        LinkSetStore.update_link_set id req now s = .ok s2 →
        LinkSetStore.draftVersionOf s id = some n →
        LinkSetStore.draftVersionOf s2 id = some (n + 1)) ∧
     (∀ (id k : String) (request : LinkTypeDefinitionV1) (now : String)
        (s s2 : LinkSetStore.State) (row : LinkSetStore.DraftRow),
        LinkSetStore.upsert_link_entry id k request now s = .ok s2 →
        dictGet s.sets id = some row →
        row.draftPayload.linkSetVersion = row.draftVersion →
        LinkSetStore.draftVersionOf s2 id = some (row.draftVersion + 1)) ∧
     (∀ (id k now : String) (s s2 : LinkSetStore.State) (row : LinkSetStore.DraftRow),
        LinkSetStore.delete_link_entry id k now s = .ok s2 →
        dictGet s.sets id = some row →
        row.draftPayload.linkSetVersion = row.draftVersion →
        LinkSetStore.draftVersionOf s2 id = some (row.draftVersion + 1)) ∧
     (∀ (op : LinkSetStore.Op) (s : LinkSetStore.State) (id2 : String),
        (∀ kv ∈ s.sets, kv.2.draftPayload.linkSetVersion = kv.2.draftVersion) →
        versionStep (LinkSetStore.draftVersionOf s id2)
          (LinkSetStore.draftVersionOf (LinkSetStore.stateAfter op s) id2))) ∧
    ((∀ (ev : ElkValidator) (layouts : LayoutSetStore.State) (links : LinkSetStore.State)
        (icons : IconsetStore.State) (id now : String) (req : GraphTypeEditableFieldsV1)
        (s s2 : GraphTypeStore.State),
        GraphTypeStore.create_graph_type ev layouts links icons id req now s = .ok s2 →
        GraphTypeStore.draftVersionOf s2 id = some 1) ∧
     (∀ (ev : ElkValidator) (layouts : LayoutSetStore.State) (links : LinkSetStore.State)
        (icons : IconsetStore.State) (id now : String) (req : GraphTypeEditableFieldsV1)
        (s s2 : GraphTypeStore.State),
        GraphTypeStore.ensure_default_graph_type ev layouts links icons id req now s =
          .ok s2 →
        GraphTypeStore.draftVersionOf s id = none →
        GraphTypeStore.draftVersionOf s2 id = some 1) ∧
     (∀ (ev : ElkValidator) (layouts : LayoutSetStore.State) (links : LinkSetStore.State)
        (icons : IconsetStore.State) (id now : String) (req : GraphTypeEditableFieldsV1)
        (s s2 : GraphTypeStore.State) (n : Nat),
        GraphTypeStore.update_graph_type ev layouts links icons id req now s = .ok s2 →
        GraphTypeStore.draftVersionOf s id = some n →
        GraphTypeStore.draftVersionOf s2 id = some (n + 1)) ∧
     (∀ (ev : ElkValidator) (layouts : LayoutSetStore.State) (links : LinkSetStore.State)
        (icons : IconsetStore.State) (op : GraphTypeStore.Op) (s : GraphTypeStore.State)
        (id2 : String),
        versionStep (GraphTypeStore.draftVersionOf s id2)
          (GraphTypeStore.draftVersionOf
            (GraphTypeStore.stateAfter ev layouts links icons op s) id2))) := by
  refine ⟨⟨?_, ?_, ?_, ?_, ?_, fun op s id2 => ic_version_step op s id2⟩,
    ⟨?_, ?_, ?_, ?_, ?_, fun ev op s id2 => ly_version_step ev op s id2⟩,
    ⟨?_, ?_, ?_, ?_, ?_, fun op s id2 hwf => lk_version_step op s id2 hwf⟩,
    ⟨?_, ?_, ?_, fun ev layouts links icons op s id2 =>
      gt_version_step ev layouts links icons op s id2⟩⟩
  · intro req now s s2 h
    exact (ic_create_inv h).2.1
  · intro req now s s2 h hnone
    rcases ic_ensure_inv h with ⟨hs, hc⟩ | ⟨_, hone, _⟩
    · exfalso
      cases hget : dictGet s.sets req.iconSetId with
      | none => simp [dictContains, hget] at hc
      | some v => simp [IconsetStore.draftVersionOf, hget] at hnone
    · exact hone
  · intro id req now s s2 n h hn
    obtain ⟨⟨n2, hn2, h2⟩, _⟩ := ic_update_inv h
    rw [hn] at hn2
    cases hn2
    exact h2
  · intro id tk icon now s s2 n h hn
    obtain ⟨⟨n2, hn2, h2⟩, _⟩ := ic_upsert_inv h
    rw [hn] at hn2
    cases hn2
    exact h2
  · intro id tk now s s2 n h hn
    obtain ⟨⟨n2, hn2, h2⟩, _⟩ := ic_delete_inv h
    rw [hn] at hn2
    cases hn2
    exact h2
  · intro ev id now req s s2 h
    exact (ly_create_inv h).2.1
  · intro ev id now req s s2 h hnone
    rcases ly_ensure_inv h with ⟨hs, hc⟩ | ⟨_, hone, _⟩
    · exfalso
      cases hget : dictGet s.sets id with
      | none => simp [dictContains, hget] at hc
      | some v => simp [LayoutSetStore.draftVersionOf, hget] at hnone
    · exact hone
  · intro ev id now req s s2 n h hn
    obtain ⟨⟨n2, hn2, h2⟩, _⟩ := ly_update_inv h
    rw [hn] at hn2
    cases hn2
    exact h2
  · intro ev id sk value now s s2 n h hn
    obtain ⟨⟨n2, hn2, h2⟩, _⟩ := ly_upsert_inv h
    rw [hn] at hn2
    cases hn2
    exact h2
  · intro ev id sk now s s2 n h hn
    obtain ⟨⟨n2, hn2, h2⟩, _⟩ := ly_delete_entry_inv h
    rw [hn] at hn2
    cases hn2
    exact h2
  · intro id now req s s2 h
    exact (lk_create_inv h).2.1
  · intro id now req s s2 h hnone
    rcases lk_ensure_inv h with ⟨hs, hc⟩ | ⟨_, hone, _⟩
    · exfalso
      cases hget : dictGet s.sets id with
      | none => simp [dictContains, hget] at hc
      | some v => simp [LinkSetStore.draftVersionOf, hget] at hnone
    · exact hone
  · intro id now req s s2 n h hn
    obtain ⟨⟨n2, hn2, h2⟩, _⟩ := lk_update_inv h
    rw [hn] at hn2
    cases hn2
    exact h2
  · intro id k request now s s2 row h hrow hcons
    obtain ⟨⟨row2, hrow2, h2⟩, _⟩ := lk_upsert_inv h
    rw [hrow] at hrow2
    cases hrow2
    rw [h2, hcons]
  · intro id k now s s2 row h hrow hcons
    obtain ⟨⟨row2, hrow2, h2⟩, _⟩ := lk_delete_entry_inv h
    rw [hrow] at hrow2
    cases hrow2
    rw [h2, hcons]
  · intro ev layouts links icons id now req s s2 h
    exact (gt_create_inv h).2.1
  · intro ev layouts links icons id now req s s2 h hnone
    rcases gt_ensure_inv h with ⟨hs, hc⟩ | ⟨_, hone, _⟩
    · exfalso
      cases hget : dictGet s.graphs id with
      | none => simp [dictContains, hget] at hc
      | some v => simp [GraphTypeStore.draftVersionOf, hget] at hnone
    · exact hone
  · intro ev layouts links icons id now req s s2 n h hn
    obtain ⟨⟨n2, hn2, h2⟩, _⟩ := gt_update_inv h
    rw [hn] at hn2
    cases hn2
    exact h2

theorem C2_witness :
    IconsetStore.draftVersionOf
        ⟨[("aa", ⟨"A", 1, "t",
            compute_iconset_checksum "aa" 1 "A" [("router", "mdi:router")],
            [("router", "mdi:router")]⟩)], []⟩ "aa" = some 1 ∧
    versionStep (IconsetStore.draftVersionOf ⟨[], []⟩ "zz")
      (IconsetStore.draftVersionOf
        (IconsetStore.stateAfter (.publish "zz") ⟨[], []⟩) "zz") ∧
    versionStep (LayoutSetStore.draftVersionOf ⟨[], []⟩ "zz")
      (LayoutSetStore.draftVersionOf
        (LayoutSetStore.stateAfter (fun l => .ok l) (.deleteSet "zz") ⟨[], []⟩) "zz") ∧
    versionStep (LinkSetStore.draftVersionOf ⟨[], []⟩ "zz")
      (LinkSetStore.draftVersionOf
        (LinkSetStore.stateAfter (.publish "zz") ⟨[], []⟩) "zz") ∧
    versionStep (GraphTypeStore.draftVersionOf ⟨[], []⟩ "zz")
      (GraphTypeStore.draftVersionOf
        (GraphTypeStore.stateAfter (fun l => .ok l) ⟨[], []⟩ ⟨[], []⟩ ⟨[], []⟩
          (.publish "zz") ⟨[], []⟩) "zz") :=
  ⟨C2_draft_version_monotonic.1.1 ⟨"aa", "A", [("router", "mdi:router")]⟩ "t" ⟨[], []⟩
      ⟨[("aa", ⟨"A", 1, "t",
          compute_iconset_checksum "aa" 1 "A" [("router", "mdi:router")],
          [("router", "mdi:router")]⟩)], []⟩ rfl,
   C2_draft_version_monotonic.1.2.2.2.2.2 (.publish "zz") ⟨[], []⟩ "zz",
   C2_draft_version_monotonic.2.1.2.2.2.2.2 (fun l => .ok l) (.deleteSet "zz") ⟨[], []⟩ "zz",
   C2_draft_version_monotonic.2.2.1.2.2.2.2.2 (.publish "zz") ⟨[], []⟩ "zz" (fun _ h => nomatch h),
   C2_draft_version_monotonic.2.2.2.2.2.2 (fun l => .ok l) ⟨[], []⟩ ⟨[], []⟩ ⟨[], []⟩ (.publish "zz")
     ⟨[], []⟩ "zz"⟩

end GraphAPI
